import Mathlib

/-! # i.MX 2D compositor: region layout and frame aggregation

A shallow embedding of `ext/imx2d/gstimx2dcompositor.c`:

* `recalculate_regions_if_needed` embeds
  `gst_imx_2d_compositor_pad_recalculate_regions_if_needed`,
* `aggregate_frames` embeds `gst_imx_2d_compositor_aggregate_frames`,
* `pad_init`, `pad_set_property`, `pad_get_property`, `downstream_event_probe`
  and `negotiated_src_caps` embed the functions that create, change and read
  a pad.

Calls that leave the file (blitter, uploader, buffer pool, letterbox helper)
are recorded as events of a trace; what they return is read from an `Env`.
`gint` values are integers, arithmetic on them wraps at 32 bits.
-/

namespace Imx2dCompositor

/-! ## Machine integers -/

/-- Two's complement reduction of an integer to the range of a 32 bit `gint`. -/
def wrapInt32 (v : Int) : Int := (v + 2147483648) % 4294967296 - 2147483648

/-- The `+` of two `gint` values. -/
def add32 (a b : Int) : Int := wrapInt32 (a + b)

/-- The `-` of two `gint` values. -/
def sub32 (a b : Int) : Int := wrapInt32 (a - b)

/-- A value that fits a `gint`. -/
def isInt32 (v : Int) : Prop := -2147483648 ≤ v ∧ v ≤ 2147483647

instance (v : Int) : Decidable (isInt32 v) := by unfold isInt32; infer_instance

/-! ## Data model -/

/-- Rectangle `Imx2dRegion`: `(x1, y1)` inclusive, `(x2, y2)` exclusive. -/
structure Imx2dRegion where
  x1 : Int
  y1 : Int
  x2 : Int
  y2 : Int
deriving DecidableEq, Repr

/-- Margin `Imx2dBlitMargin`: four sides and a 32 bit colour (0xAARRGGBB). -/
structure Imx2dBlitMargin where
  left_margin : Int
  top_margin : Int
  right_margin : Int
  bottom_margin : Int
  color : Nat
deriving DecidableEq, Repr

/-- The enumeration `GstVideoOrientationMethod`. -/
inductive GstVideoOrientationMethod where
  | GST_VIDEO_ORIENTATION_IDENTITY
  | GST_VIDEO_ORIENTATION_90R
  | GST_VIDEO_ORIENTATION_180
  | GST_VIDEO_ORIENTATION_90L
  | GST_VIDEO_ORIENTATION_HORIZ
  | GST_VIDEO_ORIENTATION_VERT
  | GST_VIDEO_ORIENTATION_UL_LR
  | GST_VIDEO_ORIENTATION_UR_LL
  | GST_VIDEO_ORIENTATION_AUTO
  | GST_VIDEO_ORIENTATION_CUSTOM
deriving DecidableEq, Repr

open GstVideoOrientationMethod

/-- The rotation values of the blit engine (`Imx2dRotation`). -/
inductive Imx2dRotation where
  | IMX_2D_ROTATION_NONE
  | IMX_2D_ROTATION_90
  | IMX_2D_ROTATION_180
  | IMX_2D_ROTATION_270
  | IMX_2D_ROTATION_FLIP_HORIZONTAL
  | IMX_2D_ROTATION_FLIP_VERTICAL
  | IMX_2D_ROTATION_UL_LR
  | IMX_2D_ROTATION_UR_LL
deriving DecidableEq, Repr

/-- The fields of `GstVideoInfo` that the compositor reads. `has_alpha` is
`GST_VIDEO_INFO_HAS_ALPHA` of the format. -/
structure GstVideoInfo where
  width : Int
  height : Int
  par_n : Int
  par_d : Int
  has_alpha : Bool
deriving DecidableEq, Repr

/-- The crop rectangle of a `GstVideoCropMeta`; its four fields are `guint`. -/
structure GstVideoCropMeta where
  x : Int
  y : Int
  width : Int
  height : Int
deriving DecidableEq, Repr

/-- An input buffer, as far as the compositor looks into it. -/
structure GstBuffer where
  crop_meta : Option GstVideoCropMeta
deriving DecidableEq, Repr

/-- The fields of `Imx2dSurfaceDesc` that the compositor writes itself; the
pixel format is the number of an `Imx2dPixelFormat`. -/
structure Imx2dSurfaceDesc where
  width : Int
  height : Int
  format : Nat
deriving DecidableEq, Repr

/-- The state of one `GstImx2dCompositorPad`, with the two fields of its parent
`GstVideoAggregatorPad` that the compositor reads (`info` and the current
buffer). The input surface and the uploader are objects of other modules and
appear through the calls made on them. `alpha` is a `gdouble`; a finite double
is a rational number and its comparison with `1.0` is exact. -/
structure GstImx2dCompositorPad where
  info : GstVideoInfo
  current_buffer : Option GstBuffer
  input_surface_desc : Imx2dSurfaceDesc
  total_region : Imx2dRegion
  outer_region : Imx2dRegion
  inner_region : Imx2dRegion
  inner_region_fills_output_frame : Bool
  total_region_fills_output_frame : Bool
  region_coords_need_update : Bool
  letterbox_margin : Imx2dBlitMargin
  combined_margin : Imx2dBlitMargin
  tag_video_direction : GstVideoOrientationMethod
  xpos : Int
  ypos : Int
  width : Int
  height : Int
  extra_margin : Imx2dBlitMargin
  video_direction : GstVideoOrientationMethod
  force_aspect_ratio : Bool
  input_crop : Bool
  alpha : ℚ
deriving DecidableEq

/-- The structure `Imx2dBlitParams`; a `NULL` pointer is `none`. -/
structure Imx2dBlitParams where
  source_region : Option Imx2dRegion
  dest_region : Option Imx2dRegion
  rotation : Imx2dRotation
  margin : Option Imx2dBlitMargin
  alpha : Int
deriving DecidableEq, Repr

/-- Calls made by the compositor, in the order they are made. Pads are named
by their position in the sinkpad list. -/
inductive Event where
  | acquire_intermediate_buffer
  | blitter_start
  | lock_compositor
  | unlock_compositor
  | lock_pad (i : Nat)
  | unlock_pad (i : Nat)
  | calculate_letterbox_margin (i : Nat) (outer : Imx2dRegion) (transposed : Bool)
      (video_width video_height par_n par_d : Int)
  | blitter_fill_region (region : Option Imx2dRegion) (color : Nat)
  | uploader_perform (i : Nat)
  | blitter_do_blit (i : Nat) (params : Imx2dBlitParams)
  | blitter_finish
  | transfer_to_output_buffer
  | unref_intermediate_buffer
deriving DecidableEq, Repr

/-- `GST_FLOW_OK`. -/
def GST_FLOW_OK : Int := 0

/-- `GST_FLOW_ERROR`. -/
def GST_FLOW_ERROR : Int := -5

/-- What the collaborators of the compositor compute and return during one
frame. `calculate_letterbox_margin` stands for
`gst_imx_2d_canvas_calculate_letterbox_margin`: it is handed the previous
content of the two objects it writes, then the outer region, the transposed
flag, the video size and the pixel aspect ratio, and gives the new letterbox
margin and inner region. `double_mul` is the product of two `gdouble` values.
The results of the uploader and of a blit are given per pad position. -/
structure Env where
  calculate_letterbox_margin :
    Imx2dBlitMargin → Imx2dRegion → Imx2dRegion → Bool → Int → Int → Int → Int →
      Imx2dBlitMargin × Imx2dRegion
  convert_from_video_orientation_method : GstVideoOrientationMethod → Imx2dRotation
  double_mul : ℚ → ℚ → ℚ
  acquire_intermediate_buffer : Int
  blitter_start : Bool
  blitter_fill_region : Bool
  uploader_perform : Nat → Int
  blitter_do_blit : Nat → Bool
  blitter_finish : Bool
  transfer_to_output_buffer : Bool

/-- The state of the `GstImx2dCompositor` element that one frame reads. -/
structure GstImx2dCompositor where
  background_color : Nat
  output_video_info : GstVideoInfo
  sinkpads : List GstImx2dCompositorPad

/-! ## The region layout engine -/

/-- Embeds `gst_imx_2d_compositor_pad_get_current_video_direction`. -/
def get_current_video_direction (self : GstImx2dCompositorPad) : GstVideoOrientationMethod :=
  if self.video_direction = GST_VIDEO_ORIENTATION_AUTO then self.tag_video_direction
  else self.video_direction

/-- The `switch (video_direction)` of the recalculation: which orientations
swap width and height. -/
def transposed_of (d : GstVideoOrientationMethod) : Bool :=
  match d with
  | GST_VIDEO_ORIENTATION_90L => true
  | GST_VIDEO_ORIENTATION_90R => true
  | GST_VIDEO_ORIENTATION_UL_LR => true
  | GST_VIDEO_ORIENTATION_UR_LL => true
  | _ => false

/-- The condition of the `if` that guards the letterbox calculation, evaluated
on the pad after its outer region has been written. -/
def letterbox_condition (self : GstImx2dCompositorPad) : Bool :=
  self.force_aspect_ratio
    && decide (self.outer_region.x1 < self.outer_region.x2)
    && decide (self.outer_region.y1 < self.outer_region.y2)
    && decide (self.info.width > 0)
    && decide (self.info.height > 0)

/-- The requested width of a pad; 0 means "use the width of the video". -/
def pad_width (self : GstImx2dCompositorPad) : Int :=
  if self.width ≠ 0 then self.width else self.info.width

/-- The requested height of a pad; 0 means "use the height of the video". -/
def pad_height (self : GstImx2dCompositorPad) : Int :=
  if self.height ≠ 0 then self.height else self.info.height

/-- First part of the recalculation: the total region, the outer region, and
the combined margin set to the extra margin (its colour is not written). -/
def recalculate_outer (self : GstImx2dCompositorPad) : GstImx2dCompositorPad :=
  let total : Imx2dRegion :=
    { x1 := self.xpos, y1 := self.ypos,
      x2 := add32 self.xpos (pad_width self), y2 := add32 self.ypos (pad_height self) }
  let outer : Imx2dRegion :=
    { x1 := add32 total.x1 self.extra_margin.left_margin,
      y1 := add32 total.y1 self.extra_margin.top_margin,
      x2 := sub32 total.x2 self.extra_margin.right_margin,
      y2 := sub32 total.y2 self.extra_margin.bottom_margin }
  let combined : Imx2dBlitMargin :=
    { self.combined_margin with
      left_margin := self.extra_margin.left_margin,
      top_margin := self.extra_margin.top_margin,
      right_margin := self.extra_margin.right_margin,
      bottom_margin := self.extra_margin.bottom_margin }
  { self with total_region := total, outer_region := outer, combined_margin := combined }

/-- Second part of the recalculation, for the pad at position `i`: either the
letterbox helper is called and its margin is added to the combined margin, or
the outer region is copied to the inner region. -/
def recalculate_inner (env : Env) (i : Nat) (self : GstImx2dCompositorPad) :
    GstImx2dCompositorPad × List Event :=
  if letterbox_condition self then
    let video_direction := get_current_video_direction self
    let transposed := transposed_of video_direction
    let lb := env.calculate_letterbox_margin self.letterbox_margin self.inner_region
      self.outer_region transposed self.info.width self.info.height self.info.par_n
      self.info.par_d
    let combined : Imx2dBlitMargin :=
      { self.combined_margin with
        left_margin := add32 self.combined_margin.left_margin lb.1.left_margin,
        top_margin := add32 self.combined_margin.top_margin lb.1.top_margin,
        right_margin := add32 self.combined_margin.right_margin lb.1.right_margin,
        bottom_margin := add32 self.combined_margin.bottom_margin lb.1.bottom_margin }
    ({ self with letterbox_margin := lb.1, inner_region := lb.2, combined_margin := combined },
      [Event.lock_pad i, Event.unlock_pad i,
        Event.calculate_letterbox_margin i self.outer_region transposed self.info.width
          self.info.height self.info.par_n self.info.par_d])
  else
    ({ self with inner_region := self.outer_region }, [])

/-- Third part of the recalculation: the two flags, and the dirty flag. The
locals `pad_width` and `pad_height` of the source are read again from the pad,
whose `width`, `height` and `info` no part of the recalculation writes. -/
def recalculate_flags (self : GstImx2dCompositorPad) (output_video_info : GstVideoInfo) :
    GstImx2dCompositorPad :=
  { self with
    inner_region_fills_output_frame :=
      decide (self.inner_region.x1 ≤ 0) && decide (self.inner_region.y1 ≤ 0)
        && decide (self.inner_region.x2 ≥ output_video_info.width)
        && decide (self.inner_region.y2 ≥ output_video_info.height),
    total_region_fills_output_frame :=
      decide (self.xpos ≤ 0) && decide (self.ypos ≤ 0)
        && decide (pad_width self ≥ output_video_info.width)
        && decide (pad_height self ≥ output_video_info.height),
    region_coords_need_update := false }

/-- Embeds `gst_imx_2d_compositor_pad_recalculate_regions_if_needed` for the
pad at position `i`: the new pad state and the calls made. -/
def recalculate_regions_if_needed (env : Env) (i : Nat) (self : GstImx2dCompositorPad)
    (output_video_info : GstVideoInfo) : GstImx2dCompositorPad × List Event :=
  if !self.region_coords_need_update then (self, [])
  else
    let r := recalculate_inner env i (recalculate_outer self)
    (recalculate_flags r.1 output_video_info, r.2)

/-! ## Pad creation and properties -/

/-- Embeds `gst_imx_2d_compositor_pad_init`. The instance memory is zero
filled before; the pad has no caps and no buffer yet. The `memset` and the
`memcpy` at its end cover `sizeof(Imx2dRegion)` bytes, the four sides of the
margin, and leave the colour alone. -/
def pad_init : GstImx2dCompositorPad :=
  { info := { width := 0, height := 0, par_n := 1, par_d := 1, has_alpha := false },
    current_buffer := none,
    input_surface_desc := { width := 0, height := 0, format := 0 },
    total_region := { x1 := 0, y1 := 0, x2 := 0, y2 := 0 },
    outer_region := { x1 := 0, y1 := 0, x2 := 0, y2 := 0 },
    inner_region := { x1 := 0, y1 := 0, x2 := 0, y2 := 0 },
    inner_region_fills_output_frame := true,
    total_region_fills_output_frame := true,
    region_coords_need_update := true,
    letterbox_margin :=
      { left_margin := 0, top_margin := 0, right_margin := 0, bottom_margin := 0, color := 0 },
    combined_margin :=
      { left_margin := 0, top_margin := 0, right_margin := 0, bottom_margin := 0,
        color := 0xFF000000 },
    tag_video_direction := GST_VIDEO_ORIENTATION_IDENTITY,
    xpos := 0, ypos := 0, width := 0, height := 0,
    extra_margin :=
      { left_margin := 0, top_margin := 0, right_margin := 0, bottom_margin := 0, color := 0 },
    video_direction := GST_VIDEO_ORIENTATION_IDENTITY,
    force_aspect_ratio := true,
    input_crop := true,
    alpha := 1 }

/-- A property of a pad together with the value written to it. -/
inductive PadPropertyValue where
  | PROP_PAD_XPOS (v : Int)
  | PROP_PAD_YPOS (v : Int)
  | PROP_PAD_WIDTH (v : Int)
  | PROP_PAD_HEIGHT (v : Int)
  | PROP_PAD_LEFT_MARGIN (v : Int)
  | PROP_PAD_TOP_MARGIN (v : Int)
  | PROP_PAD_RIGHT_MARGIN (v : Int)
  | PROP_PAD_BOTTOM_MARGIN (v : Int)
  | PROP_PAD_MARGIN_COLOR (v : Nat)
  | PROP_PAD_VIDEO_DIRECTION (v : GstVideoOrientationMethod)
  | PROP_PAD_FORCE_ASPECT_RATIO (v : Bool)
  | PROP_PAD_INPUT_CROP (v : Bool)
  | PROP_PAD_ALPHA (v : ℚ)

/-- Embeds `gst_imx_2d_compositor_pad_set_property`. -/
def pad_set_property (self : GstImx2dCompositorPad) :
    PadPropertyValue → GstImx2dCompositorPad
  | PadPropertyValue.PROP_PAD_XPOS v =>
    { self with xpos := v, region_coords_need_update := true }
  | PadPropertyValue.PROP_PAD_YPOS v =>
    { self with ypos := v, region_coords_need_update := true }
  | PadPropertyValue.PROP_PAD_WIDTH v =>
    { self with width := v, region_coords_need_update := true }
  | PadPropertyValue.PROP_PAD_HEIGHT v =>
    { self with height := v, region_coords_need_update := true }
  | PadPropertyValue.PROP_PAD_LEFT_MARGIN v =>
    { self with extra_margin := { self.extra_margin with left_margin := v },
                region_coords_need_update := true }
  | PadPropertyValue.PROP_PAD_TOP_MARGIN v =>
    { self with extra_margin := { self.extra_margin with top_margin := v },
                region_coords_need_update := true }
  | PadPropertyValue.PROP_PAD_RIGHT_MARGIN v =>
    { self with extra_margin := { self.extra_margin with right_margin := v },
                region_coords_need_update := true }
  | PadPropertyValue.PROP_PAD_BOTTOM_MARGIN v =>
    { self with extra_margin := { self.extra_margin with bottom_margin := v },
                region_coords_need_update := true }
  | PadPropertyValue.PROP_PAD_MARGIN_COLOR v =>
    { self with combined_margin := { self.combined_margin with color := v } }
  | PadPropertyValue.PROP_PAD_VIDEO_DIRECTION v =>
    { self with video_direction := v }
  | PadPropertyValue.PROP_PAD_FORCE_ASPECT_RATIO v =>
    { self with force_aspect_ratio := v, region_coords_need_update := true }
  | PadPropertyValue.PROP_PAD_INPUT_CROP v =>
    { self with input_crop := v }
  | PadPropertyValue.PROP_PAD_ALPHA v =>
    { self with alpha := v }

/-- A downstream event as the pad probe looks at it. A tag event carries what
`gst_imx_2d_orientation_from_image_direction_tag` finds in its tag list; a caps
event carries what `gst_imx_video_info_from_caps` makes of its caps, with the
pixel format that `gst_imx_2d_convert_from_gst_video_format` gives, or nothing
if the caps cannot be converted. -/
inductive GstEvent where
  | GST_EVENT_TAG (orientation : Option GstVideoOrientationMethod)
  | GST_EVENT_CAPS (converted : Option (GstVideoInfo × Nat))
  | GST_EVENT_OTHER
deriving DecidableEq

/-- Embeds `gst_imx_2d_compositor_downstream_event_probe`, as far as the state
of the pad goes; `is_event_downstream` is the test of the probe type. -/
def downstream_event_probe (pad : GstImx2dCompositorPad) (is_event_downstream : Bool)
    (event : GstEvent) : GstImx2dCompositorPad :=
  if !is_event_downstream then pad
  else
    match event with
    | GstEvent.GST_EVENT_TAG (some new_tag_video_direction) =>
      { pad with tag_video_direction := new_tag_video_direction }
    | GstEvent.GST_EVENT_TAG none => pad
    | GstEvent.GST_EVENT_CAPS none => pad
    | GstEvent.GST_EVENT_CAPS (some (video_info, format)) =>
      { pad with
        input_surface_desc :=
          { pad.input_surface_desc with
            width := video_info.width, height := video_info.height, format := format },
        region_coords_need_update := true }
    | GstEvent.GST_EVENT_OTHER => pad

/-- Embeds `gst_imx_2d_compositor_negotiated_src_caps`: `converted` is what
`gst_video_info_from_caps` makes of the output caps (after the alignment of its
strides), `parent_result` what the base class returns. The result is the return
value and the new state of the compositor. -/
def negotiated_src_caps (self : GstImx2dCompositor) (converted : Option GstVideoInfo)
    (parent_result : Bool) : Bool × GstImx2dCompositor :=
  match converted with
  | none => (false, self)
  | some output_video_info =>
    (parent_result,
      { self with
        output_video_info := output_video_info,
        sinkpads := self.sinkpads.map
          fun compositor_pad => { compositor_pad with region_coords_need_update := true } })

/-! ## The aggregation scheduler -/

/-- Truncation of a `gdouble` towards zero, the cast `(gint)`. -/
def double_to_gint (q : ℚ) : Int :=
  if 0 ≤ q then Rat.floor q else -Rat.floor (-q)

/-- The macro `CLAMP(x, low, high)` of GLib. -/
def CLAMP (x low high : Int) : Int :=
  if x > high then high else if x < low then low else x

/-- The expression `combined_margin.color >> 24` on the 32 bit colour. -/
def margin_alpha (m : Imx2dBlitMargin) : Nat := (m.color % 4294967296) / 16777216

/-- The body of the first walk for the pad at position `i`, after the pad's
regions have been recalculated: the new value of
`background_needs_to_be_cleared`. -/
def pass1_decide (pad : GstImx2dCompositorPad) (background_needs_to_be_cleared : Bool) : Bool :=
  match pad.current_buffer with
  | none => background_needs_to_be_cleared
  | some _ =>
    if pad.alpha < 1 then background_needs_to_be_cleared
    else if background_needs_to_be_cleared then
      if pad.info.has_alpha then background_needs_to_be_cleared
      else
        let c1 : Bool :=
          if pad.inner_region_fills_output_frame then false else background_needs_to_be_cleared
        if pad.total_region_fills_output_frame then
          if margin_alpha pad.combined_margin = 255 then false else c1
        else c1
    else background_needs_to_be_cleared

/-- The result of the first walk over the sinkpads. -/
structure Pass1Result where
  sinkpads : List GstImx2dCompositorPad
  background_needs_to_be_cleared : Bool
  trace : List Event

/-- The first walk of `gst_imx_2d_compositor_aggregate_frames` over the pads
from position `i` on: every pad has its regions recalculated if needed, then
takes part in the decision whether the background must be cleared. -/
def pass1 (env : Env) (output_video_info : GstVideoInfo) :
    Nat → List GstImx2dCompositorPad → Bool → Pass1Result
  | _, [], c => { sinkpads := [], background_needs_to_be_cleared := c, trace := [] }
  | i, pad :: rest, c =>
    let r := recalculate_regions_if_needed env i pad output_video_info
    let c1 := pass1_decide r.1 c
    let t := pass1 env output_video_info (i + 1) rest c1
    { sinkpads := r.1 :: t.sinkpads,
      background_needs_to_be_cleared := t.background_needs_to_be_cleared,
      trace := r.2 ++ t.trace }

/-- The blit parameters filled in for one pad: the snapshot taken under the
pad lock, then the crop rectangle if cropping is on and the buffer has one. -/
def fill_blit_params (env : Env) (pad : GstImx2dCompositorPad) (input_buffer : GstBuffer)
    (blit_params : Imx2dBlitParams) : Imx2dBlitParams :=
  let input_crop := pad.input_crop
  let video_direction := get_current_video_direction pad
  let alpha := CLAMP (double_to_gint (env.double_mul pad.alpha 255)) 0 255
  let inner_region := pad.inner_region
  let combined_margin := pad.combined_margin
  let p1 : Imx2dBlitParams :=
    { blit_params with
      margin := some combined_margin,
      source_region := none,
      dest_region := some inner_region,
      rotation := env.convert_from_video_orientation_method video_direction,
      alpha := alpha }
  if input_crop then
    match input_buffer.crop_meta with
    | some crop_meta =>
      { p1 with
        source_region := some
          { x1 := wrapInt32 crop_meta.x, y1 := wrapInt32 crop_meta.y,
            x2 := add32 crop_meta.x crop_meta.width,
            y2 := add32 crop_meta.y crop_meta.height } }
    | none => p1
  else p1

/-- The result of the second walk: `completed` is false when the walk left
through `error_while_locked`; `flow_ret` is the value of that variable then. -/
structure Pass2Result where
  completed : Bool
  flow_ret : Int
  trace : List Event

/-- The second walk of `gst_imx_2d_compositor_aggregate_frames` over the pads
from position `i` on: upload and blit of every pad that has a buffer. -/
def pass2 (env : Env) : Nat → List GstImx2dCompositorPad → Imx2dBlitParams → Int → Pass2Result
  | _, [], _, flow_ret => { completed := true, flow_ret := flow_ret, trace := [] }
  | i, pad :: rest, blit_params, flow_ret =>
    match pad.current_buffer with
    | none => pass2 env (i + 1) rest blit_params flow_ret
    | some input_buffer =>
      let flow_ret1 := env.uploader_perform i
      if flow_ret1 ≠ GST_FLOW_OK then
        { completed := false, flow_ret := flow_ret1,
          trace := [Event.lock_pad i, Event.unlock_pad i, Event.uploader_perform i] }
      else
        let blit_params1 := fill_blit_params env pad input_buffer blit_params
        if !env.blitter_do_blit i then
          { completed := false, flow_ret := flow_ret1,
            trace := [Event.lock_pad i, Event.unlock_pad i, Event.uploader_perform i,
              Event.blitter_do_blit i blit_params1] }
        else
          let t := pass2 env (i + 1) rest blit_params1 flow_ret1
          { completed := t.completed, flow_ret := t.flow_ret,
            trace := [Event.lock_pad i, Event.unlock_pad i, Event.uploader_perform i,
              Event.blitter_do_blit i blit_params1] ++ t.trace }

/-- The result of one call of `gst_imx_2d_compositor_aggregate_frames`. -/
structure AggregateResult where
  flow_ret : Int
  sinkpads : List GstImx2dCompositorPad
  trace : List Event

/-- The code at the label `error`. -/
def error_label (flow_ret : Int) : Int :=
  if flow_ret ≠ GST_FLOW_OK then GST_FLOW_ERROR else flow_ret

/-- The code from the label `finish` to the `return`. -/
def finish_label (env : Env) (blitting_started : Bool) (flow_ret : Int) : Int × List Event :=
  let r : Int × List Event :=
    if blitting_started then
      if !env.blitter_finish then (GST_FLOW_ERROR, [Event.blitter_finish])
      else (flow_ret, [Event.blitter_finish])
    else (flow_ret, [])
  if r.1 = GST_FLOW_OK then
    if !env.transfer_to_output_buffer then
      (GST_FLOW_ERROR, r.2 ++ [Event.transfer_to_output_buffer])
    else (r.1, r.2 ++ [Event.transfer_to_output_buffer])
  else (r.1, r.2 ++ [Event.unref_intermediate_buffer])

/-- The blit parameters after `memset(&blit_params, 0, sizeof(blit_params))`. -/
def blit_params_zero : Imx2dBlitParams :=
  { source_region := none, dest_region := none,
    rotation := Imx2dRotation.IMX_2D_ROTATION_NONE, margin := none, alpha := 0 }

/-- The result of the part of `gst_imx_2d_compositor_aggregate_frames` that runs
with the compositor locked: `flow_ret` is the value of that variable on arrival
at the label `finish`. -/
structure LockedResult where
  flow_ret : Int
  sinkpads : List GstImx2dCompositorPad
  trace : List Event

/-- The part of `gst_imx_2d_compositor_aggregate_frames` between
`GST_OBJECT_LOCK(self)` and the unlock: the first walk, the clearing of the
background, the second walk. A failure leaves through `error_while_locked`,
which unlocks and passes through the label `error`. -/
def aggregate_locked (env : Env) (self : GstImx2dCompositor) (flow_ret : Int) : LockedResult :=
  let w1 := pass1 env self.output_video_info 0 self.sinkpads true
  if w1.background_needs_to_be_cleared && !env.blitter_fill_region then
    { flow_ret := error_label flow_ret, sinkpads := w1.sinkpads,
      trace := w1.trace ++ [Event.blitter_fill_region none self.background_color] }
  else
    let clear : List Event :=
      if w1.background_needs_to_be_cleared then
        [Event.blitter_fill_region none self.background_color]
      else []
    let w2 := pass2 env 0 w1.sinkpads blit_params_zero flow_ret
    { flow_ret := if !w2.completed then error_label w2.flow_ret else w2.flow_ret,
      sinkpads := w1.sinkpads,
      trace := w1.trace ++ clear ++ w2.trace }

/-- Embeds `gst_imx_2d_compositor_aggregate_frames`. -/
def aggregate_frames (env : Env) (self : GstImx2dCompositor) : AggregateResult :=
  let flow_ret := env.acquire_intermediate_buffer
  if flow_ret ≠ GST_FLOW_OK then
    let f := finish_label env false (error_label flow_ret)
    { flow_ret := f.1, sinkpads := self.sinkpads,
      trace := [Event.acquire_intermediate_buffer] ++ f.2 }
  else if !env.blitter_start then
    let f := finish_label env false (error_label flow_ret)
    { flow_ret := f.1, sinkpads := self.sinkpads,
      trace := [Event.acquire_intermediate_buffer, Event.blitter_start] ++ f.2 }
  else
    let b := aggregate_locked env self flow_ret
    let f := finish_label env true b.flow_ret
    { flow_ret := f.1, sinkpads := b.sinkpads,
      trace := [Event.acquire_intermediate_buffer, Event.blitter_start, Event.lock_compositor]
        ++ b.trace ++ [Event.unlock_compositor] ++ f.2 }

/-! ## Classification of events -/

/-- A call of `imx_2d_blitter_fill_region`. -/
def Event.is_fill_region : Event → Bool
  | Event.blitter_fill_region _ _ => true
  | _ => false

/-- A call of `gst_imx_video_uploader_perform`. -/
def Event.is_upload : Event → Bool
  | Event.uploader_perform _ => true
  | _ => false

/-- A call of `imx_2d_blitter_do_blit`. -/
def Event.is_blit : Event → Bool
  | Event.blitter_do_blit _ _ => true
  | _ => false

/-- The position of the pad that an upload or a blit is made for. -/
def Event.pad_index : Event → Option Nat
  | Event.uploader_perform i => some i
  | Event.blitter_do_blit i _ => some i
  | _ => none

/-- Events that the recalculation of a pad can make. -/
def Event.is_recalculation : Event → Bool
  | Event.lock_pad _ => true
  | Event.unlock_pad _ => true
  | Event.calculate_letterbox_margin _ _ _ _ _ _ _ => true
  | _ => false

/-- Events that the second walk can make. -/
def Event.is_pass2 : Event → Bool
  | Event.lock_pad _ => true
  | Event.unlock_pad _ => true
  | Event.uploader_perform _ => true
  | Event.blitter_do_blit _ _ => true
  | _ => false

/-! ## The conditions of the specification -/

/-- The top byte (bits 24..31) of a colour. -/
def top_byte (color : Nat) : Nat := (color / 16777216) % 256

/-- The clear-skip condition of the channel `pad` at position `i`: it has a
current buffer, its opacity is not below 1.0, its pixel format has no alpha
channel, and its freshly recomputed flags say that the inner region fills the
output, or that the total region fills the output and the margin colour is
fully opaque. -/
def clear_skip_condition (env : Env) (output_video_info : GstVideoInfo) (i : Nat)
    (pad : GstImx2dCompositorPad) : Prop :=
  pad.current_buffer.isSome = true ∧ ¬ pad.alpha < 1 ∧ pad.info.has_alpha = false ∧
    ((recalculate_regions_if_needed env i pad output_video_info).1.inner_region_fills_output_frame
        = true ∨
      ((recalculate_regions_if_needed env i pad output_video_info).1.total_region_fills_output_frame
        = true ∧
        top_byte (recalculate_regions_if_needed env i pad output_video_info).1.combined_margin.color
          = 255))

/-- The stored flag `inner_region_fills_output_frame` of a pad is in step with
its stored inner region and the output size, or the pad is marked for
recalculation. This is how the recalculation leaves a pad. -/
def inner_flag_fresh (pad : GstImx2dCompositorPad) (out : GstVideoInfo) : Prop :=
  pad.region_coords_need_update = false →
    pad.inner_region_fills_output_frame =
      (decide (pad.inner_region.x1 ≤ 0) && decide (pad.inner_region.y1 ≤ 0)
        && decide (pad.inner_region.x2 ≥ out.width)
        && decide (pad.inner_region.y2 ≥ out.height))

/-- The positions, counted from `k`, of the pads of a list that hold a current
buffer, in the order of the list. -/
def buffer_positions : Nat → List GstImx2dCompositorPad → List Nat
  | _, [] => []
  | k, pad :: rest =>
    if pad.current_buffer.isSome then k :: buffer_positions (k + 1) rest
    else buffer_positions (k + 1) rest

/-- The uploads and blits of a trace, in order: for each one, whether it is a
blit and for which pad it is made. -/
def submissions (trace : List Event) : List (Bool × Option Nat) :=
  (trace.filter fun e => e.is_upload || e.is_blit).map fun e => (e.is_blit, e.pad_index)

/-- The source region that the specification gives for a blit: the crop
rectangle of the buffer if cropping is enabled and the buffer carries one,
otherwise none (the whole surface). -/
def expected_source_region (pad : GstImx2dCompositorPad) (input_buffer : GstBuffer) :
    Option Imx2dRegion :=
  if pad.input_crop then
    input_buffer.crop_meta.map fun c =>
      { x1 := wrapInt32 c.x, y1 := wrapInt32 c.y,
        x2 := add32 c.x c.width, y2 := add32 c.y c.height }
  else none

/-! ## Concrete environments, pads and compositors -/

/-- Modelled from the spec: the letterbox helper
`gst_imx_2d_canvas_calculate_letterbox_margin`, whose code is not in this file.
The source rectangle, corrected by the pixel aspect ratio and with width and
height swapped when `transposed`, is fitted into the outer region and centred
there; the margin is what remains on each side, the inner region is the outer
region shrunk by it. The colour of the margin is not written. -/
def calculate_letterbox_margin_model (margin : Imx2dBlitMargin) (_inner : Imx2dRegion)
    (outer : Imx2dRegion) (transposed : Bool) (video_width video_height par_n par_d : Int) :
    Imx2dBlitMargin × Imx2dRegion :=
  let n0 := video_width * par_n
  let d0 := video_height * par_d
  let n := if transposed then d0 else n0
  let d := if transposed then n0 else d0
  let outer_w := outer.x2 - outer.x1
  let outer_h := outer.y2 - outer.y1
  let inner_w := if outer_w * d ≥ outer_h * n then outer_h * n / d else outer_w
  let inner_h := if outer_w * d ≥ outer_h * n then outer_h else outer_w * d / n
  let left := (outer_w - inner_w) / 2
  let top := (outer_h - inner_h) / 2
  let right := outer_w - inner_w - left
  let bottom := outer_h - inner_h - top
  ({ margin with left_margin := left, top_margin := top, right_margin := right,
                 bottom_margin := bottom },
   { x1 := outer.x1 + left, y1 := outer.y1 + top, x2 := outer.x2 - right,
     y2 := outer.y2 - bottom })

/-- An environment in which every call succeeds; the product of doubles is
taken exactly (numerators and denominators multiplied, then reduced), the
letterbox helper is the model above. -/
def env_ok : Env :=
  { calculate_letterbox_margin := calculate_letterbox_margin_model,
    convert_from_video_orientation_method := fun d =>
      match d with
      | GST_VIDEO_ORIENTATION_90R => Imx2dRotation.IMX_2D_ROTATION_90
      | GST_VIDEO_ORIENTATION_180 => Imx2dRotation.IMX_2D_ROTATION_180
      | GST_VIDEO_ORIENTATION_90L => Imx2dRotation.IMX_2D_ROTATION_270
      | GST_VIDEO_ORIENTATION_HORIZ => Imx2dRotation.IMX_2D_ROTATION_FLIP_HORIZONTAL
      | GST_VIDEO_ORIENTATION_VERT => Imx2dRotation.IMX_2D_ROTATION_FLIP_VERTICAL
      | GST_VIDEO_ORIENTATION_UL_LR => Imx2dRotation.IMX_2D_ROTATION_UL_LR
      | GST_VIDEO_ORIENTATION_UR_LL => Imx2dRotation.IMX_2D_ROTATION_UR_LL
      | _ => Imx2dRotation.IMX_2D_ROTATION_NONE,
    double_mul := fun a b => mkRat (a.num * b.num) (a.den * b.den),
    acquire_intermediate_buffer := GST_FLOW_OK,
    blitter_start := true,
    blitter_fill_region := true,
    uploader_perform := fun _ => GST_FLOW_OK,
    blitter_do_blit := fun _ => true,
    blitter_finish := true,
    transfer_to_output_buffer := true }

/-- A 640x480 output without alpha channel. -/
def output_640x480 : GstVideoInfo :=
  { width := 640, height := 480, par_n := 1, par_d := 1, has_alpha := false }

/-- A new pad that has received caps of a 1920x1080 video without alpha
channel and holds a buffer without crop rectangle. -/
def pad_1080p : GstImx2dCompositorPad :=
  { pad_init with
    info := { width := 1920, height := 1080, par_n := 1, par_d := 1, has_alpha := false },
    current_buffer := some { crop_meta := none } }

/-- The pad `pad_1080p` scaled to 320x240 by its `width` and `height`. -/
def pad_320x240 : GstImx2dCompositorPad :=
  { pad_1080p with width := 320, height := 240 }

/-- A compositor with a 640x480 output and two pads with buffers, the first
one 320x240 at the origin, the second one 320x240 at (320, 240). Neither pad
fills the output. -/
def compositor_two_pads : GstImx2dCompositor :=
  { background_color := 0x102030, output_video_info := output_640x480,
    sinkpads := [pad_320x240, { pad_320x240 with xpos := 320, ypos := 240 }] }

/-- A compositor with a 640x480 output and one pad that shows a 1920x1080
video unscaled at the origin, which covers the output. -/
def compositor_covered : GstImx2dCompositor :=
  { background_color := 0x102030, output_video_info := output_640x480,
    sinkpads := [pad_1080p] }

/-- A pad showing a 640x480 video at the origin, as a frame on a 640x480
output has left it (regions computed, not dirty), that holds no buffer now. -/
def pad_vga_idle : GstImx2dCompositorPad :=
  (recalculate_regions_if_needed env_ok 0
    { pad_init with
      info := { width := 640, height := 480, par_n := 1, par_d := 1, has_alpha := false } }
    output_640x480).1

/-- A compositor with a 640x480 output whose only pad is `pad_vga_idle`. -/
def compositor_idle : GstImx2dCompositor :=
  { background_color := 0x102030, output_video_info := output_640x480,
    sinkpads := [pad_vga_idle] }

/-- An environment in which the blit for the first pad is rejected. -/
def env_blit_rejected : Env :=
  { env_ok with blitter_do_blit := fun i => decide (i ≠ 0) }

/-- An environment in which the blitter cannot be started. -/
def env_start_failed : Env :=
  { env_ok with blitter_start := false }

/-- The blit parameters of `pad_320x240` once its regions are computed for a
640x480 output: the 16:9 video is letterboxed into 320x180. -/
def blit_params_320x240 : Imx2dBlitParams :=
  { source_region := none,
    dest_region := some { x1 := 0, y1 := 30, x2 := 320, y2 := 210 },
    rotation := Imx2dRotation.IMX_2D_ROTATION_NONE,
    margin := some { left_margin := 0, top_margin := 30, right_margin := 0,
                     bottom_margin := 30, color := 0xFF000000 },
    alpha := 255 }

/-- The pad `pad_1080p` with buffer, scaled to 640x480. -/
def pad_640x480 : GstImx2dCompositorPad :=
  { pad_1080p with width := 640, height := 480 }

/-- A compositor with a 640x480 output whose only pad shows a 640x480 video at
the origin and holds a buffer. -/
def compositor_vga : GstImx2dCompositor :=
  { background_color := 0x102030, output_video_info := output_640x480,
    sinkpads := [{ pad_vga_idle with current_buffer := some { crop_meta := none } }] }

/-- The pad `pad_640x480` after a frame on a 640x480 output: the 16:9 video is
letterboxed with a margin of 60 rows above and below. -/
def pad_letterboxed : GstImx2dCompositorPad :=
  (recalculate_regions_if_needed env_ok 0 pad_640x480 output_640x480).1

/-- The pad `pad_letterboxed` after its property force-aspect-ratio has been
set to FALSE. -/
def pad_aspect_released : GstImx2dCompositorPad :=
  pad_set_property pad_letterboxed (PadPropertyValue.PROP_PAD_FORCE_ASPECT_RATIO false)

/-- The pad `pad_1080p` moved to (100, 50) with extra margins 10 (left),
20 (top), 30 (right) and 40 (bottom). -/
def pad_with_margins : GstImx2dCompositorPad :=
  { pad_1080p with
    xpos := 100, ypos := 50,
    extra_margin := { left_margin := 10, top_margin := 20, right_margin := 30,
                      bottom_margin := 40, color := 0 } }

/-- A pad close to the right end of the `gint` range: xpos = 2147483640, a
5x5 size, a left margin of 10 and no aspect-ratio preservation. -/
def pad_far_right : GstImx2dCompositorPad :=
  { pad_1080p with
    xpos := 2147483640, width := 5, height := 5, force_aspect_ratio := false,
    extra_margin := { left_margin := 10, top_margin := 0, right_margin := 0,
                      bottom_margin := 0, color := 0 } }
/-- The pad `pad_1080p` scaled to 640x480 and moved 100 columns to the left of
the output. -/
def pad_shifted_left : GstImx2dCompositorPad :=
  { pad_1080p with xpos := -100, width := 640, height := 480 }

/-- A compositor with a 640x480 output whose only pad is `pad_shifted_left`. -/
def compositor_shifted_left : GstImx2dCompositor :=
  { background_color := 0x102030, output_video_info := output_640x480,
    sinkpads := [pad_shifted_left] }

/-- The pad `pad_letterboxed` with its rotation taken from the stream tags
(video-direction set to automatic before the frame that computed its regions). -/
def pad_letterboxed_auto : GstImx2dCompositorPad :=
  (recalculate_regions_if_needed env_ok 0
    { pad_640x480 with video_direction := GST_VIDEO_ORIENTATION_AUTO } output_640x480).1

/-- A compositor with a 640x480 output and four pads: one that covers the
output, one without buffer, one with opacity 0 whose buffer carries a crop
rectangle, and one whose format has an alpha channel. -/
def compositor_mixed : GstImx2dCompositor :=
  { background_color := 0x102030, output_video_info := output_640x480,
    sinkpads :=
      [pad_1080p,
       { pad_320x240 with current_buffer := none },
       { pad_320x240 with
         alpha := 0, xpos := 320,
         current_buffer := some { crop_meta := some { x := 8, y := 16, width := 64, height := 32 } } },
       { pad_320x240 with
         info := { width := 1920, height := 1080, par_n := 1, par_d := 1, has_alpha := true },
         ypos := 240 }] }

/-- The blit parameters of the third pad of `compositor_mixed`: opacity 0 and
the crop rectangle (8, 16, 72, 48) as source region. -/
def blit_params_cropped : Imx2dBlitParams :=
  { source_region := some { x1 := 8, y1 := 16, x2 := 72, y2 := 48 },
    dest_region := some { x1 := 320, y1 := 30, x2 := 640, y2 := 210 },
    rotation := Imx2dRotation.IMX_2D_ROTATION_NONE,
    margin := some { left_margin := 0, top_margin := 30, right_margin := 0,
                     bottom_margin := 30, color := 0xFF000000 },
    alpha := 0 }

/-- The blit parameters of the fourth pad of `compositor_mixed`: the whole
surface as source, opacity 255. -/
def blit_params_uncropped : Imx2dBlitParams :=
  { source_region := none,
    dest_region := some { x1 := 0, y1 := 270, x2 := 320, y2 := 450 },
    rotation := Imx2dRotation.IMX_2D_ROTATION_NONE,
    margin := some { left_margin := 0, top_margin := 30, right_margin := 0,
                     bottom_margin := 30, color := 0xFF000000 },
    alpha := 255 }

/-- An environment in which the upload for the second pad fails with
`GST_FLOW_FLUSHING` (-2). -/
def env_upload_failed : Env :=
  { env_ok with uploader_perform := fun i => if i = 1 then -2 else GST_FLOW_OK }

/-- An environment in which the blit for the first pad is rejected and
`imx_2d_blitter_finish` fails as well. -/
def env_blit_and_finish_failed : Env :=
  { env_blit_rejected with blitter_finish := false }

/-- The identifiers of the pad properties. -/
inductive PadPropertyId where
  | PROP_PAD_XPOS
  | PROP_PAD_YPOS
  | PROP_PAD_WIDTH
  | PROP_PAD_HEIGHT
  | PROP_PAD_LEFT_MARGIN
  | PROP_PAD_TOP_MARGIN
  | PROP_PAD_RIGHT_MARGIN
  | PROP_PAD_BOTTOM_MARGIN
  | PROP_PAD_MARGIN_COLOR
  | PROP_PAD_VIDEO_DIRECTION
  | PROP_PAD_FORCE_ASPECT_RATIO
  | PROP_PAD_INPUT_CROP
  | PROP_PAD_ALPHA
deriving DecidableEq, Repr

/-- Embeds `gst_imx_2d_compositor_pad_get_property`: the value that is put
into the `GValue` for the property asked for. -/
def pad_get_property (self : GstImx2dCompositorPad) : PadPropertyId → PadPropertyValue
  | PadPropertyId.PROP_PAD_XPOS => PadPropertyValue.PROP_PAD_XPOS self.outer_region.x1
  | PadPropertyId.PROP_PAD_YPOS => PadPropertyValue.PROP_PAD_YPOS self.outer_region.y1
  | PadPropertyId.PROP_PAD_WIDTH => PadPropertyValue.PROP_PAD_WIDTH self.width
  | PadPropertyId.PROP_PAD_HEIGHT => PadPropertyValue.PROP_PAD_HEIGHT self.height
  | PadPropertyId.PROP_PAD_LEFT_MARGIN =>
    PadPropertyValue.PROP_PAD_LEFT_MARGIN self.extra_margin.left_margin
  | PadPropertyId.PROP_PAD_TOP_MARGIN =>
    PadPropertyValue.PROP_PAD_TOP_MARGIN self.extra_margin.top_margin
  | PadPropertyId.PROP_PAD_RIGHT_MARGIN =>
    PadPropertyValue.PROP_PAD_RIGHT_MARGIN self.extra_margin.right_margin
  | PadPropertyId.PROP_PAD_BOTTOM_MARGIN =>
    PadPropertyValue.PROP_PAD_BOTTOM_MARGIN self.extra_margin.bottom_margin
  | PadPropertyId.PROP_PAD_MARGIN_COLOR =>
    PadPropertyValue.PROP_PAD_MARGIN_COLOR self.combined_margin.color
  | PadPropertyId.PROP_PAD_VIDEO_DIRECTION =>
    PadPropertyValue.PROP_PAD_VIDEO_DIRECTION self.video_direction
  | PadPropertyId.PROP_PAD_FORCE_ASPECT_RATIO =>
    PadPropertyValue.PROP_PAD_FORCE_ASPECT_RATIO self.force_aspect_ratio
  | PadPropertyId.PROP_PAD_INPUT_CROP => PadPropertyValue.PROP_PAD_INPUT_CROP self.input_crop
  | PadPropertyId.PROP_PAD_ALPHA => PadPropertyValue.PROP_PAD_ALPHA self.alpha

/-- The pad `pad_1080p` scaled to 640x480 with margins of 400 columns at the
left and at the right, which leave an outer region of -160 columns. -/
def pad_wide_margins : GstImx2dCompositorPad :=
  { pad_640x480 with
    extra_margin := { left_margin := 400, top_margin := 0, right_margin := 400,
                      bottom_margin := 0, color := 0 } }

/-- A compositor with a 640x480 output whose only pad is `pad_wide_margins`. -/
def compositor_wide_margins : GstImx2dCompositor :=
  { background_color := 0x102030, output_video_info := output_640x480,
    sinkpads := [pad_wide_margins] }

/-- The blit parameters of `pad_wide_margins`: the destination is its inverted
outer region. -/
def blit_params_inverted : Imx2dBlitParams :=
  { source_region := none,
    dest_region := some { x1 := 400, y1 := 0, x2 := 240, y2 := 480 },
    rotation := Imx2dRotation.IMX_2D_ROTATION_NONE,
    margin := some { left_margin := 400, top_margin := 0, right_margin := 400,
                     bottom_margin := 0, color := 0xFF000000 },
    alpha := 255 }

/-- A new pad with a 1920x1080 video at the right end of the `gint` range:
xpos = 2147483647, width = 1. -/
def pad_at_int_max : GstImx2dCompositorPad :=
  { pad_1080p with xpos := 2147483647, width := 1, height := 1 }
/-- The pad `pad_640x480` with the video direction set to automatic and the
tag orientation 90R stored by an earlier tag event. -/
def pad_rotated_by_tag : GstImx2dCompositorPad :=
  { pad_640x480 with
    video_direction := GST_VIDEO_ORIENTATION_AUTO
    tag_video_direction := GST_VIDEO_ORIENTATION_90R }

/-- The locks held at a point of a trace: whether the object lock of the
compositor is held, the positions of the pads whose object lock is held, and
whether a lock was taken while already held or released while not held. -/
structure LockState where
  compositor : Bool
  pads : List Nat
  misuse : Bool
deriving DecidableEq, Repr

/-- No lock is held and no lock was misused. -/
def LockState.unlocked : LockState := { compositor := false, pads := [], misuse := false }

/-- Only the object lock of the compositor is held. -/
def LockState.compositor_locked : LockState :=
  { compositor := true, pads := [], misuse := false }

/-- The effect of one event on the locks: `GST_OBJECT_LOCK` and
`GST_OBJECT_UNLOCK` of the compositor and of a pad; other calls leave the
locks as they are. -/
def LockState.step (s : LockState) : Event → LockState
  | Event.lock_compositor =>
    { s with compositor := true, misuse := s.misuse || s.compositor }
  | Event.unlock_compositor =>
    { s with compositor := false, misuse := s.misuse || !s.compositor }
  | Event.lock_pad i =>
    { s with pads := i :: s.pads, misuse := s.misuse || decide (i ∈ s.pads) }
  | Event.unlock_pad i =>
    { s with pads := s.pads.erase i, misuse := s.misuse || !decide (i ∈ s.pads) }
  | _ => s

/-- The locks after a trace that starts with the locks `s`. -/
def locks_after (s : LockState) (trace : List Event) : LockState :=
  trace.foldl LockState.step s

/-- The locks at the moment of every upload and blit of a trace that starts
with the locks `s`, in the order of the trace. -/
def locks_at_submissions : LockState → List Event → List LockState
  | _, [] => []
  | s, e :: rest =>
    if e.is_upload || e.is_blit then s :: locks_at_submissions s rest
    else locks_at_submissions (s.step e) rest

/-- The pad `pad_letterboxed` after its property video-direction has been set
to 90R: the dirty flag is clear and the stored regions are those of the upright
video. -/
def pad_rotated_clean : GstImx2dCompositorPad :=
  pad_set_property pad_letterboxed
    (PadPropertyValue.PROP_PAD_VIDEO_DIRECTION GST_VIDEO_ORIENTATION_90R)

/-- A compositor with a 640x480 output whose only pad is `pad_rotated_clean`. -/
def compositor_rotated_clean : GstImx2dCompositor :=
  { background_color := 0x102030, output_video_info := output_640x480,
    sinkpads := [pad_rotated_clean] }

/-- The blit parameters of the pad of `compositor_rotated_clean`: the rotation
by 90 degrees together with the inner region and the margin of the upright
video. -/
def blit_params_rotated_stale : Imx2dBlitParams :=
  { source_region := none,
    dest_region := some { x1 := 0, y1 := 60, x2 := 640, y2 := 420 },
    rotation := Imx2dRotation.IMX_2D_ROTATION_90,
    margin := some { left_margin := 0, top_margin := 60, right_margin := 0,
                     bottom_margin := 60, color := 0xFF000000 },
    alpha := 255 }

/-! # Theorems -/

/-! ## Lemmas on the recalculation -/

theorem env_ok_double_mul (a b : ℚ) : env_ok.double_mul a b = a * b := by
  show mkRat (a.num * b.num) (a.den * b.den) = a * b
  rw [Rat.mul_def, Rat.normalize_eq_mkRat]

theorem margin_alpha_eq_top_byte (m : Imx2dBlitMargin) : margin_alpha m = top_byte m.color := by
  unfold margin_alpha top_byte
  omega

theorem recalculate_current_buffer (env : Env) (i : Nat) (pad : GstImx2dCompositorPad)
    (out : GstVideoInfo) :
    (recalculate_regions_if_needed env i pad out).1.current_buffer = pad.current_buffer := by
  unfold recalculate_regions_if_needed recalculate_flags recalculate_inner recalculate_outer
  by_cases h : pad.region_coords_need_update <;> simp [h]
  split <;> rfl

theorem recalculate_alpha (env : Env) (i : Nat) (pad : GstImx2dCompositorPad)
    (out : GstVideoInfo) :
    (recalculate_regions_if_needed env i pad out).1.alpha = pad.alpha := by
  unfold recalculate_regions_if_needed recalculate_flags recalculate_inner recalculate_outer
  by_cases h : pad.region_coords_need_update <;> simp [h]
  split <;> rfl

theorem recalculate_info (env : Env) (i : Nat) (pad : GstImx2dCompositorPad)
    (out : GstVideoInfo) :
    (recalculate_regions_if_needed env i pad out).1.info = pad.info := by
  unfold recalculate_regions_if_needed recalculate_flags recalculate_inner recalculate_outer
  by_cases h : pad.region_coords_need_update <;> simp [h]
  split <;> rfl

/-! ## Lemmas on the first walk -/

theorem pass1_decide_eq_false_iff (pad : GstImx2dCompositorPad) (c : Bool) :
    pass1_decide pad c = false ↔
      c = false ∨
        (pad.current_buffer.isSome = true ∧ ¬ pad.alpha < 1 ∧ pad.info.has_alpha = false ∧
          (pad.inner_region_fills_output_frame = true ∨
            (pad.total_region_fills_output_frame = true ∧
              margin_alpha pad.combined_margin = 255))) := by
  unfold pass1_decide
  cases hb : pad.current_buffer with
  | none => simp
  | some b =>
    by_cases ha : pad.alpha < 1
    · simp [ha]
    · cases c with
      | false => simp [ha]
      | true =>
        cases h1 : pad.info.has_alpha <;> cases h2 : pad.inner_region_fills_output_frame <;>
          cases h3 : pad.total_region_fills_output_frame <;>
          by_cases h4 : margin_alpha pad.combined_margin = 255 <;> simp [ha, h4]

theorem pass1_needs_clear_eq_false_iff (env : Env) (out : GstVideoInfo)
    (pads : List GstImx2dCompositorPad) :
    ∀ (k : Nat) (c : Bool),
      (pass1 env out k pads c).background_needs_to_be_cleared = false ↔
        c = false ∨ ∃ j pad, pads[j]? = some pad ∧ clear_skip_condition env out (k + j) pad := by
  induction pads with
  | nil => intro k c; simp [pass1]
  | cons pad rest ih =>
    intro k c
    simp only [pass1]
    rw [ih (k + 1), pass1_decide_eq_false_iff, recalculate_current_buffer, recalculate_alpha,
      recalculate_info, margin_alpha_eq_top_byte]
    constructor
    · rintro ((hc | hpad) | ⟨j, q, hq, hcond⟩)
      · exact Or.inl hc
      · exact Or.inr ⟨0, pad, by simp, by simpa [clear_skip_condition] using hpad⟩
      · refine Or.inr ⟨j + 1, q, by simpa using hq, ?_⟩
        have : k + (j + 1) = k + 1 + j := by omega
        rw [this]; exact hcond
    · rintro (hc | ⟨j, q, hq, hcond⟩)
      · exact Or.inl (Or.inl hc)
      · cases j with
        | zero =>
          simp at hq
          subst hq
          exact Or.inl (Or.inr (by simpa [clear_skip_condition] using hcond))
        | succ j =>
          refine Or.inr ⟨j, q, by simpa using hq, ?_⟩
          have : k + 1 + j = k + (j + 1) := by omega
          rw [this]; exact hcond

/-! ## Lemmas on the traces of the two walks -/

theorem recalculate_trace_is_recalculation (env : Env) (i : Nat) (pad : GstImx2dCompositorPad)
    (out : GstVideoInfo) :
    ∀ e ∈ (recalculate_regions_if_needed env i pad out).2, e.is_recalculation = true := by
  unfold recalculate_regions_if_needed recalculate_inner
  by_cases h : pad.region_coords_need_update <;> simp [h]
  split <;> simp [Event.is_recalculation]

theorem pass1_trace_is_recalculation (env : Env) (out : GstVideoInfo)
    (pads : List GstImx2dCompositorPad) :
    ∀ (k : Nat) (c : Bool), ∀ e ∈ (pass1 env out k pads c).trace, e.is_recalculation = true := by
  induction pads with
  | nil => intro k c e he; simp [pass1] at he
  | cons pad rest ih =>
    intro k c e he
    simp only [pass1, List.mem_append] at he
    rcases he with he | he
    · exact recalculate_trace_is_recalculation env k pad out e he
    · exact ih _ _ e he

/-! ## The four ways through one step of the second walk -/

theorem pass2_cons_no_buffer (env : Env) (k : Nat) (pad : GstImx2dCompositorPad)
    (rest : List GstImx2dCompositorPad) (bp : Imx2dBlitParams) (fr : Int)
    (hb : pad.current_buffer = none) :
    pass2 env k (pad :: rest) bp fr = pass2 env (k + 1) rest bp fr := by
  rw [pass2]; simp [hb]

theorem pass2_cons_upload_failed (env : Env) (k : Nat) (pad : GstImx2dCompositorPad)
    (rest : List GstImx2dCompositorPad) (bp : Imx2dBlitParams) (fr : Int) (b : GstBuffer)
    (hb : pad.current_buffer = some b) (hu : env.uploader_perform k ≠ GST_FLOW_OK) :
    pass2 env k (pad :: rest) bp fr =
      { completed := false, flow_ret := env.uploader_perform k,
        trace := [Event.lock_pad k, Event.unlock_pad k, Event.uploader_perform k] } := by
  rw [pass2]; simp [hb, hu]

theorem pass2_cons_blit_failed (env : Env) (k : Nat) (pad : GstImx2dCompositorPad)
    (rest : List GstImx2dCompositorPad) (bp : Imx2dBlitParams) (fr : Int) (b : GstBuffer)
    (hb : pad.current_buffer = some b) (hu : env.uploader_perform k = GST_FLOW_OK)
    (hd : env.blitter_do_blit k = false) :
    pass2 env k (pad :: rest) bp fr =
      { completed := false, flow_ret := env.uploader_perform k,
        trace := [Event.lock_pad k, Event.unlock_pad k, Event.uploader_perform k,
          Event.blitter_do_blit k (fill_blit_params env pad b bp)] } := by
  rw [pass2]; simp [hb, hu, hd]

theorem pass2_cons_blitted (env : Env) (k : Nat) (pad : GstImx2dCompositorPad)
    (rest : List GstImx2dCompositorPad) (bp : Imx2dBlitParams) (fr : Int) (b : GstBuffer)
    (hb : pad.current_buffer = some b) (hu : env.uploader_perform k = GST_FLOW_OK)
    (hd : env.blitter_do_blit k = true) :
    pass2 env k (pad :: rest) bp fr =
      { completed := (pass2 env (k + 1) rest (fill_blit_params env pad b bp)
          (env.uploader_perform k)).completed,
        flow_ret := (pass2 env (k + 1) rest (fill_blit_params env pad b bp)
          (env.uploader_perform k)).flow_ret,
        trace := [Event.lock_pad k, Event.unlock_pad k, Event.uploader_perform k,
          Event.blitter_do_blit k (fill_blit_params env pad b bp)]
          ++ (pass2 env (k + 1) rest (fill_blit_params env pad b bp)
            (env.uploader_perform k)).trace } := by
  rw [pass2]; simp [hb, hu, hd]

theorem pass2_trace_is_pass2 (env : Env) (pads : List GstImx2dCompositorPad) :
    ∀ (k : Nat) (bp : Imx2dBlitParams) (fr : Int),
      ∀ e ∈ (pass2 env k pads bp fr).trace, e.is_pass2 = true := by
  induction pads with
  | nil => intro k bp fr e he; simp [pass2] at he
  | cons pad rest ih =>
    intro k bp fr e he
    cases hb : pad.current_buffer with
    | none =>
      rw [pass2_cons_no_buffer env k pad rest bp fr hb] at he
      exact ih _ _ _ e he
    | some b =>
      by_cases hu : env.uploader_perform k = GST_FLOW_OK
      · cases hd : env.blitter_do_blit k with
        | false =>
          rw [pass2_cons_blit_failed env k pad rest bp fr b hb hu hd] at he
          simp at he
          rcases he with rfl | rfl | rfl | rfl <;> rfl
        | true =>
          rw [pass2_cons_blitted env k pad rest bp fr b hb hu hd] at he
          simp at he
          rcases he with rfl | rfl | rfl | rfl | he
          · rfl
          · rfl
          · rfl
          · rfl
          · exact ih _ _ _ e he
      · rw [pass2_cons_upload_failed env k pad rest bp fr b hb hu] at he
        simp at he
        rcases he with rfl | rfl | rfl <;> rfl

/-- Uploads and blits of the second walk from position `k` on are made for
pads at position `k` or later. -/
theorem pass2_pad_index_ge (env : Env) (pads : List GstImx2dCompositorPad) :
    ∀ (k : Nat) (bp : Imx2dBlitParams) (fr : Int),
      ∀ e ∈ (pass2 env k pads bp fr).trace, ∀ m, e.pad_index = some m → k ≤ m := by
  induction pads with
  | nil => intro k bp fr e he; simp [pass2] at he
  | cons pad rest ih =>
    intro k bp fr e he m hm
    cases hb : pad.current_buffer with
    | none =>
      rw [pass2_cons_no_buffer env k pad rest bp fr hb] at he
      exact Nat.le_of_succ_le (ih _ _ _ e he m hm)
    | some b =>
      by_cases hu : env.uploader_perform k = GST_FLOW_OK
      · cases hd : env.blitter_do_blit k with
        | false =>
          rw [pass2_cons_blit_failed env k pad rest bp fr b hb hu hd] at he
          simp at he
          rcases he with rfl | rfl | rfl | rfl <;> simp [Event.pad_index] at hm <;> omega
        | true =>
          rw [pass2_cons_blitted env k pad rest bp fr b hb hu hd] at he
          simp at he
          rcases he with rfl | rfl | rfl | rfl | he
          · simp [Event.pad_index] at hm
          · simp [Event.pad_index] at hm
          · simp [Event.pad_index] at hm; omega
          · simp [Event.pad_index] at hm; omega
          · exact Nat.le_of_succ_le (ih _ _ _ e he m hm)
      · rw [pass2_cons_upload_failed env k pad rest bp fr b hb hu] at he
        simp at he
        rcases he with rfl | rfl | rfl
        · simp [Event.pad_index] at hm
        · simp [Event.pad_index] at hm
        · simp [Event.pad_index] at hm; omega

/-- After a rejected blit for the pad at position `j`, the second walk makes
no upload and no blit for a later pad. -/
theorem pass2_blit_rejected (env : Env) (pads : List GstImx2dCompositorPad) :
    ∀ (k : Nat) (bp : Imx2dBlitParams) (fr : Int) (j : Nat) (prm : Imx2dBlitParams),
      Event.blitter_do_blit j prm ∈ (pass2 env k pads bp fr).trace →
      env.blitter_do_blit j = false →
      ∀ e ∈ (pass2 env k pads bp fr).trace, ∀ m, e.pad_index = some m → m ≤ j := by
  induction pads with
  | nil => intro k bp fr j prm hmem; simp [pass2] at hmem
  | cons pad rest ih =>
    intro k bp fr j prm hmem hrej e he m hm
    cases hb : pad.current_buffer with
    | none =>
      rw [pass2_cons_no_buffer env k pad rest bp fr hb] at he hmem
      exact ih _ _ _ j prm hmem hrej e he m hm
    | some b =>
      by_cases hu : env.uploader_perform k = GST_FLOW_OK
      · cases hd : env.blitter_do_blit k with
        | false =>
          rw [pass2_cons_blit_failed env k pad rest bp fr b hb hu hd] at he hmem
          simp at he hmem
          obtain ⟨rfl, -⟩ := hmem
          rcases he with rfl | rfl | rfl | rfl <;> simp [Event.pad_index] at hm <;> omega
        | true =>
          rw [pass2_cons_blitted env k pad rest bp fr b hb hu hd] at he hmem
          simp at he hmem
          rcases hmem with ⟨rfl, -⟩ | hmem
          · rw [hrej] at hd; cases hd
          · have hj := pass2_pad_index_ge env rest _ _ _ _ hmem j (by simp [Event.pad_index])
            rcases he with rfl | rfl | rfl | rfl | he
            · simp [Event.pad_index] at hm
            · simp [Event.pad_index] at hm
            · simp [Event.pad_index] at hm; omega
            · simp [Event.pad_index] at hm; omega
            · exact ih _ _ _ j prm hmem hrej e he m hm
      · rw [pass2_cons_upload_failed env k pad rest bp fr b hb hu] at hmem
        simp at hmem

/-! ## Lemmas on the trace of a frame -/

theorem finish_label_not_started_mem (env : Env) (fr : Int) :
    ∀ e ∈ (finish_label env false fr).2,
      e = Event.transfer_to_output_buffer ∨ e = Event.unref_intermediate_buffer := by
  intro e he
  unfold finish_label at he
  simp only [Bool.false_eq_true, if_false] at he
  split at he
  · split at he <;> simp at he <;> exact Or.inl he
  · simp at he; exact Or.inr he

theorem finish_label_started_trace (env : Env) (fr : Int) :
    (finish_label env true fr).2 = [Event.blitter_finish, Event.transfer_to_output_buffer] ∨
      (finish_label env true fr).2 = [Event.blitter_finish, Event.unref_intermediate_buffer] := by
  unfold finish_label
  cases env.blitter_finish <;> cases env.transfer_to_output_buffer <;>
    by_cases h : fr = 0 <;> simp [h, GST_FLOW_OK, GST_FLOW_ERROR]

/-- What the part of a frame that runs with the compositor locked consists of:
the events of the first walk, then either a rejected clear, or the clear (if
needed) and the events of the second walk. -/
theorem aggregate_locked_trace (env : Env) (self : GstImx2dCompositor) (fr : Int) :
    ∃ rest,
      (aggregate_locked env self fr).trace =
        (pass1 env self.output_video_info 0 self.sinkpads true).trace ++
          (if (pass1 env self.output_video_info 0 self.sinkpads true).background_needs_to_be_cleared
            then [Event.blitter_fill_region none self.background_color] else []) ++ rest ∧
      (rest = [] ∨
        rest = (pass2 env 0 (pass1 env self.output_video_info 0 self.sinkpads true).sinkpads
          blit_params_zero fr).trace) := by
  cases hc : (pass1 env self.output_video_info 0 self.sinkpads true).background_needs_to_be_cleared
  · exact ⟨_, by simp [aggregate_locked, hc], Or.inr rfl⟩
  · cases hf : env.blitter_fill_region
    · exact ⟨[], by simp [aggregate_locked, hc, hf], Or.inl rfl⟩
    · exact ⟨_, by simp [aggregate_locked, hc, hf], Or.inr rfl⟩

theorem aggregate_frames_started_trace (env : Env) (self : GstImx2dCompositor)
    (hacq : env.acquire_intermediate_buffer = GST_FLOW_OK) (hstart : env.blitter_start = true) :
    (aggregate_frames env self).trace =
      [Event.acquire_intermediate_buffer, Event.blitter_start, Event.lock_compositor]
        ++ (aggregate_locked env self GST_FLOW_OK).trace ++ [Event.unlock_compositor]
        ++ (finish_label env true (aggregate_locked env self GST_FLOW_OK).flow_ret).2 := by
  unfold aggregate_frames
  simp [hacq, hstart]

theorem aggregate_frames_not_started_mem (env : Env) (self : GstImx2dCompositor)
    (h : env.acquire_intermediate_buffer ≠ GST_FLOW_OK ∨ env.blitter_start = false) :
    ∀ e ∈ (aggregate_frames env self).trace,
      e = Event.acquire_intermediate_buffer ∨ e = Event.blitter_start ∨
        e = Event.transfer_to_output_buffer ∨ e = Event.unref_intermediate_buffer := by
  intro e he
  unfold aggregate_frames at he
  by_cases hacq : env.acquire_intermediate_buffer = GST_FLOW_OK
  · have hs : env.blitter_start = false := by
      rcases h with h | h
      · exact absurd hacq h
      · exact h
    simp [hacq, hs] at he
    rcases he with rfl | rfl | he
    · exact Or.inl rfl
    · exact Or.inr (Or.inl rfl)
    · exact Or.inr (Or.inr (finish_label_not_started_mem env _ e he))
  · simp [hacq] at he
    rcases he with rfl | he
    · exact Or.inl rfl
    · exact Or.inr (Or.inr (finish_label_not_started_mem env _ e he))

theorem aggregate_locked_no_finish (env : Env) (self : GstImx2dCompositor) (fr : Int) :
    Event.blitter_finish ∉ (aggregate_locked env self fr).trace := by
  obtain ⟨rest, htr, hrest⟩ := aggregate_locked_trace env self fr
  rw [htr]
  intro hmem
  simp only [List.mem_append] at hmem
  rcases hmem with (hmem | hmem) | hmem
  · have := pass1_trace_is_recalculation env _ _ _ _ _ hmem
    simp [Event.is_recalculation] at this
  · split at hmem <;> simp at hmem
  · rcases hrest with rfl | rfl
    · simp at hmem
    · have := pass2_trace_is_pass2 env _ _ _ _ _ hmem
      simp [Event.is_pass2] at this

theorem aggregate_frames_started_count_finish (env : Env) (self : GstImx2dCompositor)
    (hacq : env.acquire_intermediate_buffer = GST_FLOW_OK) (hstart : env.blitter_start = true) :
    (aggregate_frames env self).trace.count Event.blitter_finish = 1 := by
  rw [aggregate_frames_started_trace env self hacq hstart]
  have h0 : (aggregate_locked env self GST_FLOW_OK).trace.count Event.blitter_finish = 0 :=
    List.count_eq_zero.mpr (aggregate_locked_no_finish env self GST_FLOW_OK)
  rcases finish_label_started_trace env (aggregate_locked env self GST_FLOW_OK).flow_ret
    with hf | hf <;> rw [hf] <;> simp only [List.count_append, h0] <;> decide

/-! ## Lemmas on the parts of the recalculation -/

theorem wrapInt32_of_isInt32 (v : Int) (h : isInt32 v) : wrapInt32 v = v := by
  unfold isInt32 at h
  unfold wrapInt32
  omega

theorem wrapInt32_isInt32 (v : Int) : isInt32 (wrapInt32 v) := by
  unfold isInt32 wrapInt32
  omega

theorem add32_isInt32 (a b : Int) : isInt32 (add32 a b) :=
  wrapInt32_isInt32 (a + b)

theorem sub32_add32_cancel (a b : Int) (h : isInt32 a) : sub32 (add32 a b) b = a := by
  unfold isInt32 at h
  unfold sub32 add32 wrapInt32
  omega

theorem add32_sub32_cancel (a b : Int) (h : isInt32 a) : add32 (sub32 a b) b = a := by
  unfold isInt32 at h
  unfold sub32 add32 wrapInt32
  omega

theorem recalculate_dirty (env : Env) (i : Nat) (pad : GstImx2dCompositorPad)
    (out : GstVideoInfo) (hdirty : pad.region_coords_need_update = true) :
    recalculate_regions_if_needed env i pad out =
      (recalculate_flags (recalculate_inner env i (recalculate_outer pad)).1 out,
        (recalculate_inner env i (recalculate_outer pad)).2) := by
  simp [recalculate_regions_if_needed, hdirty]

theorem recalculate_clean (env : Env) (i : Nat) (pad : GstImx2dCompositorPad)
    (out : GstVideoInfo) (hclean : pad.region_coords_need_update = false) :
    recalculate_regions_if_needed env i pad out = (pad, []) := by
  simp [recalculate_regions_if_needed, hclean]

theorem recalculate_inner_total_region (env : Env) (i : Nat) (pad : GstImx2dCompositorPad) :
    (recalculate_inner env i pad).1.total_region = pad.total_region := by
  unfold recalculate_inner
  split <;> rfl

theorem recalculate_inner_outer_region (env : Env) (i : Nat) (pad : GstImx2dCompositorPad) :
    (recalculate_inner env i pad).1.outer_region = pad.outer_region := by
  unfold recalculate_inner
  split <;> rfl

theorem recalculate_inner_extra_margin (env : Env) (i : Nat) (pad : GstImx2dCompositorPad) :
    (recalculate_inner env i pad).1.extra_margin = pad.extra_margin := by
  unfold recalculate_inner
  split <;> rfl

theorem recalculate_inner_flag_fresh (env : Env) (i : Nat) (pad : GstImx2dCompositorPad)
    (out : GstVideoInfo) (hdirty : pad.region_coords_need_update = true) :
    (recalculate_regions_if_needed env i pad out).1.inner_region_fills_output_frame =
      (decide ((recalculate_regions_if_needed env i pad out).1.inner_region.x1 ≤ 0)
        && decide ((recalculate_regions_if_needed env i pad out).1.inner_region.y1 ≤ 0)
        && decide ((recalculate_regions_if_needed env i pad out).1.inner_region.x2 ≥ out.width)
        && decide ((recalculate_regions_if_needed env i pad out).1.inner_region.y2 ≥ out.height)) := by
  rw [recalculate_dirty env i pad out hdirty]
  rfl

/-- When the guard of the letterbox calculation is false, the recompute of a
dirty pad calls nothing, copies the outer region to the inner region, sets the
sides of the combined margin to those of the extra margin, and leaves the
stored letterbox margin as it was. -/
theorem recalculate_without_letterbox (env : Env) (i : Nat) (pad : GstImx2dCompositorPad)
    (out : GstVideoInfo) (hdirty : pad.region_coords_need_update = true)
    (hcond : letterbox_condition (recalculate_outer pad) = false) :
    (recalculate_regions_if_needed env i pad out).2 = [] ∧
    (recalculate_regions_if_needed env i pad out).1.inner_region =
      (recalculate_regions_if_needed env i pad out).1.outer_region ∧
    (recalculate_regions_if_needed env i pad out).1.letterbox_margin = pad.letterbox_margin ∧
    (recalculate_regions_if_needed env i pad out).1.combined_margin =
      { pad.extra_margin with color := pad.combined_margin.color } := by
  rw [recalculate_dirty env i pad out hdirty]
  simp only [recalculate_inner, hcond, Bool.false_eq_true, if_false, recalculate_flags]
  refine ⟨trivial, trivial, rfl, rfl⟩

/-! ## Lemmas on the clearing of the background -/

theorem is_recalculation_not_submission (e : Event) (h : e.is_recalculation = true) :
    e.is_fill_region = false ∧ e.is_blit = false ∧ e.is_upload = false ∧
      e ≠ Event.blitter_finish := by
  cases e <;> simp [Event.is_recalculation, Event.is_fill_region, Event.is_blit,
    Event.is_upload] at h ⊢

theorem is_pass2_not_fill (e : Event) (h : e.is_pass2 = true) :
    e.is_fill_region = false := by
  cases e <;> simp [Event.is_pass2, Event.is_fill_region] at h ⊢

theorem finish_label_no_fill (env : Env) (fr : Int) :
    ∀ e ∈ (finish_label env true fr).2, e.is_fill_region = false := by
  intro e he
  rcases finish_label_started_trace env fr with hf | hf <;> rw [hf] at he <;> simp at he <;>
    rcases he with rfl | rfl <;> rfl

theorem aggregate_locked_rest_no_fill (env : Env) (self : GstImx2dCompositor) (fr : Int)
    (rest : List Event)
    (hrest : rest = [] ∨
      rest = (pass2 env 0 (pass1 env self.output_video_info 0 self.sinkpads true).sinkpads
        blit_params_zero fr).trace) :
    ∀ e ∈ rest, e.is_fill_region = false := by
  intro e he
  rcases hrest with rfl | rfl
  · simp at he
  · exact is_pass2_not_fill e (pass2_trace_is_pass2 env _ _ _ _ e he)

/-- No call of `imx_2d_blitter_fill_region` is made in a frame whose first
walk ends with `background_needs_to_be_cleared` false. -/
theorem aggregate_frames_no_fill (env : Env) (self : GstImx2dCompositor)
    (hc : (pass1 env self.output_video_info 0 self.sinkpads true).background_needs_to_be_cleared
      = false) :
    ∀ e ∈ (aggregate_frames env self).trace, e.is_fill_region = false := by
  intro e he
  by_cases hs : env.acquire_intermediate_buffer = GST_FLOW_OK ∧ env.blitter_start = true
  · rw [aggregate_frames_started_trace env self hs.1 hs.2] at he
    obtain ⟨rest, htr, hrest⟩ := aggregate_locked_trace env self GST_FLOW_OK
    rw [htr, hc] at he
    simp only [List.mem_append, List.mem_cons, List.mem_singleton, List.not_mem_nil,
      or_false, Bool.false_eq_true, if_false] at he
    rcases he with (((rfl | rfl | rfl) | (he | he)) | rfl) | he
    · rfl
    · rfl
    · rfl
    · exact (is_recalculation_not_submission e (pass1_trace_is_recalculation env _ _ _ _ e he)).1
    · exact aggregate_locked_rest_no_fill env self _ rest hrest e he
    · rfl
    · exact finish_label_no_fill env _ e he
  · have hn : env.acquire_intermediate_buffer ≠ GST_FLOW_OK ∨ env.blitter_start = false := by
      by_cases h1 : env.acquire_intermediate_buffer = GST_FLOW_OK
      · right
        cases h2 : env.blitter_start
        · rfl
        · exact absurd ⟨h1, h2⟩ hs
      · exact Or.inl h1
    rcases aggregate_frames_not_started_mem env self hn e he with rfl | rfl | rfl | rfl <;> rfl

/-- In a started frame whose first walk ends with
`background_needs_to_be_cleared` true, the trace splits around one call of
`imx_2d_blitter_fill_region` for the whole output with the background colour:
no fill and no blit before it, no fill after it. -/
theorem aggregate_frames_one_fill (env : Env) (self : GstImx2dCompositor)
    (hacq : env.acquire_intermediate_buffer = GST_FLOW_OK) (hstart : env.blitter_start = true)
    (hc : (pass1 env self.output_video_info 0 self.sinkpads true).background_needs_to_be_cleared
      = true) :
    ∃ pre post,
      (aggregate_frames env self).trace =
        pre ++ Event.blitter_fill_region none self.background_color :: post ∧
      (∀ e ∈ pre, e.is_fill_region = false ∧ e.is_blit = false) ∧
      (∀ e ∈ post, e.is_fill_region = false) := by
  obtain ⟨rest, htr, hrest⟩ := aggregate_locked_trace env self GST_FLOW_OK
  refine ⟨[Event.acquire_intermediate_buffer, Event.blitter_start, Event.lock_compositor]
      ++ (pass1 env self.output_video_info 0 self.sinkpads true).trace,
    rest ++ [Event.unlock_compositor]
      ++ (finish_label env true (aggregate_locked env self GST_FLOW_OK).flow_ret).2, ?_, ?_, ?_⟩
  · rw [aggregate_frames_started_trace env self hacq hstart, htr, hc]
    simp
  · intro e he
    simp only [List.mem_append, List.mem_cons, List.mem_singleton, List.not_mem_nil,
      or_false] at he
    rcases he with (rfl | rfl | rfl) | he
    · exact ⟨rfl, rfl⟩
    · exact ⟨rfl, rfl⟩
    · exact ⟨rfl, rfl⟩
    · have := is_recalculation_not_submission e (pass1_trace_is_recalculation env _ _ _ _ e he)
      exact ⟨this.1, this.2.1⟩
  · intro e he
    simp only [List.mem_append, List.mem_singleton] at he
    rcases he with (he | rfl) | he
    · exact aggregate_locked_rest_no_fill env self _ rest hrest e he
    · rfl
    · exact finish_label_no_fill env _ e he

/-! ## The claims on the aggregation of a frame -/

/-- C1: at the end of the first walk of `aggregate_frames`, the flag
`background_needs_to_be_cleared` is false if and only if some channel of the
list satisfies the clear-skip condition (current buffer, opacity not below 1.0,
format without alpha channel, and freshly recomputed flags with the inner region
filling the output, or the total region filling it and the top byte of the
margin colour being 255); otherwise it is true, as it is for the empty list. -/
theorem pass1_needs_clear_iff_no_clear_skip (env : Env) (out : GstVideoInfo)
    (pads : List GstImx2dCompositorPad) :
    ((pass1 env out 0 pads true).background_needs_to_be_cleared = false ↔
      ∃ j pad, pads[j]? = some pad ∧ clear_skip_condition env out j pad) ∧
    ((pass1 env out 0 pads true).background_needs_to_be_cleared = true ↔
      ¬ ∃ j pad, pads[j]? = some pad ∧ clear_skip_condition env out j pad) ∧
    (pass1 env out 0 [] true).background_needs_to_be_cleared = true := by
  have h := pass1_needs_clear_eq_false_iff env out pads 0 true
  simp only [Bool.true_eq_false, false_or, Nat.zero_add] at h
  refine ⟨h, ?_, rfl⟩
  rw [← h]
  simp

/-- C2 (failing inputs): with two pads that do not cover the output, a frame in
which the start of the blitter fails, a frame in which the clearing of the
background fails and a frame in which the blit of the first pad fails all
return `GST_FLOW_OK` and transfer the intermediate buffer to the output. -/
theorem aggregate_failure_returns_ok :
    ((aggregate_frames { env_ok with blitter_start := false } compositor_two_pads).flow_ret
        = GST_FLOW_OK ∧
      Event.transfer_to_output_buffer ∈
        (aggregate_frames { env_ok with blitter_start := false } compositor_two_pads).trace) ∧
    ((aggregate_frames { env_ok with blitter_fill_region := false } compositor_two_pads).flow_ret
        = GST_FLOW_OK ∧
      Event.transfer_to_output_buffer ∈
        (aggregate_frames { env_ok with blitter_fill_region := false } compositor_two_pads).trace) ∧
    ((aggregate_frames { env_ok with blitter_do_blit := fun _ => false }
        compositor_two_pads).flow_ret = GST_FLOW_OK ∧
      Event.transfer_to_output_buffer ∈
        (aggregate_frames { env_ok with blitter_do_blit := fun _ => false }
          compositor_two_pads).trace) := by
  decide

/-- C3: if the blit for the channel at position `k` is submitted and rejected,
then no upload and no blit is issued for a channel at a later position, and
`imx_2d_blitter_finish` is called exactly once in the frame. -/
theorem blit_rejected_stops_submissions (env : Env) (self : GstImx2dCompositor) (k : Nat)
    (prm : Imx2dBlitParams)
    (hblit : Event.blitter_do_blit k prm ∈ (aggregate_frames env self).trace)
    (hrej : env.blitter_do_blit k = false) :
    (∀ j, k < j →
      Event.uploader_perform j ∉ (aggregate_frames env self).trace ∧
      ∀ prm1, Event.blitter_do_blit j prm1 ∉ (aggregate_frames env self).trace) ∧
    (aggregate_frames env self).trace.count Event.blitter_finish = 1 := by
  have hstarted : env.acquire_intermediate_buffer = GST_FLOW_OK ∧ env.blitter_start = true := by
    by_contra hn
    have hn1 : env.acquire_intermediate_buffer ≠ GST_FLOW_OK ∨ env.blitter_start = false := by
      by_cases h1 : env.acquire_intermediate_buffer = GST_FLOW_OK
      · right
        cases h2 : env.blitter_start
        · rfl
        · exact absurd ⟨h1, h2⟩ hn
      · exact Or.inl h1
    have := aggregate_frames_not_started_mem env self hn1 _ hblit
    simp at this
  obtain ⟨hacq, hstart⟩ := hstarted
  refine ⟨?_, aggregate_frames_started_count_finish env self hacq hstart⟩
  -- every upload and blit of the frame is an event of the second walk
  have key : ∀ e ∈ (aggregate_frames env self).trace, ∀ m, e.pad_index = some m →
      e ∈ (pass2 env 0 (pass1 env self.output_video_info 0 self.sinkpads true).sinkpads
        blit_params_zero GST_FLOW_OK).trace := by
    intro e he m hm
    rw [aggregate_frames_started_trace env self hacq hstart] at he
    obtain ⟨rest, htr, hrest⟩ := aggregate_locked_trace env self GST_FLOW_OK
    rw [htr] at he
    simp only [List.mem_append, List.mem_cons, List.mem_singleton, List.not_mem_nil,
      or_false] at he
    rcases he with ((((rfl | rfl | rfl) | (he | he) | he)) | rfl) | he
    · simp [Event.pad_index] at hm
    · simp [Event.pad_index] at hm
    · simp [Event.pad_index] at hm
    · have h1 := pass1_trace_is_recalculation env _ _ _ _ _ he
      cases e <;> simp [Event.pad_index, Event.is_recalculation] at hm h1
    · split at he
      · simp at he; subst he; simp [Event.pad_index] at hm
      · simp at he
    · rcases hrest with rfl | rfl
      · simp at he
      · exact he
    · simp [Event.pad_index] at hm
    · rcases finish_label_started_trace env (aggregate_locked env self GST_FLOW_OK).flow_ret
        with hf | hf <;> rw [hf] at he <;> simp at he <;>
        rcases he with rfl | rfl <;> simp [Event.pad_index] at hm
  have hb := key _ hblit k (by simp [Event.pad_index])
  have hle := pass2_blit_rejected env _ 0 blit_params_zero GST_FLOW_OK k prm hb hrej
  intro j hj
  constructor
  · intro hmem
    have := hle _ (key _ hmem j (by simp [Event.pad_index])) j (by simp [Event.pad_index])
    omega
  · intro prm1 hmem
    have := hle _ (key _ hmem j (by simp [Event.pad_index])) j (by simp [Event.pad_index])
    omega

/-- C3 (witness): with two pads holding buffers and the blit of the first one
rejected, the blit for position 0 is in the trace, nothing is uploaded or
blitted for a later position, and finish is called once. -/
theorem blit_rejected_stops_submissions_witness :
    (Event.blitter_do_blit 0 blit_params_320x240
        ∈ (aggregate_frames env_blit_rejected compositor_two_pads).trace ∧
      env_blit_rejected.blitter_do_blit 0 = false) ∧
    ((∀ j, 0 < j →
        Event.uploader_perform j ∉ (aggregate_frames env_blit_rejected compositor_two_pads).trace ∧
        ∀ prm1, Event.blitter_do_blit j prm1 ∉
          (aggregate_frames env_blit_rejected compositor_two_pads).trace) ∧
      (aggregate_frames env_blit_rejected compositor_two_pads).trace.count Event.blitter_finish
        = 1) :=
  ⟨⟨by decide, by decide⟩,
    blit_rejected_stops_submissions env_blit_rejected compositor_two_pads 0 blit_params_320x240
      (by decide)
      (by decide)⟩

/-- C4: in every execution of `aggregate_frames`, if the intermediate buffer
was acquired and the blitter was started, then `imx_2d_blitter_finish` is called
exactly once, whatever fails later; if acquiring the buffer or starting the
blitter failed, then no fill-region call, no upload, no blit and no finish is
issued. -/
theorem finish_once_iff_started (env : Env) (self : GstImx2dCompositor) :
    ((env.acquire_intermediate_buffer = GST_FLOW_OK ∧ env.blitter_start = true) →
      (aggregate_frames env self).trace.count Event.blitter_finish = 1) ∧
    ((env.acquire_intermediate_buffer ≠ GST_FLOW_OK ∨ env.blitter_start = false) →
      ∀ e ∈ (aggregate_frames env self).trace,
        e.is_fill_region = false ∧ e.is_upload = false ∧ e.is_blit = false ∧
          e ≠ Event.blitter_finish) := by
  constructor
  · rintro ⟨hacq, hstart⟩
    exact aggregate_frames_started_count_finish env self hacq hstart
  · intro h e he
    rcases aggregate_frames_not_started_mem env self h e he with rfl | rfl | rfl | rfl <;>
      simp [Event.is_fill_region, Event.is_upload, Event.is_blit]

/-- C4 (witness): a started frame in which the blit of the first pad is
rejected calls finish once; a frame whose blitter start fails issues no fill,
upload, blit or finish. -/
theorem finish_once_iff_started_witness :
    ((env_blit_rejected.acquire_intermediate_buffer = GST_FLOW_OK ∧
        env_blit_rejected.blitter_start = true) ∧
      (aggregate_frames env_blit_rejected compositor_two_pads).trace.count Event.blitter_finish
        = 1) ∧
    ((env_start_failed.acquire_intermediate_buffer ≠ GST_FLOW_OK ∨
        env_start_failed.blitter_start = false) ∧
      ∀ e ∈ (aggregate_frames env_start_failed compositor_two_pads).trace,
        e.is_fill_region = false ∧ e.is_upload = false ∧ e.is_blit = false ∧
          e ≠ Event.blitter_finish) :=
  ⟨⟨by decide,
      (finish_once_iff_started env_blit_rejected compositor_two_pads).1 (by decide)⟩,
    ⟨by decide,
      (finish_once_iff_started env_start_failed compositor_two_pads).2 (by decide)⟩⟩

/-- C5: in a frame whose blitter was started, if no channel satisfies the
clear-skip condition then the trace holds exactly one fill-region call, for the
whole output (no region) and with the background colour, and no blit comes
before it; if some channel satisfies the condition, no fill-region call is
issued. -/
theorem clear_once_before_blits (env : Env) (self : GstImx2dCompositor)
    (hacq : env.acquire_intermediate_buffer = GST_FLOW_OK) (hstart : env.blitter_start = true) :
    ((¬ ∃ j pad, self.sinkpads[j]? = some pad ∧
          clear_skip_condition env self.output_video_info j pad) →
      ∃ pre post,
        (aggregate_frames env self).trace =
          pre ++ Event.blitter_fill_region none self.background_color :: post ∧
        (∀ e ∈ pre, e.is_fill_region = false ∧ e.is_blit = false) ∧
        (∀ e ∈ post, e.is_fill_region = false)) ∧
    ((∃ j pad, self.sinkpads[j]? = some pad ∧
          clear_skip_condition env self.output_video_info j pad) →
      ∀ e ∈ (aggregate_frames env self).trace, e.is_fill_region = false) := by
  have h := pass1_needs_clear_eq_false_iff env self.output_video_info self.sinkpads 0 true
  simp only [Bool.true_eq_false, false_or, Nat.zero_add] at h
  constructor
  · intro hno
    apply aggregate_frames_one_fill env self hacq hstart
    cases hc : (pass1 env self.output_video_info 0 self.sinkpads true).background_needs_to_be_cleared
    · exact absurd (h.mp hc) hno
    · rfl
  · intro hsome
    exact aggregate_frames_no_fill env self (h.mpr hsome)

theorem compositor_two_pads_no_clear_skip :
    ¬ ∃ j pad, compositor_two_pads.sinkpads[j]? = some pad ∧
      clear_skip_condition env_ok compositor_two_pads.output_video_info j pad := by
  have h := pass1_needs_clear_eq_false_iff env_ok compositor_two_pads.output_video_info
    compositor_two_pads.sinkpads 0 true
  simp only [Bool.true_eq_false, false_or, Nat.zero_add] at h
  rw [← h]
  decide

theorem compositor_covered_clear_skip :
    ∃ j pad, compositor_covered.sinkpads[j]? = some pad ∧
      clear_skip_condition env_ok compositor_covered.output_video_info j pad := by
  have h := pass1_needs_clear_eq_false_iff env_ok compositor_covered.output_video_info
    compositor_covered.sinkpads 0 true
  simp only [Bool.true_eq_false, false_or, Nat.zero_add] at h
  rw [← h]
  decide

/-- C5 (witness): two pads that do not cover the output give one fill-region
call before the blits; one pad that covers the output gives none. -/
theorem clear_once_before_blits_witness :
    (∃ pre post,
        (aggregate_frames env_ok compositor_two_pads).trace =
          pre ++ Event.blitter_fill_region none compositor_two_pads.background_color :: post ∧
        (∀ e ∈ pre, e.is_fill_region = false ∧ e.is_blit = false) ∧
        (∀ e ∈ post, e.is_fill_region = false)) ∧
    (∀ e ∈ (aggregate_frames env_ok compositor_covered).trace, e.is_fill_region = false) :=
  ⟨(clear_once_before_blits env_ok compositor_two_pads (by decide) (by decide)).1
      compositor_two_pads_no_clear_skip,
    (clear_once_before_blits env_ok compositor_covered (by decide) (by decide)).2
      compositor_covered_clear_skip⟩

/-! ## The claims on the layout -/

/-- C6 (counterexample): the only channel of `compositor_idle` has opacity 1.0,
a format without alpha channel and an inner region equal to the output bounds
(0, 0, 640, 480), before and after recompute, with its flag set; it holds no
buffer, and the frame clears the background. -/
theorem clear_invoked_without_buffer :
    compositor_idle.sinkpads = [pad_vga_idle] ∧
    pad_vga_idle.alpha = 1 ∧ pad_vga_idle.info.has_alpha = false ∧
    pad_vga_idle.inner_region = { x1 := 0, y1 := 0, x2 := 640, y2 := 480 } ∧
    (recalculate_regions_if_needed env_ok 0 pad_vga_idle compositor_idle.output_video_info).1.inner_region
      = { x1 := 0, y1 := 0, x2 := compositor_idle.output_video_info.width,
          y2 := compositor_idle.output_video_info.height } ∧
    pad_vga_idle.inner_region_fills_output_frame = true ∧
    pad_vga_idle.current_buffer = none ∧
    Event.blitter_fill_region none compositor_idle.background_color ∈
      (aggregate_frames env_ok compositor_idle).trace := by
  decide

/-- C6 (amended): if some channel of the list holds a current buffer, has
opacity 1.0 and a format without alpha channel, and its inner region after
recompute equals the output bounds (0, 0, output width, output height), its
stored flag being in step with its stored region when it is not dirty, then the
frame issues no fill-region call, whatever the other channels are. -/
theorem no_clear_when_channel_covers_output (env : Env) (self : GstImx2dCompositor) (j : Nat)
    (pad : GstImx2dCompositorPad)
    (hpad : self.sinkpads[j]? = some pad)
    (hbuf : pad.current_buffer.isSome = true)
    (halpha : pad.alpha = 1)
    (hfmt : pad.info.has_alpha = false)
    (hinner : (recalculate_regions_if_needed env j pad self.output_video_info).1.inner_region =
      { x1 := 0, y1 := 0, x2 := self.output_video_info.width,
        y2 := self.output_video_info.height })
    (hfresh : inner_flag_fresh pad self.output_video_info) :
    ∀ e ∈ (aggregate_frames env self).trace, e.is_fill_region = false := by
  apply aggregate_frames_no_fill
  rw [pass1_needs_clear_eq_false_iff]
  refine Or.inr ⟨j, pad, hpad, ?_⟩
  rw [Nat.zero_add]
  refine ⟨hbuf, by rw [halpha]; exact lt_irrefl 1, hfmt, Or.inl ?_⟩
  cases hd : pad.region_coords_need_update
  · rw [recalculate_clean env j pad _ hd] at hinner ⊢
    rw [hfresh hd]
    simp only at hinner
    simp [hinner]
  · rw [recalculate_inner_flag_fresh env j pad _ hd, hinner]
    simp

/-- C6 (witness): the pad of `compositor_vga` holds a buffer, has opacity 1.0
and no alpha channel, and covers the 640x480 output; the frame issues no
fill-region call. -/
theorem no_clear_when_channel_covers_output_witness :
    (compositor_vga.sinkpads[0]? =
        some { pad_vga_idle with current_buffer := some { crop_meta := none } } ∧
      pad_vga_idle.alpha = 1 ∧ pad_vga_idle.info.has_alpha = false) ∧
    ∀ e ∈ (aggregate_frames env_ok compositor_vga).trace, e.is_fill_region = false :=
  ⟨by decide,
    no_clear_when_channel_covers_output env_ok compositor_vga 0
      { pad_vga_idle with current_buffer := some { crop_meta := none } }
      (by decide) (by decide) (by decide) (by decide) (by decide)
      (by intro _; decide)⟩

/-- C7: after a recompute of a dirty channel with source size (Sw, Sh), the
total region is (x, y, x + ew, y + eh) with ew = width if width != 0 else Sw and
eh = height if height != 0 else Sh, each axis on its own; `+` is the addition
of `gint`, which is the sum of the integers whenever that sum fits 32 bits. With
width = height = 0 the total region is (x, y, x + Sw, y + Sh). -/
theorem total_region_after_recalculation (env : Env) (i : Nat) (pad : GstImx2dCompositorPad)
    (out : GstVideoInfo) (hdirty : pad.region_coords_need_update = true) :
    (recalculate_regions_if_needed env i pad out).1.total_region =
      { x1 := pad.xpos, y1 := pad.ypos,
        x2 := add32 pad.xpos (if pad.width ≠ 0 then pad.width else pad.info.width),
        y2 := add32 pad.ypos (if pad.height ≠ 0 then pad.height else pad.info.height) } ∧
    (isInt32 (pad.xpos + (if pad.width ≠ 0 then pad.width else pad.info.width)) →
      (recalculate_regions_if_needed env i pad out).1.total_region.x2 =
        pad.xpos + (if pad.width ≠ 0 then pad.width else pad.info.width)) ∧
    (isInt32 (pad.ypos + (if pad.height ≠ 0 then pad.height else pad.info.height)) →
      (recalculate_regions_if_needed env i pad out).1.total_region.y2 =
        pad.ypos + (if pad.height ≠ 0 then pad.height else pad.info.height)) ∧
    (pad.width = 0 → pad.height = 0 →
      isInt32 (pad.xpos + pad.info.width) → isInt32 (pad.ypos + pad.info.height) →
      (recalculate_regions_if_needed env i pad out).1.total_region =
        { x1 := pad.xpos, y1 := pad.ypos,
          x2 := pad.xpos + pad.info.width, y2 := pad.ypos + pad.info.height }) := by
  have h : (recalculate_regions_if_needed env i pad out).1.total_region =
      { x1 := pad.xpos, y1 := pad.ypos,
        x2 := add32 pad.xpos (if pad.width ≠ 0 then pad.width else pad.info.width),
        y2 := add32 pad.ypos (if pad.height ≠ 0 then pad.height else pad.info.height) } := by
    rw [recalculate_dirty env i pad out hdirty]
    show (recalculate_inner env i (recalculate_outer pad)).1.total_region = _
    rw [recalculate_inner_total_region]
    rfl
  refine ⟨h, ?_, ?_, ?_⟩
  · intro hx
    rw [h]
    exact wrapInt32_of_isInt32 _ hx
  · intro hy
    rw [h]
    exact wrapInt32_of_isInt32 _ hy
  · intro hw hh hx hy
    rw [h]
    simp only [hw, hh, ne_eq, not_true_eq_false, if_false]
    rw [add32, add32, wrapInt32_of_isInt32 _ hx, wrapInt32_of_isInt32 _ hy]

/-- C7 (witness): a new pad with a 1920x1080 video, width = height = 0, moved
to (100, 50), gets the total region (100, 50, 2020, 1130). -/
theorem total_region_after_recalculation_witness :
    ({ pad_1080p with xpos := 100, ypos := 50 } : GstImx2dCompositorPad).region_coords_need_update
      = true ∧
    (recalculate_regions_if_needed env_ok 0 { pad_1080p with xpos := 100, ypos := 50 }
      output_640x480).1.total_region = { x1 := 100, y1 := 50, x2 := 2020, y2 := 1130 } :=
  ⟨by decide,
    (total_region_after_recalculation env_ok 0 { pad_1080p with xpos := 100, ypos := 50 }
      output_640x480 (by decide)).2.2.2 (by decide) (by decide) (by decide) (by decide)⟩

/-- C8: after a recompute of a dirty channel, the outer region is the total
region shrunk inward by the extra margin (x1 + left, y1 + top, x2 - right,
y2 - bottom, in the arithmetic of `gint`), and the total region is the outer
region grown outward by the extra margin; where the results fit 32 bits these
are the sums and differences of the integers. -/
theorem outer_region_after_recalculation (env : Env) (i : Nat) (pad : GstImx2dCompositorPad)
    (out : GstVideoInfo) (hdirty : pad.region_coords_need_update = true)
    (hx : isInt32 pad.xpos) (hy : isInt32 pad.ypos) :
    (recalculate_regions_if_needed env i pad out).1.extra_margin = pad.extra_margin ∧
    (recalculate_regions_if_needed env i pad out).1.outer_region =
      { x1 := add32 (recalculate_regions_if_needed env i pad out).1.total_region.x1
          pad.extra_margin.left_margin,
        y1 := add32 (recalculate_regions_if_needed env i pad out).1.total_region.y1
          pad.extra_margin.top_margin,
        x2 := sub32 (recalculate_regions_if_needed env i pad out).1.total_region.x2
          pad.extra_margin.right_margin,
        y2 := sub32 (recalculate_regions_if_needed env i pad out).1.total_region.y2
          pad.extra_margin.bottom_margin } ∧
    (recalculate_regions_if_needed env i pad out).1.total_region =
      { x1 := sub32 (recalculate_regions_if_needed env i pad out).1.outer_region.x1
          pad.extra_margin.left_margin,
        y1 := sub32 (recalculate_regions_if_needed env i pad out).1.outer_region.y1
          pad.extra_margin.top_margin,
        x2 := add32 (recalculate_regions_if_needed env i pad out).1.outer_region.x2
          pad.extra_margin.right_margin,
        y2 := add32 (recalculate_regions_if_needed env i pad out).1.outer_region.y2
          pad.extra_margin.bottom_margin } ∧
    (isInt32 ((recalculate_regions_if_needed env i pad out).1.total_region.x1
        + pad.extra_margin.left_margin) →
      isInt32 ((recalculate_regions_if_needed env i pad out).1.total_region.y1
        + pad.extra_margin.top_margin) →
      isInt32 ((recalculate_regions_if_needed env i pad out).1.total_region.x2
        - pad.extra_margin.right_margin) →
      isInt32 ((recalculate_regions_if_needed env i pad out).1.total_region.y2
        - pad.extra_margin.bottom_margin) →
      (recalculate_regions_if_needed env i pad out).1.outer_region =
        { x1 := (recalculate_regions_if_needed env i pad out).1.total_region.x1
            + pad.extra_margin.left_margin,
          y1 := (recalculate_regions_if_needed env i pad out).1.total_region.y1
            + pad.extra_margin.top_margin,
          x2 := (recalculate_regions_if_needed env i pad out).1.total_region.x2
            - pad.extra_margin.right_margin,
          y2 := (recalculate_regions_if_needed env i pad out).1.total_region.y2
            - pad.extra_margin.bottom_margin }) := by
  have ht : (recalculate_regions_if_needed env i pad out).1.total_region =
      (recalculate_outer pad).total_region := by
    rw [recalculate_dirty env i pad out hdirty]
    exact recalculate_inner_total_region env i (recalculate_outer pad)
  have ho : (recalculate_regions_if_needed env i pad out).1.outer_region =
      (recalculate_outer pad).outer_region := by
    rw [recalculate_dirty env i pad out hdirty]
    exact recalculate_inner_outer_region env i (recalculate_outer pad)
  have he : (recalculate_regions_if_needed env i pad out).1.extra_margin = pad.extra_margin := by
    rw [recalculate_dirty env i pad out hdirty]
    exact recalculate_inner_extra_margin env i (recalculate_outer pad)
  rw [ht, ho]
  refine ⟨he, rfl, ?_, ?_⟩
  · simp only [recalculate_outer]
    rw [sub32_add32_cancel _ _ hx, sub32_add32_cancel _ _ hy,
      add32_sub32_cancel _ _ (add32_isInt32 _ _), add32_sub32_cancel _ _ (add32_isInt32 _ _)]
  · intro h1 h2 h3 h4
    simp only [recalculate_outer] at h1 h2 h3 h4 ⊢
    rw [add32, add32, sub32, sub32, wrapInt32_of_isInt32 _ h1, wrapInt32_of_isInt32 _ h2,
      wrapInt32_of_isInt32 _ h3, wrapInt32_of_isInt32 _ h4]

/-- C8 (witness): a dirty pad at (100, 50) with a 1920x1080 video and extra
margins 10, 20, 30, 40 gets the total region (100, 50, 2020, 1130) and the
outer region (110, 70, 1990, 1090). -/
theorem outer_region_after_recalculation_witness :
    (pad_with_margins.region_coords_need_update = true ∧ isInt32 pad_with_margins.xpos ∧
      isInt32 pad_with_margins.ypos) ∧
    (recalculate_regions_if_needed env_ok 0 pad_with_margins output_640x480).1.outer_region =
      { x1 := 110, y1 := 70, x2 := 1990, y2 := 1090 } ∧
    (recalculate_regions_if_needed env_ok 0 pad_with_margins output_640x480).1.total_region =
      { x1 := 100, y1 := 50, x2 := 2020, y2 := 1130 } :=
  ⟨by decide,
    (outer_region_after_recalculation env_ok 0 pad_with_margins output_640x480 (by decide)
      (by decide) (by decide)).2.1,
    (outer_region_after_recalculation env_ok 0 pad_with_margins output_640x480 (by decide)
      (by decide) (by decide)).2.2.1⟩

/-- C9 (failing input): `pad_aspect_released` is dirty and has aspect-ratio
preservation disabled; its recompute does not call the letterbox helper and
sets the inner region equal to the outer region, but the stored letterbox
margin keeps the 60 rows at top and bottom computed for the previous frame. -/
theorem letterbox_margin_kept_when_aspect_released :
    pad_aspect_released.region_coords_need_update = true ∧
    pad_aspect_released.force_aspect_ratio = false ∧
    (recalculate_regions_if_needed env_ok 0 pad_aspect_released output_640x480).2 = [] ∧
    (recalculate_regions_if_needed env_ok 0 pad_aspect_released output_640x480).1.inner_region =
      (recalculate_regions_if_needed env_ok 0 pad_aspect_released output_640x480).1.outer_region ∧
    (recalculate_regions_if_needed env_ok 0 pad_aspect_released output_640x480).1.letterbox_margin
      = { left_margin := 0, top_margin := 60, right_margin := 0, bottom_margin := 60,
          color := 0 } := by
  decide

/-- C10 (failing input): after the recompute of the dirty pad
`pad_aspect_released`, the top side of the combined margin is 0, while the top
side of the extra margin is 0 and the top side of the stored letterbox margin
is 60; the margin colour is unchanged. -/
theorem combined_margin_not_sum_when_aspect_released :
    pad_aspect_released.region_coords_need_update = true ∧
    (recalculate_regions_if_needed env_ok 0 pad_aspect_released output_640x480).1.combined_margin.top_margin
      = 0 ∧
    (recalculate_regions_if_needed env_ok 0 pad_aspect_released output_640x480).1.extra_margin.top_margin
      = 0 ∧
    (recalculate_regions_if_needed env_ok 0 pad_aspect_released output_640x480).1.letterbox_margin.top_margin
      = 60 ∧
    (recalculate_regions_if_needed env_ok 0 pad_aspect_released output_640x480).1.combined_margin.top_margin
      ≠ add32
        (recalculate_regions_if_needed env_ok 0 pad_aspect_released output_640x480).1.extra_margin.top_margin
        (recalculate_regions_if_needed env_ok 0 pad_aspect_released output_640x480).1.letterbox_margin.top_margin ∧
    (recalculate_regions_if_needed env_ok 0 pad_aspect_released output_640x480).1.combined_margin.color
      = pad_aspect_released.combined_margin.color := by
  decide

/-! ## Lemmas on the letterbox -/

/-- The model of the letterbox helper puts the inner region inside the outer
region, for a video of positive size and pixel aspect ratio. -/
theorem calculate_letterbox_margin_model_nested (margin : Imx2dBlitMargin)
    (inner outer : Imx2dRegion) (transposed : Bool) (vw vh pn pd : Int)
    (hvw : 0 < vw) (hvh : 0 < vh) (hpn : 0 < pn) (hpd : 0 < pd) :
    outer.x1 ≤ (calculate_letterbox_margin_model margin inner outer transposed vw vh pn pd).2.x1 ∧
    (calculate_letterbox_margin_model margin inner outer transposed vw vh pn pd).2.x2 ≤ outer.x2 ∧
    outer.y1 ≤ (calculate_letterbox_margin_model margin inner outer transposed vw vh pn pd).2.y1 ∧
    (calculate_letterbox_margin_model margin inner outer transposed vw vh pn pd).2.y2 ≤ outer.y2 := by
  have hn0 : 0 < vw * pn := Int.mul_pos hvw hpn
  have hd0 : 0 < vh * pd := Int.mul_pos hvh hpd
  have hn : 0 < (if transposed then vh * pd else vw * pn) := by
    cases transposed <;> simp [hn0, hd0]
  have hd : 0 < (if transposed then vw * pn else vh * pd) := by
    cases transposed <;> simp [hn0, hd0]
  simp only [calculate_letterbox_margin_model]
  generalize (if transposed then vh * pd else vw * pn) = n at hn
  generalize (if transposed then vw * pn else vh * pd) = d at hd
  by_cases hc : (outer.x2 - outer.x1) * d ≥ (outer.y2 - outer.y1) * n
  · have hw : (outer.y2 - outer.y1) * n / d ≤ outer.x2 - outer.x1 :=
      Int.ediv_le_of_le_mul hd hc
    simp only [hc, if_true]
    generalize (outer.y2 - outer.y1) * n / d = iw at hw
    omega
  · have hlt : (outer.x2 - outer.x1) * d ≤ (outer.y2 - outer.y1) * n := by omega
    have hh : (outer.x2 - outer.x1) * d / n ≤ outer.y2 - outer.y1 :=
      Int.ediv_le_of_le_mul hn hlt
    simp only [hc, if_false]
    generalize (outer.x2 - outer.x1) * d / n = ih at hh
    omega

theorem letterbox_condition_iff (pad : GstImx2dCompositorPad) :
    letterbox_condition pad = true ↔
      pad.force_aspect_ratio = true ∧ pad.outer_region.x1 < pad.outer_region.x2 ∧
        pad.outer_region.y1 < pad.outer_region.y2 ∧ 0 < pad.info.width ∧ 0 < pad.info.height := by
  simp [letterbox_condition, and_assoc]

/-- When the guard of the letterbox calculation is true, the recompute of a
dirty pad stores what the helper returns for the new outer region. -/
theorem recalculate_with_letterbox (env : Env) (i : Nat) (pad : GstImx2dCompositorPad)
    (out : GstVideoInfo) (hdirty : pad.region_coords_need_update = true)
    (hcond : letterbox_condition (recalculate_outer pad) = true) :
    (recalculate_regions_if_needed env i pad out).1.inner_region =
      (env.calculate_letterbox_margin pad.letterbox_margin pad.inner_region
        (recalculate_outer pad).outer_region
        (transposed_of (get_current_video_direction pad)) pad.info.width pad.info.height
        pad.info.par_n pad.info.par_d).2 ∧
    (recalculate_regions_if_needed env i pad out).1.letterbox_margin =
      (env.calculate_letterbox_margin pad.letterbox_margin pad.inner_region
        (recalculate_outer pad).outer_region
        (transposed_of (get_current_video_direction pad)) pad.info.width pad.info.height
        pad.info.par_n pad.info.par_d).1 := by
  rw [recalculate_dirty env i pad out hdirty]
  simp only [recalculate_inner, hcond, if_true, recalculate_flags]
  exact ⟨rfl, rfl⟩

/-- The recompute leaves every pad with a clear dirty flag. -/
theorem recalculate_clears_dirty (env : Env) (i : Nat) (pad : GstImx2dCompositorPad)
    (out : GstVideoInfo) :
    (recalculate_regions_if_needed env i pad out).1.region_coords_need_update = false := by
  cases hd : pad.region_coords_need_update
  · rw [recalculate_clean env i pad out hd]
    exact hd
  · rw [recalculate_dirty env i pad out hd]
    rfl

/-! ## The claims on the regions and their flags -/

/-- C11 (counterexample): `pad_far_right` has non-negative extra margins, and
after its recompute neither the total region nor the outer region is inverted;
yet the left edge of the outer region, xpos + 10 in `gint` arithmetic, lies
left of the left edge of the total region. -/
theorem outer_region_left_of_total_region :
    (0 ≤ pad_far_right.extra_margin.left_margin ∧ 0 ≤ pad_far_right.extra_margin.top_margin ∧
      0 ≤ pad_far_right.extra_margin.right_margin ∧
      0 ≤ pad_far_right.extra_margin.bottom_margin) ∧
    (isInt32 pad_far_right.xpos ∧ isInt32 pad_far_right.ypos) ∧
    (recalculate_regions_if_needed env_ok 0 pad_far_right output_640x480).1.total_region =
      { x1 := 2147483640, y1 := 0, x2 := 2147483645, y2 := 5 } ∧
    (recalculate_regions_if_needed env_ok 0 pad_far_right output_640x480).1.outer_region =
      { x1 := -2147483646, y1 := 0, x2 := 2147483645, y2 := 5 } ∧
    (recalculate_regions_if_needed env_ok 0 pad_far_right output_640x480).1.inner_region =
      { x1 := -2147483646, y1 := 0, x2 := 2147483645, y2 := 5 } ∧
    ¬ ((recalculate_regions_if_needed env_ok 0 pad_far_right output_640x480).1.total_region.x1 ≤
      (recalculate_regions_if_needed env_ok 0 pad_far_right output_640x480).1.outer_region.x1) := by
  decide

/-- C11 (amended): for a dirty channel with non-negative extra margins whose
outer coordinates (total.x1 + left, total.y1 + top, total.x2 - right,
total.y2 - bottom) fit a `gint`, with a positive pixel aspect ratio and the
letterbox helper as the specification describes it, the regions after recompute
are nested: the x1 and y1 values do not decrease and the x2 and y2 values do not
increase from total to outer to inner region. -/
theorem regions_nested_after_recalculation (env : Env) (i : Nat) (pad : GstImx2dCompositorPad)
    (out : GstVideoInfo) (hdirty : pad.region_coords_need_update = true)
    (hhelper : env.calculate_letterbox_margin = calculate_letterbox_margin_model)
    (hleft : 0 ≤ pad.extra_margin.left_margin) (htop : 0 ≤ pad.extra_margin.top_margin)
    (hright : 0 ≤ pad.extra_margin.right_margin) (hbottom : 0 ≤ pad.extra_margin.bottom_margin)
    (hpn : 0 < pad.info.par_n) (hpd : 0 < pad.info.par_d)
    (hx1 : isInt32 ((recalculate_regions_if_needed env i pad out).1.total_region.x1
      + pad.extra_margin.left_margin))
    (hy1 : isInt32 ((recalculate_regions_if_needed env i pad out).1.total_region.y1
      + pad.extra_margin.top_margin))
    (hx2 : isInt32 ((recalculate_regions_if_needed env i pad out).1.total_region.x2
      - pad.extra_margin.right_margin))
    (hy2 : isInt32 ((recalculate_regions_if_needed env i pad out).1.total_region.y2
      - pad.extra_margin.bottom_margin)) :
    ((recalculate_regions_if_needed env i pad out).1.total_region.x1 ≤
        (recalculate_regions_if_needed env i pad out).1.outer_region.x1 ∧
      (recalculate_regions_if_needed env i pad out).1.outer_region.x1 ≤
        (recalculate_regions_if_needed env i pad out).1.inner_region.x1 ∧
      (recalculate_regions_if_needed env i pad out).1.inner_region.x2 ≤
        (recalculate_regions_if_needed env i pad out).1.outer_region.x2 ∧
      (recalculate_regions_if_needed env i pad out).1.outer_region.x2 ≤
        (recalculate_regions_if_needed env i pad out).1.total_region.x2) ∧
    ((recalculate_regions_if_needed env i pad out).1.total_region.y1 ≤
        (recalculate_regions_if_needed env i pad out).1.outer_region.y1 ∧
      (recalculate_regions_if_needed env i pad out).1.outer_region.y1 ≤
        (recalculate_regions_if_needed env i pad out).1.inner_region.y1 ∧
      (recalculate_regions_if_needed env i pad out).1.inner_region.y2 ≤
        (recalculate_regions_if_needed env i pad out).1.outer_region.y2 ∧
      (recalculate_regions_if_needed env i pad out).1.outer_region.y2 ≤
        (recalculate_regions_if_needed env i pad out).1.total_region.y2) := by
  have ht : (recalculate_regions_if_needed env i pad out).1.total_region =
      (recalculate_outer pad).total_region := by
    rw [recalculate_dirty env i pad out hdirty]
    exact recalculate_inner_total_region env i (recalculate_outer pad)
  have ho : (recalculate_regions_if_needed env i pad out).1.outer_region =
      (recalculate_outer pad).outer_region := by
    rw [recalculate_dirty env i pad out hdirty]
    exact recalculate_inner_outer_region env i (recalculate_outer pad)
  rw [ht] at hx1 hy1 hx2 hy2
  -- the outer region inside the total region
  have h1 : (recalculate_outer pad).outer_region.x1 =
      (recalculate_outer pad).total_region.x1 + pad.extra_margin.left_margin :=
    wrapInt32_of_isInt32 _ hx1
  have h2 : (recalculate_outer pad).outer_region.y1 =
      (recalculate_outer pad).total_region.y1 + pad.extra_margin.top_margin :=
    wrapInt32_of_isInt32 _ hy1
  have h3 : (recalculate_outer pad).outer_region.x2 =
      (recalculate_outer pad).total_region.x2 - pad.extra_margin.right_margin :=
    wrapInt32_of_isInt32 _ hx2
  have h4 : (recalculate_outer pad).outer_region.y2 =
      (recalculate_outer pad).total_region.y2 - pad.extra_margin.bottom_margin :=
    wrapInt32_of_isInt32 _ hy2
  -- the inner region inside the outer region
  have hin : (recalculate_outer pad).outer_region.x1 ≤
        (recalculate_regions_if_needed env i pad out).1.inner_region.x1 ∧
      (recalculate_regions_if_needed env i pad out).1.inner_region.x2 ≤
        (recalculate_outer pad).outer_region.x2 ∧
      (recalculate_outer pad).outer_region.y1 ≤
        (recalculate_regions_if_needed env i pad out).1.inner_region.y1 ∧
      (recalculate_regions_if_needed env i pad out).1.inner_region.y2 ≤
        (recalculate_outer pad).outer_region.y2 := by
    cases hcond : letterbox_condition (recalculate_outer pad)
    · rw [(recalculate_without_letterbox env i pad out hdirty hcond).2.1, ho]
      exact ⟨le_refl _, le_refl _, le_refl _, le_refl _⟩
    · rw [(recalculate_with_letterbox env i pad out hdirty hcond).1, hhelper]
      obtain ⟨-, -, -, hvw, hvh⟩ := (letterbox_condition_iff _).mp hcond
      exact calculate_letterbox_margin_model_nested _ _ _ _ _ _ _ _ hvw hvh hpn hpd
  rw [ht, ho]
  obtain ⟨i1, i2, i3, i4⟩ := hin
  refine ⟨⟨?_, i1, i2, ?_⟩, ⟨?_, i3, i4, ?_⟩⟩ <;> omega

/-- C11 (witness): the pad `pad_with_margins` (1920x1080 video at (100, 50),
margins 10, 20, 30, 40) is dirty and meets the conditions; its inner region
(143, 70, 1956, 1090) lies in its outer region, which lies in its total region. -/
theorem regions_nested_after_recalculation_witness :
    (pad_with_margins.region_coords_need_update = true ∧
      0 ≤ pad_with_margins.extra_margin.left_margin ∧
      0 < pad_with_margins.info.par_n ∧ 0 < pad_with_margins.info.par_d) ∧
    (recalculate_regions_if_needed env_ok 0 pad_with_margins output_640x480).1.inner_region =
      { x1 := 143, y1 := 70, x2 := 1956, y2 := 1090 } ∧
    ((recalculate_regions_if_needed env_ok 0 pad_with_margins output_640x480).1.total_region.x1 ≤
        (recalculate_regions_if_needed env_ok 0 pad_with_margins output_640x480).1.outer_region.x1 ∧
      (recalculate_regions_if_needed env_ok 0 pad_with_margins output_640x480).1.outer_region.x1 ≤
        (recalculate_regions_if_needed env_ok 0 pad_with_margins output_640x480).1.inner_region.x1 ∧
      (recalculate_regions_if_needed env_ok 0 pad_with_margins output_640x480).1.inner_region.x2 ≤
        (recalculate_regions_if_needed env_ok 0 pad_with_margins output_640x480).1.outer_region.x2 ∧
      (recalculate_regions_if_needed env_ok 0 pad_with_margins output_640x480).1.outer_region.x2 ≤
        (recalculate_regions_if_needed env_ok 0 pad_with_margins output_640x480).1.total_region.x2) :=
  ⟨by decide, by decide,
    (regions_nested_after_recalculation env_ok 0 pad_with_margins output_640x480 (by decide) rfl
      (by decide) (by decide) (by decide) (by decide) (by decide) (by decide) (by decide)
      (by decide) (by decide) (by decide)).1⟩

/-- C12: after a recompute of a dirty channel with output dimensions (W, H),
`inner_region_fills_output_frame` is true exactly when the inner region has
x1 <= 0, y1 <= 0, x2 >= W and y2 >= H. -/
theorem inner_fills_output_iff (env : Env) (i : Nat) (pad : GstImx2dCompositorPad)
    (out : GstVideoInfo) (hdirty : pad.region_coords_need_update = true) :
    (recalculate_regions_if_needed env i pad out).1.inner_region_fills_output_frame = true ↔
      ((recalculate_regions_if_needed env i pad out).1.inner_region.x1 ≤ 0 ∧
        (recalculate_regions_if_needed env i pad out).1.inner_region.y1 ≤ 0 ∧
        (recalculate_regions_if_needed env i pad out).1.inner_region.x2 ≥ out.width ∧
        (recalculate_regions_if_needed env i pad out).1.inner_region.y2 ≥ out.height) := by
  rw [recalculate_inner_flag_fresh env i pad out hdirty]
  simp [and_assoc]

/-- C12 (witness): the dirty pad `pad_1080p` shows its video unscaled at the
origin; its inner region (0, 0, 1920, 1080) covers the 640x480 output and the
flag is true. -/
theorem inner_fills_output_iff_witness :
    pad_1080p.region_coords_need_update = true ∧
    (recalculate_regions_if_needed env_ok 0 pad_1080p output_640x480).1.inner_region =
      { x1 := 0, y1 := 0, x2 := 1920, y2 := 1080 } ∧
    (recalculate_regions_if_needed env_ok 0 pad_1080p output_640x480).1.inner_region_fills_output_frame
      = true :=
  ⟨by decide, by decide,
    (inner_fills_output_iff env_ok 0 pad_1080p output_640x480 (by decide)).mpr (by decide)⟩

/-- C13 (failing input): the dirty pad `pad_shifted_left` (xpos = -100,
640x480) gets the total region (-100, 0, 540, 480), which leaves the columns
540 to 639 of the 640x480 output uncovered; `total_region_fills_output_frame` is
set all the same, and the frame does not clear the background. -/
theorem total_fills_output_set_for_shifted_pad :
    pad_shifted_left.region_coords_need_update = true ∧
    (recalculate_regions_if_needed env_ok 0 pad_shifted_left output_640x480).1.total_region =
      { x1 := -100, y1 := 0, x2 := 540, y2 := 480 } ∧
    ¬ ((recalculate_regions_if_needed env_ok 0 pad_shifted_left output_640x480).1.total_region.x2
      ≥ output_640x480.width) ∧
    (recalculate_regions_if_needed env_ok 0 pad_shifted_left output_640x480).1.total_region_fills_output_frame
      = true ∧
    (∀ e ∈ (aggregate_frames env_ok compositor_shifted_left).trace, e.is_fill_region = false) := by
  decide

/-- C14: with a clear dirty flag the recompute changes no field of the channel
and calls nothing, for any output dimensions; and after any recompute a second
one returns the same channel state and calls nothing. -/
theorem recalculate_noop_when_clean (env : Env) (i : Nat) (pad : GstImx2dCompositorPad)
    (out : GstVideoInfo) (hclean : pad.region_coords_need_update = false) :
    recalculate_regions_if_needed env i pad out = (pad, []) ∧
    (∀ (pad0 : GstImx2dCompositorPad) (out0 out1 : GstVideoInfo),
      recalculate_regions_if_needed env i (recalculate_regions_if_needed env i pad0 out0).1 out1 =
        ((recalculate_regions_if_needed env i pad0 out0).1, [])) :=
  ⟨recalculate_clean env i pad out hclean,
    fun pad0 out0 out1 =>
      recalculate_clean env i _ out1 (recalculate_clears_dirty env i pad0 out0)⟩

/-- C14 (witness): the pad `pad_letterboxed` has a clear dirty flag; a
recompute for another output size returns it unchanged and calls nothing. -/
theorem recalculate_noop_when_clean_witness :
    pad_letterboxed.region_coords_need_update = false ∧
    recalculate_regions_if_needed env_ok 0 pad_letterboxed
      { output_640x480 with width := 1280, height := 720 } = (pad_letterboxed, []) :=
  ⟨by decide,
    (recalculate_noop_when_clean env_ok 0 pad_letterboxed
      { output_640x480 with width := 1280, height := 720 } (by decide)).1⟩

/-! ## The claims on rotation and on the dirty flag -/

/-- C15 (failing input): the pad `pad_letterboxed` has a clear dirty flag and
the letterboxed inner region (0, 60, 640, 420) of an upright 16:9 video.
Setting video-direction to 90R changes the effective rotation and leaves the
dirty flag clear, and so does a tag event with orientation 90R on the pad in
automatic mode; the next recompute keeps the inner region, where a dirty pad
with the same configuration gets (185, 0, 455, 480). -/
theorem rotation_change_leaves_pad_clean :
    (pad_letterboxed.region_coords_need_update = false ∧
      get_current_video_direction pad_letterboxed = GST_VIDEO_ORIENTATION_IDENTITY ∧
      get_current_video_direction
        (pad_set_property pad_letterboxed
          (PadPropertyValue.PROP_PAD_VIDEO_DIRECTION GST_VIDEO_ORIENTATION_90R))
        = GST_VIDEO_ORIENTATION_90R ∧
      (pad_set_property pad_letterboxed
        (PadPropertyValue.PROP_PAD_VIDEO_DIRECTION GST_VIDEO_ORIENTATION_90R)).region_coords_need_update
        = false ∧
      (recalculate_regions_if_needed env_ok 0
        (pad_set_property pad_letterboxed
          (PadPropertyValue.PROP_PAD_VIDEO_DIRECTION GST_VIDEO_ORIENTATION_90R))
        output_640x480).1.inner_region = { x1 := 0, y1 := 60, x2 := 640, y2 := 420 } ∧
      (recalculate_regions_if_needed env_ok 0
        { pad_set_property pad_letterboxed
            (PadPropertyValue.PROP_PAD_VIDEO_DIRECTION GST_VIDEO_ORIENTATION_90R) with
          region_coords_need_update := true }
        output_640x480).1.inner_region = { x1 := 185, y1 := 0, x2 := 455, y2 := 480 }) ∧
    (pad_letterboxed_auto.region_coords_need_update = false ∧
      pad_letterboxed_auto.video_direction = GST_VIDEO_ORIENTATION_AUTO ∧
      get_current_video_direction pad_letterboxed_auto = GST_VIDEO_ORIENTATION_IDENTITY ∧
      get_current_video_direction
        (downstream_event_probe pad_letterboxed_auto true
          (GstEvent.GST_EVENT_TAG (some GST_VIDEO_ORIENTATION_90R)))
        = GST_VIDEO_ORIENTATION_90R ∧
      (downstream_event_probe pad_letterboxed_auto true
        (GstEvent.GST_EVENT_TAG (some GST_VIDEO_ORIENTATION_90R))).region_coords_need_update
        = false ∧
      (recalculate_regions_if_needed env_ok 0
        (downstream_event_probe pad_letterboxed_auto true
          (GstEvent.GST_EVENT_TAG (some GST_VIDEO_ORIENTATION_90R)))
        output_640x480).1.inner_region = { x1 := 0, y1 := 60, x2 := 640, y2 := 420 }) := by
  decide

/-- C16: setting xpos, ypos, width, height, one of the four extra margins or
the aspect-ratio flag writes that one field and sets the dirty flag, and changes
nothing else; a caps event whose caps give a video info sets the dirty flag of
its pad; a renegotiation whose output caps give a video info stores that info
and sets the dirty flag of every pad of the list. -/
theorem geometry_mutations_set_dirty (pad : GstImx2dCompositorPad) (v : Int) (b : Bool)
    (video_info : GstVideoInfo) (format : Nat) (self : GstImx2dCompositor)
    (parent_result : Bool) :
    (pad_set_property pad (PadPropertyValue.PROP_PAD_XPOS v) =
        { pad with xpos := v, region_coords_need_update := true } ∧
      pad_set_property pad (PadPropertyValue.PROP_PAD_YPOS v) =
        { pad with ypos := v, region_coords_need_update := true } ∧
      pad_set_property pad (PadPropertyValue.PROP_PAD_WIDTH v) =
        { pad with width := v, region_coords_need_update := true } ∧
      pad_set_property pad (PadPropertyValue.PROP_PAD_HEIGHT v) =
        { pad with height := v, region_coords_need_update := true } ∧
      pad_set_property pad (PadPropertyValue.PROP_PAD_LEFT_MARGIN v) =
        { pad with extra_margin := { pad.extra_margin with left_margin := v },
                   region_coords_need_update := true } ∧
      pad_set_property pad (PadPropertyValue.PROP_PAD_TOP_MARGIN v) =
        { pad with extra_margin := { pad.extra_margin with top_margin := v },
                   region_coords_need_update := true } ∧
      pad_set_property pad (PadPropertyValue.PROP_PAD_RIGHT_MARGIN v) =
        { pad with extra_margin := { pad.extra_margin with right_margin := v },
                   region_coords_need_update := true } ∧
      pad_set_property pad (PadPropertyValue.PROP_PAD_BOTTOM_MARGIN v) =
        { pad with extra_margin := { pad.extra_margin with bottom_margin := v },
                   region_coords_need_update := true } ∧
      pad_set_property pad (PadPropertyValue.PROP_PAD_FORCE_ASPECT_RATIO b) =
        { pad with force_aspect_ratio := b, region_coords_need_update := true }) ∧
    ((downstream_event_probe pad true
        (GstEvent.GST_EVENT_CAPS (some (video_info, format)))).region_coords_need_update = true ∧
      (downstream_event_probe pad true
        (GstEvent.GST_EVENT_CAPS (some (video_info, format)))).input_surface_desc =
        { width := video_info.width, height := video_info.height, format := format }) ∧
    ((negotiated_src_caps self (some video_info) parent_result).2.output_video_info = video_info ∧
      (negotiated_src_caps self (some video_info) parent_result).2.sinkpads.length =
        self.sinkpads.length ∧
      ∀ p ∈ (negotiated_src_caps self (some video_info) parent_result).2.sinkpads,
        p.region_coords_need_update = true) := by
  refine ⟨⟨rfl, rfl, rfl, rfl, rfl, rfl, rfl, rfl, rfl⟩, ⟨rfl, rfl⟩, rfl, ?_, ?_⟩
  · simp [negotiated_src_caps]
  · intro p hp
    simp only [negotiated_src_caps, List.mem_map] at hp
    obtain ⟨q, -, rfl⟩ := hp
    rfl

/-- C17: the effective rotation of a channel is its video-direction setting
unless that is automatic, and the stored tag orientation when it is automatic.
The stored tag orientation is identity for a new pad, becomes the orientation
that a downstream tag event carries, and is left as it is by a tag event without
orientation, by any other event, by an event that is not downstream, by every
property write and by the recompute. -/
theorem effective_rotation_resolution (env : Env) (i : Nat) (pad : GstImx2dCompositorPad)
    (out : GstVideoInfo) (d : GstVideoOrientationMethod) (event : GstEvent)
    (value : PadPropertyValue) (converted : Option (GstVideoInfo × Nat)) :
    (pad.video_direction ≠ GST_VIDEO_ORIENTATION_AUTO →
      get_current_video_direction pad = pad.video_direction) ∧
    (pad.video_direction = GST_VIDEO_ORIENTATION_AUTO →
      get_current_video_direction pad = pad.tag_video_direction) ∧
    pad_init.tag_video_direction = GST_VIDEO_ORIENTATION_IDENTITY ∧
    (downstream_event_probe pad true (GstEvent.GST_EVENT_TAG (some d))).tag_video_direction = d ∧
    (downstream_event_probe pad true (GstEvent.GST_EVENT_TAG none)).tag_video_direction =
      pad.tag_video_direction ∧
    (downstream_event_probe pad true (GstEvent.GST_EVENT_CAPS converted)).tag_video_direction =
      pad.tag_video_direction ∧
    (downstream_event_probe pad true GstEvent.GST_EVENT_OTHER).tag_video_direction =
      pad.tag_video_direction ∧
    (downstream_event_probe pad false event).tag_video_direction = pad.tag_video_direction ∧
    (pad_set_property pad value).tag_video_direction = pad.tag_video_direction ∧
    (recalculate_regions_if_needed env i pad out).1.tag_video_direction =
      pad.tag_video_direction := by
  refine ⟨?_, ?_, rfl, rfl, rfl, ?_, rfl, rfl, ?_, ?_⟩
  · intro h
    simp [get_current_video_direction, h]
  · intro h
    simp [get_current_video_direction, h]
  · cases converted with
    | none => rfl
    | some c => rfl
  · cases value <;> rfl
  · unfold recalculate_regions_if_needed recalculate_flags recalculate_inner recalculate_outer
    by_cases h : pad.region_coords_need_update <;> simp [h]
    split <;> rfl

/-- C17 (witness): a pad set to 90R has the effective rotation 90R whatever
its tag says; the pad `pad_letterboxed_auto` follows a tag event that carries
the orientation 180. -/
theorem effective_rotation_resolution_witness :
    (({ pad_init with video_direction := GST_VIDEO_ORIENTATION_90R,
                      tag_video_direction := GST_VIDEO_ORIENTATION_180 } :
        GstImx2dCompositorPad).video_direction ≠ GST_VIDEO_ORIENTATION_AUTO ∧
      get_current_video_direction
        { pad_init with video_direction := GST_VIDEO_ORIENTATION_90R,
                        tag_video_direction := GST_VIDEO_ORIENTATION_180 }
        = GST_VIDEO_ORIENTATION_90R) ∧
    ((downstream_event_probe pad_letterboxed_auto true
        (GstEvent.GST_EVENT_TAG (some GST_VIDEO_ORIENTATION_180))).video_direction
        = GST_VIDEO_ORIENTATION_AUTO ∧
      get_current_video_direction
        (downstream_event_probe pad_letterboxed_auto true
          (GstEvent.GST_EVENT_TAG (some GST_VIDEO_ORIENTATION_180)))
        = GST_VIDEO_ORIENTATION_180) :=
  ⟨⟨by decide,
      (effective_rotation_resolution env_ok 0
        { pad_init with video_direction := GST_VIDEO_ORIENTATION_90R,
                        tag_video_direction := GST_VIDEO_ORIENTATION_180 }
        output_640x480 GST_VIDEO_ORIENTATION_180 GstEvent.GST_EVENT_OTHER
        (PadPropertyValue.PROP_PAD_ALPHA 1) none).1 (by decide)⟩,
    ⟨by decide,
      (effective_rotation_resolution env_ok 0
        (downstream_event_probe pad_letterboxed_auto true
          (GstEvent.GST_EVENT_TAG (some GST_VIDEO_ORIENTATION_180)))
        output_640x480 GST_VIDEO_ORIENTATION_180 GstEvent.GST_EVENT_OTHER
        (PadPropertyValue.PROP_PAD_ALPHA 1) none).2.1 (by decide)⟩⟩

/-! ## Lemmas on the pads and submissions of a frame -/

theorem pass1_sinkpads_getElem? (env : Env) (out : GstVideoInfo)
    (pads : List GstImx2dCompositorPad) :
    ∀ (k : Nat) (c : Bool) (j : Nat),
      (pass1 env out k pads c).sinkpads[j]? =
        (pads[j]?).map fun pad => (recalculate_regions_if_needed env (k + j) pad out).1 := by
  induction pads with
  | nil => intro k c j; simp [pass1]
  | cons pad rest ih =>
    intro k c j
    simp only [pass1]
    cases j with
    | zero => simp
    | succ j =>
      simp only [List.getElem?_cons_succ]
      rw [ih (k + 1)]
      have : k + 1 + j = k + (j + 1) := by omega
      rw [this]

theorem pass1_sinkpads_length (env : Env) (out : GstVideoInfo)
    (pads : List GstImx2dCompositorPad) :
    ∀ (k : Nat) (c : Bool), (pass1 env out k pads c).sinkpads.length = pads.length := by
  induction pads with
  | nil => intro k c; simp [pass1]
  | cons pad rest ih => intro k c; simp [pass1, ih]

theorem aggregate_locked_sinkpads (env : Env) (self : GstImx2dCompositor) (fr : Int) :
    (aggregate_locked env self fr).sinkpads =
      (pass1 env self.output_video_info 0 self.sinkpads true).sinkpads := by
  simp only [aggregate_locked]
  split <;> rfl

theorem aggregate_frames_started_sinkpads (env : Env) (self : GstImx2dCompositor)
    (hacq : env.acquire_intermediate_buffer = GST_FLOW_OK) (hstart : env.blitter_start = true) :
    (aggregate_frames env self).sinkpads =
      (pass1 env self.output_video_info 0 self.sinkpads true).sinkpads := by
  unfold aggregate_frames
  simp [hacq, hstart, aggregate_locked_sinkpads]

theorem buffer_positions_pass1 (env : Env) (out : GstVideoInfo)
    (pads : List GstImx2dCompositorPad) :
    ∀ (k k1 : Nat) (c : Bool),
      buffer_positions k (pass1 env out k1 pads c).sinkpads = buffer_positions k pads := by
  induction pads with
  | nil => intro k k1 c; simp [pass1]
  | cons pad rest ih =>
    intro k k1 c
    simp only [pass1, buffer_positions, recalculate_current_buffer, ih]

theorem submissions_append (t1 t2 : List Event) :
    submissions (t1 ++ t2) = submissions t1 ++ submissions t2 := by
  simp [submissions]

theorem submissions_eq_nil (t : List Event)
    (h : ∀ e ∈ t, e.is_upload = false ∧ e.is_blit = false) : submissions t = [] := by
  simp only [submissions, List.map_eq_nil_iff, List.filter_eq_nil_iff]
  intro e he
  simp [(h e he).1, (h e he).2]

/-- When every upload and every blit succeeds, the second walk uploads and
blits each pad that holds a buffer, once and in the order of the list. -/
theorem pass2_submissions (env : Env) (pads : List GstImx2dCompositorPad)
    (hu : ∀ i, env.uploader_perform i = GST_FLOW_OK) (hd : ∀ i, env.blitter_do_blit i = true) :
    ∀ (k : Nat) (bp : Imx2dBlitParams) (fr : Int),
      submissions (pass2 env k pads bp fr).trace =
        (buffer_positions k pads).flatMap fun i => [(false, some i), (true, some i)] := by
  induction pads with
  | nil => intro k bp fr; simp [pass2, submissions, buffer_positions]
  | cons pad rest ih =>
    intro k bp fr
    cases hb : pad.current_buffer with
    | none =>
      rw [pass2_cons_no_buffer env k pad rest bp fr hb, ih]
      simp [buffer_positions, hb]
    | some b =>
      rw [pass2_cons_blitted env k pad rest bp fr b hb (hu k) (hd k)]
      simp only [buffer_positions, hb, Option.isSome_some, if_true, List.flatMap_cons]
      rw [← ih (k + 1) (fill_blit_params env pad b bp) (env.uploader_perform k)]
      simp [submissions, Event.is_upload, Event.is_blit, Event.pad_index]

/-- Every blit of the second walk is made for a pad of the list that holds a
buffer, with the parameters filled in from that pad and buffer. -/
theorem pass2_blit_params (env : Env) (pads : List GstImx2dCompositorPad) :
    ∀ (k : Nat) (bp : Imx2dBlitParams) (fr : Int) (j : Nat) (prm : Imx2dBlitParams),
      Event.blitter_do_blit j prm ∈ (pass2 env k pads bp fr).trace →
      ∃ m pad buf bp0, j = k + m ∧ pads[m]? = some pad ∧ pad.current_buffer = some buf ∧
        prm = fill_blit_params env pad buf bp0 := by
  induction pads with
  | nil => intro k bp fr j prm hmem; simp [pass2] at hmem
  | cons pad rest ih =>
    intro k bp fr j prm hmem
    cases hb : pad.current_buffer with
    | none =>
      rw [pass2_cons_no_buffer env k pad rest bp fr hb] at hmem
      obtain ⟨m, q, buf, bp0, hj, hq, hbuf, hprm⟩ := ih _ _ _ j prm hmem
      exact ⟨m + 1, q, buf, bp0, by omega, by simpa using hq, hbuf, hprm⟩
    | some b =>
      by_cases hu : env.uploader_perform k = GST_FLOW_OK
      · cases hd : env.blitter_do_blit k with
        | false =>
          rw [pass2_cons_blit_failed env k pad rest bp fr b hb hu hd] at hmem
          simp at hmem
          obtain ⟨rfl, rfl⟩ := hmem
          exact ⟨0, pad, b, bp, rfl, by simp, hb, rfl⟩
        | true =>
          rw [pass2_cons_blitted env k pad rest bp fr b hb hu hd] at hmem
          simp at hmem
          rcases hmem with ⟨rfl, rfl⟩ | hmem
          · exact ⟨0, pad, b, bp, rfl, by simp, hb, rfl⟩
          · obtain ⟨m, q, buf, bp0, hj, hq, hbuf, hprm⟩ := ih _ _ _ j prm hmem
            exact ⟨m + 1, q, buf, bp0, by omega, by simpa using hq, hbuf, hprm⟩
      · rw [pass2_cons_upload_failed env k pad rest bp fr b hb hu] at hmem
        simp at hmem

/-- The blit parameters filled in for a pad do not depend on the parameters of
the blit before. -/
theorem fill_blit_params_eq (env : Env) (pad : GstImx2dCompositorPad) (buf : GstBuffer)
    (bp0 : Imx2dBlitParams) :
    fill_blit_params env pad buf bp0 =
      { source_region := expected_source_region pad buf,
        dest_region := some pad.inner_region,
        rotation := env.convert_from_video_orientation_method (get_current_video_direction pad),
        margin := some pad.combined_margin,
        alpha := CLAMP (double_to_gint (env.double_mul pad.alpha 255)) 0 255 } := by
  unfold fill_blit_params expected_source_region
  cases hc : pad.input_crop
  · simp
  · cases hm : buf.crop_meta <;> simp

/-- An upload or a blit in the trace of a frame is an event of the second
walk of a started frame. -/
theorem aggregate_frames_submission_mem (env : Env) (self : GstImx2dCompositor) (e : Event)
    (m : Nat) (hm : e.pad_index = some m) (he : e ∈ (aggregate_frames env self).trace) :
    (env.acquire_intermediate_buffer = GST_FLOW_OK ∧ env.blitter_start = true) ∧
    e ∈ (pass2 env 0 (pass1 env self.output_video_info 0 self.sinkpads true).sinkpads
      blit_params_zero GST_FLOW_OK).trace := by
  have hstarted : env.acquire_intermediate_buffer = GST_FLOW_OK ∧ env.blitter_start = true := by
    by_contra hn
    have hn1 : env.acquire_intermediate_buffer ≠ GST_FLOW_OK ∨ env.blitter_start = false := by
      by_cases h1 : env.acquire_intermediate_buffer = GST_FLOW_OK
      · right
        cases h2 : env.blitter_start
        · rfl
        · exact absurd ⟨h1, h2⟩ hn
      · exact Or.inl h1
    rcases aggregate_frames_not_started_mem env self hn1 e he with rfl | rfl | rfl | rfl <;>
      simp [Event.pad_index] at hm
  refine ⟨hstarted, ?_⟩
  rw [aggregate_frames_started_trace env self hstarted.1 hstarted.2] at he
  obtain ⟨rest, htr, hrest⟩ := aggregate_locked_trace env self GST_FLOW_OK
  rw [htr] at he
  simp only [List.mem_append, List.mem_cons, List.mem_singleton, List.not_mem_nil,
    or_false] at he
  rcases he with ((((rfl | rfl | rfl) | (he | he) | he)) | rfl) | he
  · simp [Event.pad_index] at hm
  · simp [Event.pad_index] at hm
  · simp [Event.pad_index] at hm
  · have h1 := pass1_trace_is_recalculation env _ _ _ _ _ he
    cases e <;> simp [Event.pad_index, Event.is_recalculation] at hm h1
  · split at he
    · simp at he; subst he; simp [Event.pad_index] at hm
    · simp at he
  · rcases hrest with rfl | rfl
    · simp at he
    · exact he
  · simp [Event.pad_index] at hm
  · rcases finish_label_started_trace env (aggregate_locked env self GST_FLOW_OK).flow_ret
      with hf | hf <;> rw [hf] at he <;> simp at he <;>
      rcases he with rfl | rfl <;> simp [Event.pad_index] at hm

theorem aggregate_locked_trace_fill_ok (env : Env) (self : GstImx2dCompositor) (fr : Int)
    (hfill : env.blitter_fill_region = true) :
    (aggregate_locked env self fr).trace =
      (pass1 env self.output_video_info 0 self.sinkpads true).trace ++
        (if (pass1 env self.output_video_info 0 self.sinkpads true).background_needs_to_be_cleared
          then [Event.blitter_fill_region none self.background_color] else []) ++
        (pass2 env 0 (pass1 env self.output_video_info 0 self.sinkpads true).sinkpads
          blit_params_zero fr).trace := by
  simp [aggregate_locked, hfill]

theorem mem_buffer_positions (pads : List GstImx2dCompositorPad) :
    ∀ (k j : Nat), j ∈ buffer_positions k pads ↔
      ∃ m pad, j = k + m ∧ pads[m]? = some pad ∧ pad.current_buffer.isSome = true := by
  induction pads with
  | nil => intro k j; simp [buffer_positions]
  | cons pad rest ih =>
    intro k j
    have hrest : j ∈ buffer_positions (k + 1) rest ↔
        ∃ m q, j = k + (m + 1) ∧ rest[m]? = some q ∧ q.current_buffer.isSome = true := by
      rw [ih]
      constructor <;> rintro ⟨m, q, h1, h2, h3⟩ <;> exact ⟨m, q, by omega, h2, h3⟩
    constructor
    · intro hj
      simp only [buffer_positions] at hj
      split at hj
      · rename_i hb
        rcases List.mem_cons.mp hj with rfl | hj
        · exact ⟨0, pad, rfl, by simp, hb⟩
        · obtain ⟨m, q, h1, h2, h3⟩ := hrest.mp hj
          exact ⟨m + 1, q, h1, by simpa using h2, h3⟩
      · obtain ⟨m, q, h1, h2, h3⟩ := hrest.mp hj
        exact ⟨m + 1, q, h1, by simpa using h2, h3⟩
    · rintro ⟨m, q, h1, h2, h3⟩
      simp only [buffer_positions]
      cases m with
      | zero =>
        simp at h2
        subst h2
        simp [h3, h1]
      | succ m =>
        have : j ∈ buffer_positions (k + 1) rest :=
          hrest.mpr ⟨m, q, h1, by simpa using h2, h3⟩
        split
        · exact List.mem_cons_of_mem _ this
        · exact this

theorem buffer_positions_pairwise (pads : List GstImx2dCompositorPad) :
    ∀ (k : Nat), (buffer_positions k pads).Pairwise (· < ·) := by
  induction pads with
  | nil => intro k; simp [buffer_positions]
  | cons pad rest ih =>
    intro k
    simp only [buffer_positions]
    split
    · refine List.pairwise_cons.mpr ⟨?_, ih (k + 1)⟩
      intro j hj
      obtain ⟨m, q, h1, -, -⟩ := (mem_buffer_positions rest (k + 1) j).mp hj
      omega
    · exact ih (k + 1)

theorem double_to_gint_of_nonneg (q : ℚ) (h : 0 ≤ q) : double_to_gint q = ⌊q⌋ := by
  simp [double_to_gint, h]
  rfl

/-! ## The claims on the two walks -/

/-- What the first walk of a frame whose blitter was started does for every
channel: the list has its length, and every channel of it is the result of the
recompute of the channel at that position, with a clear dirty flag: a channel
that was dirty has its regions, margins and flags computed from its
configuration, a channel that was not keeps the ones it has stored. No
condition is put on the buffer, the opacity or the format of the channel, or on
the channels before it. -/
theorem pass1_recalculates_every_pad (env : Env) (self : GstImx2dCompositor)
    (hacq : env.acquire_intermediate_buffer = GST_FLOW_OK) (hstart : env.blitter_start = true) :
    (aggregate_frames env self).sinkpads.length = self.sinkpads.length ∧
    (∀ j pad, self.sinkpads[j]? = some pad →
      (aggregate_frames env self).sinkpads[j]? =
        some (recalculate_regions_if_needed env j pad self.output_video_info).1 ∧
      (pad.region_coords_need_update = true →
        (aggregate_frames env self).sinkpads[j]? =
          some (recalculate_flags (recalculate_inner env j (recalculate_outer pad)).1
            self.output_video_info)) ∧
      (pad.region_coords_need_update = false →
        (aggregate_frames env self).sinkpads[j]? = some pad)) ∧
    (∀ pad ∈ (aggregate_frames env self).sinkpads, pad.region_coords_need_update = false) := by
  rw [aggregate_frames_started_sinkpads env self hacq hstart]
  refine ⟨pass1_sinkpads_length env _ _ 0 true, ?_, ?_⟩
  · intro j pad hj
    rw [pass1_sinkpads_getElem?, hj, Nat.zero_add]
    refine ⟨rfl, ?_, ?_⟩
    · intro hd
      show some (recalculate_regions_if_needed env j pad self.output_video_info).1 = _
      rw [recalculate_dirty env j pad _ hd]
    · intro hc
      show some (recalculate_regions_if_needed env j pad self.output_video_info).1 = _
      rw [recalculate_clean env j pad _ hc]
  · intro pad hmem
    obtain ⟨j, hj⟩ := List.getElem?_of_mem hmem
    rw [pass1_sinkpads_getElem?] at hj
    cases hp : self.sinkpads[j]? with
    | none => rw [hp] at hj; simp at hj
    | some q =>
      rw [hp] at hj
      simp only [Option.map_some', Option.some.injEq] at hj
      rw [← hj]
      exact recalculate_clears_dirty env _ q _

/-- In a frame of `compositor_mixed` every one of the four pads (covering,
without buffer, transparent, with alpha format) ends with a clear dirty flag,
and the pad without buffer has its regions computed. -/
theorem pass1_recalculates_every_pad_witness :
    (env_ok.acquire_intermediate_buffer = GST_FLOW_OK ∧ env_ok.blitter_start = true) ∧
    ((aggregate_frames env_ok compositor_mixed).sinkpads[1]?.map
        fun pad => (pad.current_buffer, pad.total_region))
      = some (none, { x1 := 0, y1 := 0, x2 := 320, y2 := 240 }) ∧
    (∀ pad ∈ (aggregate_frames env_ok compositor_mixed).sinkpads,
      pad.region_coords_need_update = false) :=
  ⟨by decide, by decide,
    (pass1_recalculates_every_pad env_ok compositor_mixed (by decide) (by decide)).2.2⟩

/-- C18 (failing input): the only pad of `compositor_rotated_clean` had its
video-direction set to 90R after its regions were computed, which left its
dirty flag clear. In a frame in which every call succeeds, the first walk
leaves the pad with a clear dirty flag and with the inner region
(0, 60, 640, 420) and the letterbox margin 0/60/0/60 of the upright video,
where the regions computed from its configuration are the inner region
(185, 0, 455, 480) and the letterbox margin 185/0/185/0; the second walk blits
the pad rotated by 90 degrees into the stored region. -/
theorem pass1_keeps_stale_regions_after_rotation :
    (env_ok.acquire_intermediate_buffer = GST_FLOW_OK ∧ env_ok.blitter_start = true) ∧
    (compositor_rotated_clean.sinkpads = [pad_rotated_clean] ∧
      pad_rotated_clean.region_coords_need_update = false ∧
      get_current_video_direction pad_rotated_clean = GST_VIDEO_ORIENTATION_90R) ∧
    ((aggregate_frames env_ok compositor_rotated_clean).sinkpads.map
        (fun pad => (pad.region_coords_need_update, pad.inner_region, pad.letterbox_margin)) =
      [(false, { x1 := 0, y1 := 60, x2 := 640, y2 := 420 },
        { left_margin := 0, top_margin := 60, right_margin := 0, bottom_margin := 60,
          color := 0 })]) ∧
    ((recalculate_inner env_ok 0 (recalculate_outer pad_rotated_clean)).1.inner_region =
        { x1 := 185, y1 := 0, x2 := 455, y2 := 480 } ∧
      (recalculate_inner env_ok 0 (recalculate_outer pad_rotated_clean)).1.letterbox_margin =
        { left_margin := 185, top_margin := 0, right_margin := 185, bottom_margin := 0,
          color := 0 }) ∧
    Event.blitter_do_blit 0 blit_params_rotated_stale ∈
      (aggregate_frames env_ok compositor_rotated_clean).trace := by
  decide

/-- C19: in a frame in which the buffer is acquired, the blitter starts, the
clear and every upload and blit succeed, the uploads and blits of the trace are
exactly, for each channel that holds a current buffer and in the order of the
list, one upload followed by one blit of that channel; the positions are those
of the channels with a buffer, each one once, and a channel without buffer gets
neither. -/
theorem submissions_of_successful_frame (env : Env) (self : GstImx2dCompositor)
    (hacq : env.acquire_intermediate_buffer = GST_FLOW_OK) (hstart : env.blitter_start = true)
    (hfill : env.blitter_fill_region = true)
    (hu : ∀ i, env.uploader_perform i = GST_FLOW_OK) (hd : ∀ i, env.blitter_do_blit i = true) :
    submissions (aggregate_frames env self).trace =
      (buffer_positions 0 self.sinkpads).flatMap (fun i => [(false, some i), (true, some i)]) ∧
    (∀ j, j ∈ buffer_positions 0 self.sinkpads ↔
      ∃ pad, self.sinkpads[j]? = some pad ∧ pad.current_buffer.isSome = true) ∧
    (buffer_positions 0 self.sinkpads).Pairwise (· < ·) := by
  refine ⟨?_, ?_, buffer_positions_pairwise _ 0⟩
  · rw [aggregate_frames_started_trace env self hacq hstart,
      aggregate_locked_trace_fill_ok env self _ hfill]
    simp only [submissions_append]
    rw [pass2_submissions env _ hu hd, buffer_positions_pass1]
    have h1 : submissions (pass1 env self.output_video_info 0 self.sinkpads true).trace = [] := by
      apply submissions_eq_nil
      intro e he
      have := is_recalculation_not_submission e (pass1_trace_is_recalculation env _ _ _ _ e he)
      exact ⟨this.2.2.1, this.2.1⟩
    have h2 : submissions
        (finish_label env true (aggregate_locked env self GST_FLOW_OK).flow_ret).2 = [] := by
      rcases finish_label_started_trace env (aggregate_locked env self GST_FLOW_OK).flow_ret
        with hf | hf <;> rw [hf] <;> rfl
    have h3 : submissions
        (if (pass1 env self.output_video_info 0 self.sinkpads true).background_needs_to_be_cleared
          then [Event.blitter_fill_region none self.background_color] else []) = [] := by
      split <;> rfl
    rw [h1, h2, h3]
    simp [submissions, Event.is_upload, Event.is_blit]
  · intro j
    rw [mem_buffer_positions]
    constructor
    · rintro ⟨m, pad, h1, h2, h3⟩
      have : j = m := by omega
      subst this
      exact ⟨pad, h2, h3⟩
    · rintro ⟨pad, h2, h3⟩
      exact ⟨j, pad, by omega, h2, h3⟩

/-- C19 (witness): in a frame of `compositor_mixed` in which everything
succeeds, the pads 0, 2 and 3 hold a buffer and are uploaded and blitted in
that order; the pad 1 without buffer is not. -/
theorem submissions_of_successful_frame_witness :
    (env_ok.acquire_intermediate_buffer = GST_FLOW_OK ∧ env_ok.blitter_start = true ∧
      env_ok.blitter_fill_region = true) ∧
    submissions (aggregate_frames env_ok compositor_mixed).trace =
      [(false, some 0), (true, some 0), (false, some 2), (true, some 2),
        (false, some 3), (true, some 3)] :=
  ⟨by decide,
    (submissions_of_successful_frame env_ok compositor_mixed (by decide) (by decide) (by decide)
      (fun _ => rfl) (fun _ => rfl)).1⟩

/-- C20: every blit in the trace of a frame is made for a channel of the list
that holds a buffer, and its parameters are: destination = the inner region of
the channel after the first walk, margin = its combined margin with the margin
colour, rotation = the conversion of its effective rotation, opacity = the
truncated product of the opacity and 255, clamped to 0..255 (the integer part
of opacity x 255 for an opacity in 0..1 when the product of doubles is exact;
255 for 1.0 and 0 for 0.0); the source region is the crop rectangle
(cx, cy, cx + cw, cy + ch) when cropping is enabled and the buffer carries one,
and none otherwise, whatever the blit before used. -/
theorem blit_parameters (env : Env) (self : GstImx2dCompositor) (j : Nat)
    (prm : Imx2dBlitParams)
    (hblit : Event.blitter_do_blit j prm ∈ (aggregate_frames env self).trace) :
    ∃ pad buf,
      (aggregate_frames env self).sinkpads[j]? = some pad ∧ pad.current_buffer = some buf ∧
      prm.dest_region = some pad.inner_region ∧
      prm.margin = some pad.combined_margin ∧
      prm.rotation = env.convert_from_video_orientation_method (get_current_video_direction pad) ∧
      prm.alpha = CLAMP (double_to_gint (env.double_mul pad.alpha 255)) 0 255 ∧
      (0 ≤ prm.alpha ∧ prm.alpha ≤ 255) ∧
      (env.double_mul pad.alpha 255 = pad.alpha * 255 → 0 ≤ pad.alpha → pad.alpha ≤ 1 →
        prm.alpha = ⌊pad.alpha * 255⌋) ∧
      (env.double_mul pad.alpha 255 = pad.alpha * 255 → pad.alpha = 1 → prm.alpha = 255) ∧
      (env.double_mul pad.alpha 255 = pad.alpha * 255 → pad.alpha = 0 → prm.alpha = 0) ∧
      (∀ c, pad.input_crop = true → buf.crop_meta = some c →
        prm.source_region = some
          { x1 := wrapInt32 c.x, y1 := wrapInt32 c.y,
            x2 := add32 c.x c.width, y2 := add32 c.y c.height }) ∧
      (∀ c, pad.input_crop = true → buf.crop_meta = some c →
        isInt32 c.x → isInt32 c.y → isInt32 (c.x + c.width) → isInt32 (c.y + c.height) →
        prm.source_region = some
          { x1 := c.x, y1 := c.y, x2 := c.x + c.width, y2 := c.y + c.height }) ∧
      (pad.input_crop = false ∨ buf.crop_meta = none → prm.source_region = none) := by
  obtain ⟨⟨hacq, hstart⟩, hmem⟩ :=
    aggregate_frames_submission_mem env self _ j (by simp [Event.pad_index]) hblit
  obtain ⟨m, pad, buf, bp0, hj, hpad, hbuf, hprm⟩ := pass2_blit_params env _ _ _ _ _ _ hmem
  rw [Nat.zero_add] at hj
  subst hj
  rw [fill_blit_params_eq] at hprm
  have hclamp : 0 ≤ prm.alpha ∧ prm.alpha ≤ 255 := by
    rw [hprm]
    simp only [CLAMP]
    split
    · omega
    · split <;> omega
  have hfloor : env.double_mul pad.alpha 255 = pad.alpha * 255 → 0 ≤ pad.alpha → pad.alpha ≤ 1 →
      prm.alpha = ⌊pad.alpha * 255⌋ := by
    intro hex h0 h1
    have hq0 : (0 : ℚ) ≤ pad.alpha * 255 := by positivity
    have hq1 : pad.alpha * 255 ≤ 255 := by linarith
    have hf0 : 0 ≤ ⌊pad.alpha * 255⌋ := Int.floor_nonneg.mpr hq0
    have hf1 : ⌊pad.alpha * 255⌋ ≤ 255 := by
      have : ⌊pad.alpha * 255⌋ ≤ ⌊(255 : ℚ)⌋ := Int.floor_le_floor hq1
      simpa using this
    rw [hprm]
    simp only [hex, double_to_gint_of_nonneg _ hq0, CLAMP]
    split
    · omega
    · split
      · omega
      · rfl
  refine ⟨pad, buf, ?_, hbuf, by rw [hprm], by rw [hprm], by rw [hprm], by rw [hprm], hclamp,
    hfloor, ?_, ?_, ?_, ?_, ?_⟩
  · rw [aggregate_frames_started_sinkpads env self hacq hstart]
    exact hpad
  · intro hex h1
    rw [hfloor hex (by rw [h1]; norm_num) (by rw [h1]), h1]
    norm_num
  · intro hex h0
    rw [hfloor hex (by rw [h0]) (by rw [h0]; norm_num), h0]
    norm_num
  · intro c hc hm
    rw [hprm]
    simp [expected_source_region, hc, hm]
  · intro c hc hm hx hy hxw hyh
    rw [hprm]
    simp [expected_source_region, hc, hm, add32, wrapInt32_of_isInt32, hx, hy, hxw, hyh]
  · intro h
    rw [hprm]
    rcases h with h | h
    · simp [expected_source_region, h]
    · simp [expected_source_region, h]

/-- C20 (witness): in a frame of `compositor_mixed` the blit of the third pad
uses the crop rectangle of its buffer and the opacity 0; the blit of the fourth
pad, which comes next, has no source region and the opacity 255, and its
destination and margin are the inner region and combined margin of that pad. -/
theorem blit_parameters_witness :
    (Event.blitter_do_blit 2 blit_params_cropped ∈ (aggregate_frames env_ok compositor_mixed).trace ∧
      Event.blitter_do_blit 3 blit_params_uncropped ∈
        (aggregate_frames env_ok compositor_mixed).trace) ∧
    (∃ pad buf,
      (aggregate_frames env_ok compositor_mixed).sinkpads[3]? = some pad ∧
      pad.current_buffer = some buf ∧
      blit_params_uncropped.dest_region = some pad.inner_region ∧
      blit_params_uncropped.margin = some pad.combined_margin) :=
  ⟨by decide,
    match blit_parameters env_ok compositor_mixed 3 blit_params_uncropped (by decide) with
    | ⟨pad, buf, h1, h2, h3, h4, _⟩ => ⟨pad, buf, h1, h2, h3, h4⟩⟩

/-! ## Lemmas on a failed upload and on the end of a frame -/

/-- After a failed upload for the pad at position `j`, the second walk has
made no blit for that pad and no upload or blit for a later one, has not
completed and carries the result of the upload. -/
theorem pass2_upload_failed (env : Env) (pads : List GstImx2dCompositorPad) :
    ∀ (k : Nat) (bp : Imx2dBlitParams) (fr : Int) (j : Nat),
      Event.uploader_perform j ∈ (pass2 env k pads bp fr).trace →
      env.uploader_perform j ≠ GST_FLOW_OK →
      (∀ e ∈ (pass2 env k pads bp fr).trace, ∀ m, e.pad_index = some m →
        m ≤ j ∧ (e.is_blit = true → m < j)) ∧
      (pass2 env k pads bp fr).completed = false ∧
      (pass2 env k pads bp fr).flow_ret = env.uploader_perform j := by
  induction pads with
  | nil => intro k bp fr j hmem; simp [pass2] at hmem
  | cons pad rest ih =>
    intro k bp fr j hmem hfail
    cases hb : pad.current_buffer with
    | none =>
      rw [pass2_cons_no_buffer env k pad rest bp fr hb] at hmem ⊢
      exact ih _ _ _ j hmem hfail
    | some b =>
      by_cases hu : env.uploader_perform k = GST_FLOW_OK
      · cases hd : env.blitter_do_blit k with
        | false =>
          rw [pass2_cons_blit_failed env k pad rest bp fr b hb hu hd] at hmem
          simp at hmem
          subst hmem
          exact absurd hu hfail
        | true =>
          rw [pass2_cons_blitted env k pad rest bp fr b hb hu hd] at hmem ⊢
          simp at hmem
          rcases hmem with rfl | hmem
          · exact absurd hu hfail
          · obtain ⟨h1, h2, h3⟩ := ih _ _ _ j hmem hfail
            have hj := pass2_pad_index_ge env rest _ _ _ _ hmem j (by simp [Event.pad_index])
            refine ⟨?_, h2, h3⟩
            intro e he m hm
            simp at he
            rcases he with rfl | rfl | rfl | rfl | he
            · simp [Event.pad_index] at hm
            · simp [Event.pad_index] at hm
            · simp [Event.pad_index] at hm
              exact ⟨by omega, fun _ => by omega⟩
            · simp [Event.pad_index] at hm
              exact ⟨by omega, fun _ => by omega⟩
            · exact h1 e he m hm
      · rw [pass2_cons_upload_failed env k pad rest bp fr b hb hu] at hmem ⊢
        simp at hmem
        subst hmem
        refine ⟨?_, rfl, rfl⟩
        intro e he m hm
        simp at he
        rcases he with rfl | rfl | rfl
        · simp [Event.pad_index] at hm
        · simp [Event.pad_index] at hm
        · simp [Event.pad_index] at hm
          exact ⟨by omega, fun h => by simp [Event.is_blit] at h⟩

/-- A frame that arrives at the label `finish` with a result other than
`GST_FLOW_OK` returns `GST_FLOW_ERROR` or that result, never `GST_FLOW_OK`, and
does not transfer the intermediate buffer. -/
theorem finish_label_of_error (env : Env) (started : Bool) (fr : Int) (h : fr ≠ GST_FLOW_OK) :
    (finish_label env started fr).1 ≠ GST_FLOW_OK ∧
      Event.transfer_to_output_buffer ∉ (finish_label env started fr).2 := by
  have h0 : fr ≠ 0 := h
  unfold finish_label
  cases started <;> cases env.blitter_finish <;>
    simp [h0, GST_FLOW_OK, GST_FLOW_ERROR]

/-- A started frame whose `imx_2d_blitter_finish` fails returns
`GST_FLOW_ERROR` and does not transfer the intermediate buffer. -/
theorem finish_label_of_finish_failed (env : Env) (fr : Int)
    (h : env.blitter_finish = false) :
    (finish_label env true fr).1 = GST_FLOW_ERROR ∧
      Event.transfer_to_output_buffer ∉ (finish_label env true fr).2 := by
  unfold finish_label
  simp [h, GST_FLOW_OK, GST_FLOW_ERROR]

theorem aggregate_frames_started_flow_ret (env : Env) (self : GstImx2dCompositor)
    (hacq : env.acquire_intermediate_buffer = GST_FLOW_OK) (hstart : env.blitter_start = true) :
    (aggregate_frames env self).flow_ret =
      (finish_label env true (aggregate_locked env self GST_FLOW_OK).flow_ret).1 := by
  unfold aggregate_frames
  simp [hacq, hstart]

theorem aggregate_locked_no_transfer (env : Env) (self : GstImx2dCompositor) (fr : Int) :
    Event.transfer_to_output_buffer ∉ (aggregate_locked env self fr).trace := by
  obtain ⟨rest, htr, hrest⟩ := aggregate_locked_trace env self fr
  rw [htr]
  intro hmem
  simp only [List.mem_append] at hmem
  rcases hmem with (hmem | hmem) | hmem
  · have := pass1_trace_is_recalculation env _ _ _ _ _ hmem
    simp [Event.is_recalculation] at this
  · split at hmem <;> simp at hmem
  · rcases hrest with rfl | rfl
    · simp at hmem
    · have := pass2_trace_is_pass2 env _ _ _ _ _ hmem
      simp [Event.is_pass2] at this

/-- The two ways through the part of a frame that runs with the compositor
locked: the clear is needed and fails, or the second walk runs. -/
theorem aggregate_locked_cases (env : Env) (self : GstImx2dCompositor) (fr : Int) :
    ((aggregate_locked env self fr).trace =
        (pass1 env self.output_video_info 0 self.sinkpads true).trace ++
          [Event.blitter_fill_region none self.background_color] ∧
      (aggregate_locked env self fr).flow_ret = error_label fr) ∨
    ((aggregate_locked env self fr).trace =
        (pass1 env self.output_video_info 0 self.sinkpads true).trace ++
          (if (pass1 env self.output_video_info 0 self.sinkpads true).background_needs_to_be_cleared
            then [Event.blitter_fill_region none self.background_color] else []) ++
          (pass2 env 0 (pass1 env self.output_video_info 0 self.sinkpads true).sinkpads
            blit_params_zero fr).trace ∧
      (aggregate_locked env self fr).flow_ret =
        (if !(pass2 env 0 (pass1 env self.output_video_info 0 self.sinkpads true).sinkpads
            blit_params_zero fr).completed
          then error_label (pass2 env 0
            (pass1 env self.output_video_info 0 self.sinkpads true).sinkpads
            blit_params_zero fr).flow_ret
          else (pass2 env 0 (pass1 env self.output_video_info 0 self.sinkpads true).sinkpads
            blit_params_zero fr).flow_ret)) := by
  cases hc : (pass1 env self.output_video_info 0 self.sinkpads true).background_needs_to_be_cleared
  · right
    simp [aggregate_locked, hc]
  · cases hf : env.blitter_fill_region
    · left
      simp [aggregate_locked, hc, hf]
    · right
      simp [aggregate_locked, hc, hf]

/-- The recompute reads nothing of the environment but the letterbox helper. -/
theorem recalculate_congr (env env1 : Env)
    (h : env.calculate_letterbox_margin = env1.calculate_letterbox_margin) (i : Nat)
    (pad : GstImx2dCompositorPad) (out : GstVideoInfo) :
    recalculate_regions_if_needed env i pad out = recalculate_regions_if_needed env1 i pad out := by
  simp only [recalculate_regions_if_needed, recalculate_inner, h]

theorem pass1_congr (env env1 : Env)
    (h : env.calculate_letterbox_margin = env1.calculate_letterbox_margin) (out : GstVideoInfo)
    (pads : List GstImx2dCompositorPad) :
    ∀ (k : Nat) (c : Bool), pass1 env out k pads c = pass1 env1 out k pads c := by
  induction pads with
  | nil => intro k c; rfl
  | cons pad rest ih =>
    intro k c
    simp only [pass1, recalculate_congr env env1 h, ih]

/-! ## The claims on failures -/

/-- C21: if the upload for the channel at position `k` is made and fails, then
no blit is submitted for that channel or a later one and no later channel is
uploaded, the frame returns `GST_FLOW_ERROR`, the intermediate buffer is not
transferred to the output, and the channels are left exactly as the same frame
leaves them when every upload succeeds. -/
theorem upload_failure_aborts_frame (env : Env) (self : GstImx2dCompositor) (k : Nat)
    (hup : Event.uploader_perform k ∈ (aggregate_frames env self).trace)
    (hfail : env.uploader_perform k ≠ GST_FLOW_OK) :
    (∀ j prm, k ≤ j → Event.blitter_do_blit j prm ∉ (aggregate_frames env self).trace) ∧
    (∀ j, k < j → Event.uploader_perform j ∉ (aggregate_frames env self).trace) ∧
    (aggregate_frames env self).flow_ret = GST_FLOW_ERROR ∧
    Event.transfer_to_output_buffer ∉ (aggregate_frames env self).trace ∧
    (aggregate_frames env self).sinkpads =
      (aggregate_frames { env with uploader_perform := fun _ => GST_FLOW_OK } self).sinkpads := by
  obtain ⟨⟨hacq, hstart⟩, hmem⟩ :=
    aggregate_frames_submission_mem env self _ k (by simp [Event.pad_index]) hup
  obtain ⟨hidx, hcompl, hflow⟩ := pass2_upload_failed env _ 0 blit_params_zero GST_FLOW_OK k hmem hfail
  have hlocked : (aggregate_locked env self GST_FLOW_OK).flow_ret = GST_FLOW_ERROR := by
    rcases aggregate_locked_cases env self GST_FLOW_OK with ⟨htr, -⟩ | ⟨-, hfr⟩
    · -- the clear failed: the trace has no upload
      exfalso
      rw [aggregate_frames_started_trace env self hacq hstart, htr] at hup
      simp only [List.mem_append, List.mem_cons, List.mem_singleton, List.not_mem_nil,
        or_false] at hup
      rcases hup with ((((h | h | h) | (h | h))) | h) | h
      · cases h
      · cases h
      · cases h
      · have := pass1_trace_is_recalculation env _ _ _ _ _ h
        simp [Event.is_recalculation] at this
      · cases h
      · cases h
      · rcases finish_label_started_trace env (aggregate_locked env self GST_FLOW_OK).flow_ret
          with hf | hf <;> rw [hf] at h <;> simp at h
    · rw [hfr, hcompl, hflow]
      simp [error_label, hfail]
  have hfin := finish_label_of_error env true GST_FLOW_ERROR (by decide)
  refine ⟨?_, ?_, ?_, ?_, ?_⟩
  · intro j prm hj hb
    have hb2 := (aggregate_frames_submission_mem env self _ j (by simp [Event.pad_index]) hb).2
    have := hidx _ hb2 j (by simp [Event.pad_index])
    have h2 := this.2 (by simp [Event.is_blit])
    omega
  · intro j hj hu
    have hu2 := (aggregate_frames_submission_mem env self _ j (by simp [Event.pad_index]) hu).2
    have := (hidx _ hu2 j (by simp [Event.pad_index])).1
    omega
  · rw [aggregate_frames_started_flow_ret env self hacq hstart, hlocked]
    unfold finish_label
    cases env.blitter_finish <;> simp [GST_FLOW_OK, GST_FLOW_ERROR]
  · rw [aggregate_frames_started_trace env self hacq hstart, hlocked]
    intro hmem2
    simp only [List.mem_append, List.mem_cons, List.mem_singleton, List.not_mem_nil,
      or_false] at hmem2
    rcases hmem2 with (((h | h | h) | h) | h) | h
    · cases h
    · cases h
    · cases h
    · exact aggregate_locked_no_transfer env self _ h
    · cases h
    · exact hfin.2 h
  · rw [aggregate_frames_started_sinkpads env self hacq hstart,
      aggregate_frames_started_sinkpads { env with uploader_perform := fun _ => GST_FLOW_OK }
        self hacq hstart,
      pass1_congr env { env with uploader_perform := fun _ => GST_FLOW_OK } rfl]

/-- C21 (witness): with the upload for the second of two pads failing, the
upload for position 1 is in the trace, no blit is made for position 1, the
frame returns `GST_FLOW_ERROR` and nothing is transferred. -/
theorem upload_failure_aborts_frame_witness :
    (Event.uploader_perform 1 ∈ (aggregate_frames env_upload_failed compositor_two_pads).trace ∧
      env_upload_failed.uploader_perform 1 ≠ GST_FLOW_OK) ∧
    ((∀ j prm, 1 ≤ j →
        Event.blitter_do_blit j prm ∉ (aggregate_frames env_upload_failed compositor_two_pads).trace) ∧
      (aggregate_frames env_upload_failed compositor_two_pads).flow_ret = GST_FLOW_ERROR ∧
      Event.transfer_to_output_buffer ∉
        (aggregate_frames env_upload_failed compositor_two_pads).trace) :=
  ⟨by decide,
    match upload_failure_aborts_frame env_upload_failed compositor_two_pads 1 (by decide)
      (by decide) with
    | ⟨h1, _, h3, h4, _⟩ => ⟨h1, h3, h4⟩⟩

/-- C22 (failing input): with two pads that do not cover the output and the
blit of the first pad rejected, the frame returns `GST_FLOW_OK` and transfers
the intermediate buffer when `imx_2d_blitter_finish` succeeds, and returns
`GST_FLOW_ERROR` without transfer when it fails. -/
theorem blit_failure_masked_when_finish_succeeds :
    (env_blit_rejected.blitter_finish = true ∧
      (aggregate_frames env_blit_rejected compositor_two_pads).flow_ret = GST_FLOW_OK ∧
      Event.transfer_to_output_buffer ∈
        (aggregate_frames env_blit_rejected compositor_two_pads).trace) ∧
    (env_blit_and_finish_failed.blitter_finish = false ∧
      (aggregate_frames env_blit_and_finish_failed compositor_two_pads).flow_ret
        = GST_FLOW_ERROR ∧
      Event.transfer_to_output_buffer ∉
        (aggregate_frames env_blit_and_finish_failed compositor_two_pads).trace) := by
  decide

/-- A started frame whose `imx_2d_blitter_finish` fails returns
`GST_FLOW_ERROR` and does not transfer the intermediate buffer, whatever
happened before. -/
theorem finish_failure_returns_error (env : Env) (self : GstImx2dCompositor)
    (hacq : env.acquire_intermediate_buffer = GST_FLOW_OK) (hstart : env.blitter_start = true)
    (hfinish : env.blitter_finish = false) :
    (aggregate_frames env self).flow_ret = GST_FLOW_ERROR ∧
    Event.transfer_to_output_buffer ∉ (aggregate_frames env self).trace := by
  have hfin := finish_label_of_finish_failed env (aggregate_locked env self GST_FLOW_OK).flow_ret
    hfinish
  refine ⟨?_, ?_⟩
  · rw [aggregate_frames_started_flow_ret env self hacq hstart]
    exact hfin.1
  · rw [aggregate_frames_started_trace env self hacq hstart]
    intro hmem2
    simp only [List.mem_append, List.mem_cons, List.mem_singleton, List.not_mem_nil,
      or_false] at hmem2
    rcases hmem2 with (((h | h | h) | h) | h) | h
    · cases h
    · cases h
    · cases h
    · exact aggregate_locked_no_transfer env self _ h
    · cases h
    · exact hfin.2 h

/-! ## Lemmas on the opacity in the recompute -/

theorem recalculate_inner_alpha (env : Env) (i : Nat) (pad : GstImx2dCompositorPad) (a : ℚ) :
    recalculate_inner env i { pad with alpha := a } =
      ({ (recalculate_inner env i pad).1 with alpha := a }, (recalculate_inner env i pad).2) := by
  have hc : letterbox_condition { pad with alpha := a } = letterbox_condition pad := rfl
  unfold recalculate_inner
  rw [hc]
  cases letterbox_condition pad
  · rfl
  · rfl

/-! ## The claims on opacity, inverted regions, rotation and position -/

/-- C23: two channel states that differ only in their opacity get, from a
recompute with the same output dimensions, states that differ only in their
opacity (the same total, outer and inner region, margins and both flags) and
the same calls; and writing the opacity leaves the dirty flag as it is. -/
theorem recalculate_independent_of_alpha (env : Env) (i : Nat) (pad : GstImx2dCompositorPad)
    (out : GstVideoInfo) (a : ℚ) :
    recalculate_regions_if_needed env i { pad with alpha := a } out =
      ({ (recalculate_regions_if_needed env i pad out).1 with alpha := a },
        (recalculate_regions_if_needed env i pad out).2) ∧
    (pad_set_property pad (PadPropertyValue.PROP_PAD_ALPHA a)).region_coords_need_update =
      pad.region_coords_need_update ∧
    pad_set_property pad (PadPropertyValue.PROP_PAD_ALPHA a) = { pad with alpha := a } := by
  refine ⟨?_, rfl, rfl⟩
  rcases Bool.eq_false_or_eq_true pad.region_coords_need_update with hd | hd
  · rw [recalculate_dirty env i pad out hd, recalculate_dirty env i { pad with alpha := a } out hd]
    have ho : recalculate_outer { pad with alpha := a } = { recalculate_outer pad with alpha := a } :=
      rfl
    rw [ho, recalculate_inner_alpha]
    rfl
  · rw [recalculate_clean env i pad out hd, recalculate_clean env i { pad with alpha := a } out hd]

/-- C24: when the outer region computed for a dirty channel is inverted on an
axis, the recompute calls nothing and corrects nothing: the outer region is the
total region shrunk by the extra margin, the inner region is that same region,
the dirty flag is cleared, and every blit made for the channel in the frame has
that region as its destination. -/
theorem inverted_outer_region_kept (env : Env) (self : GstImx2dCompositor) (j : Nat)
    (pad : GstImx2dCompositorPad) (hpad : self.sinkpads[j]? = some pad)
    (hdirty : pad.region_coords_need_update = true)
    (hinv :
      (recalculate_regions_if_needed env j pad self.output_video_info).1.outer_region.x1 >
        (recalculate_regions_if_needed env j pad self.output_video_info).1.outer_region.x2 ∨
      (recalculate_regions_if_needed env j pad self.output_video_info).1.outer_region.y1 >
        (recalculate_regions_if_needed env j pad self.output_video_info).1.outer_region.y2) :
    (recalculate_regions_if_needed env j pad self.output_video_info).2 = [] ∧
    (recalculate_regions_if_needed env j pad self.output_video_info).1.outer_region =
      { x1 := add32 (recalculate_regions_if_needed env j pad self.output_video_info).1.total_region.x1
          pad.extra_margin.left_margin,
        y1 := add32 (recalculate_regions_if_needed env j pad self.output_video_info).1.total_region.y1
          pad.extra_margin.top_margin,
        x2 := sub32 (recalculate_regions_if_needed env j pad self.output_video_info).1.total_region.x2
          pad.extra_margin.right_margin,
        y2 := sub32 (recalculate_regions_if_needed env j pad self.output_video_info).1.total_region.y2
          pad.extra_margin.bottom_margin } ∧
    (recalculate_regions_if_needed env j pad self.output_video_info).1.inner_region =
      (recalculate_regions_if_needed env j pad self.output_video_info).1.outer_region ∧
    (recalculate_regions_if_needed env j pad self.output_video_info).1.region_coords_need_update
      = false ∧
    (∀ prm, Event.blitter_do_blit j prm ∈ (aggregate_frames env self).trace →
      prm.dest_region =
        some (recalculate_regions_if_needed env j pad self.output_video_info).1.outer_region) := by
  have ht : (recalculate_regions_if_needed env j pad self.output_video_info).1.total_region =
      (recalculate_outer pad).total_region := by
    rw [recalculate_dirty env j pad _ hdirty]
    exact recalculate_inner_total_region env j (recalculate_outer pad)
  have ho : (recalculate_regions_if_needed env j pad self.output_video_info).1.outer_region =
      (recalculate_outer pad).outer_region := by
    rw [recalculate_dirty env j pad _ hdirty]
    exact recalculate_inner_outer_region env j (recalculate_outer pad)
  have hcond : letterbox_condition (recalculate_outer pad) = false := by
    cases hc : letterbox_condition (recalculate_outer pad)
    · rfl
    · obtain ⟨-, h1, h2, -, -⟩ := (letterbox_condition_iff _).mp hc
      rw [ho] at hinv
      omega
  obtain ⟨h1, h2, -, -⟩ := recalculate_without_letterbox env j pad self.output_video_info hdirty hcond
  refine ⟨h1, ?_, h2, recalculate_clears_dirty env j pad _, ?_⟩
  · rw [ht, ho]
    rfl
  · intro prm hblit
    obtain ⟨⟨hacq, hstart⟩, hmem⟩ :=
      aggregate_frames_submission_mem env self _ j (by simp [Event.pad_index]) hblit
    obtain ⟨m, pad1, buf, bp0, hj, hpad1, -, hprm⟩ := pass2_blit_params env _ _ _ _ _ _ hmem
    rw [Nat.zero_add] at hj
    subst hj
    rw [pass1_sinkpads_getElem?, hpad, Nat.zero_add] at hpad1
    simp only [Option.map_some', Option.some.injEq] at hpad1
    rw [hprm, fill_blit_params_eq, ← hpad1, h2]

/-- C24 (witness): the dirty pad `pad_wide_margins` (640x480 with margins of
400 columns left and right) gets the inverted outer region (400, 0, 240, 480);
its inner region is the same and the blit of the frame has it as destination. -/
theorem inverted_outer_region_kept_witness :
    (compositor_wide_margins.sinkpads[0]? = some pad_wide_margins ∧
      pad_wide_margins.region_coords_need_update = true ∧
      (recalculate_regions_if_needed env_ok 0 pad_wide_margins output_640x480).1.outer_region =
        { x1 := 400, y1 := 0, x2 := 240, y2 := 480 } ∧
      Event.blitter_do_blit 0 blit_params_inverted ∈
        (aggregate_frames env_ok compositor_wide_margins).trace) ∧
    (recalculate_regions_if_needed env_ok 0 pad_wide_margins output_640x480).1.inner_region =
      { x1 := 400, y1 := 0, x2 := 240, y2 := 480 } ∧
    blit_params_inverted.dest_region = some { x1 := 400, y1 := 0, x2 := 240, y2 := 480 } :=
  ⟨by decide,
    (inverted_outer_region_kept env_ok compositor_wide_margins 0 pad_wide_margins (by decide)
      (by decide) (Or.inl (by decide))).2.2.1,
    (inverted_outer_region_kept env_ok compositor_wide_margins 0 pad_wide_margins (by decide)
      (by decide) (Or.inl (by decide))).2.2.2.2 blit_params_inverted (by decide)⟩

/-- C27: when the recompute of a dirty channel takes the aspect-preserving
path, it makes one call of the letterbox helper, and the transposed flag of
that call is true exactly when the effective rotation (the video-direction
setting, or the stored tag orientation if the setting is automatic) is 90L,
90R, UL-LR or UR-LL; it is false for identity, 180, horizontal and vertical
flip. -/
theorem transposed_flag_of_effective_rotation (env : Env) (i : Nat)
    (pad : GstImx2dCompositorPad) (out : GstVideoInfo)
    (hdirty : pad.region_coords_need_update = true)
    (hcond : letterbox_condition (recalculate_outer pad) = true) :
    ∃ transposed,
      (recalculate_regions_if_needed env i pad out).2 =
        [Event.lock_pad i, Event.unlock_pad i,
          Event.calculate_letterbox_margin i (recalculate_outer pad).outer_region transposed
            pad.info.width pad.info.height pad.info.par_n pad.info.par_d] ∧
      (transposed = true ↔
        (if pad.video_direction = GST_VIDEO_ORIENTATION_AUTO then pad.tag_video_direction
          else pad.video_direction) ∈
          [GST_VIDEO_ORIENTATION_90L, GST_VIDEO_ORIENTATION_90R, GST_VIDEO_ORIENTATION_UL_LR,
            GST_VIDEO_ORIENTATION_UR_LL]) ∧
      ((if pad.video_direction = GST_VIDEO_ORIENTATION_AUTO then pad.tag_video_direction
          else pad.video_direction) ∈
          [GST_VIDEO_ORIENTATION_IDENTITY, GST_VIDEO_ORIENTATION_180,
            GST_VIDEO_ORIENTATION_HORIZ, GST_VIDEO_ORIENTATION_VERT] →
        transposed = false) := by
  refine ⟨transposed_of (get_current_video_direction pad), ?_, ?_, ?_⟩
  · rw [recalculate_dirty env i pad out hdirty]
    simp only [recalculate_inner, hcond, if_true]
    rfl
  · show _ ↔ get_current_video_direction pad ∈ _
    cases get_current_video_direction pad <;> simp [transposed_of]
  · show get_current_video_direction pad ∈ _ → _
    cases get_current_video_direction pad <;> simp [transposed_of]

/-- C27 (witness): the dirty pad `pad_rotated_by_tag` (automatic mode, stored
tag orientation 90R) calls the letterbox helper with the transposed flag
set. -/
theorem transposed_flag_of_effective_rotation_witness :
    (pad_rotated_by_tag.region_coords_need_update = true ∧
      letterbox_condition
        (recalculate_outer
          pad_rotated_by_tag) = true) ∧
    (recalculate_regions_if_needed env_ok 0
        pad_rotated_by_tag
        output_640x480).2 =
      [Event.lock_pad 0, Event.unlock_pad 0,
        Event.calculate_letterbox_margin 0 { x1 := 0, y1 := 0, x2 := 640, y2 := 480 } true
          1920 1080 1 1] :=
  ⟨by decide,
    match transposed_flag_of_effective_rotation env_ok 0
      pad_rotated_by_tag
      output_640x480 (by decide) (by decide) with
    | ⟨tr, h1, h2, _⟩ => by
      have htr : tr = true := h2.mpr (by decide)
      rw [h1, htr]
      rfl⟩

/-- C28 (failing input): on the new pad `pad_with_margins` (left margin 10,
top margin 20), reading xpos after writing 300 returns 0 before the next
recompute and 310 after it; reading ypos after writing 300 returns 0 and 320. -/
theorem position_read_differs_from_write :
    pad_get_property
        (pad_set_property pad_with_margins (PadPropertyValue.PROP_PAD_XPOS 300))
        PadPropertyId.PROP_PAD_XPOS = PadPropertyValue.PROP_PAD_XPOS 0 ∧
    pad_get_property
        (recalculate_regions_if_needed env_ok 0
          (pad_set_property pad_with_margins (PadPropertyValue.PROP_PAD_XPOS 300))
          output_640x480).1
        PadPropertyId.PROP_PAD_XPOS = PadPropertyValue.PROP_PAD_XPOS 310 ∧
    pad_get_property
        (pad_set_property pad_with_margins (PadPropertyValue.PROP_PAD_YPOS 300))
        PadPropertyId.PROP_PAD_YPOS = PadPropertyValue.PROP_PAD_YPOS 0 ∧
    pad_get_property
        (recalculate_regions_if_needed env_ok 0
          (pad_set_property pad_with_margins (PadPropertyValue.PROP_PAD_YPOS 300))
          output_640x480).1
        PadPropertyId.PROP_PAD_YPOS = PadPropertyValue.PROP_PAD_YPOS 320 ∧
    (pad_set_property pad_with_margins (PadPropertyValue.PROP_PAD_XPOS 300)).xpos = 300 := by
  refine ⟨rfl, ?_, rfl, ?_, rfl⟩
  · show PadPropertyValue.PROP_PAD_XPOS _ = _
    congr 1
  · show PadPropertyValue.PROP_PAD_YPOS _ = _
    congr 1

/-- C29 (counterexample): xpos = 2147483647 and width = 1 are in the declared
ranges; the recompute of `pad_at_int_max` gives the total region
(2147483647, 0, -2147483648, 1), whose x1 exceeds its x2. -/
theorem total_region_inverted_at_int_max :
    isInt32 pad_at_int_max.xpos ∧ isInt32 pad_at_int_max.ypos ∧
    (0 ≤ pad_width pad_at_int_max ∧ pad_width pad_at_int_max ≤ 2147483647) ∧
    (0 ≤ pad_height pad_at_int_max ∧ pad_height pad_at_int_max ≤ 2147483647) ∧
    (recalculate_regions_if_needed env_ok 0 pad_at_int_max output_640x480).1.total_region =
      { x1 := 2147483647, y1 := 0, x2 := -2147483648, y2 := 1 } ∧
    ¬ ((recalculate_regions_if_needed env_ok 0 pad_at_int_max output_640x480).1.total_region.x1 ≤
      (recalculate_regions_if_needed env_ok 0 pad_at_int_max output_640x480).1.total_region.x2) := by
  decide

/-- C29 (amended): for x and y in the range of `gint` and an effective width
and height in [0, INT_MAX], the total region computed for a dirty channel is not
inverted on the x axis exactly when x + width does not exceed INT_MAX, and not
inverted on the y axis exactly when y + height does not exceed INT_MAX. -/
theorem total_region_not_inverted_iff (env : Env) (i : Nat) (pad : GstImx2dCompositorPad)
    (out : GstVideoInfo) (hdirty : pad.region_coords_need_update = true)
    (hx : isInt32 pad.xpos) (hy : isInt32 pad.ypos)
    (hw : 0 ≤ (if pad.width ≠ 0 then pad.width else pad.info.width) ∧
      (if pad.width ≠ 0 then pad.width else pad.info.width) ≤ 2147483647)
    (hh : 0 ≤ (if pad.height ≠ 0 then pad.height else pad.info.height) ∧
      (if pad.height ≠ 0 then pad.height else pad.info.height) ≤ 2147483647) :
    ((recalculate_regions_if_needed env i pad out).1.total_region.x1 ≤
        (recalculate_regions_if_needed env i pad out).1.total_region.x2 ↔
      pad.xpos + (if pad.width ≠ 0 then pad.width else pad.info.width) ≤ 2147483647) ∧
    ((recalculate_regions_if_needed env i pad out).1.total_region.y1 ≤
        (recalculate_regions_if_needed env i pad out).1.total_region.y2 ↔
      pad.ypos + (if pad.height ≠ 0 then pad.height else pad.info.height) ≤ 2147483647) := by
  have ht : (recalculate_regions_if_needed env i pad out).1.total_region =
      (recalculate_outer pad).total_region := by
    rw [recalculate_dirty env i pad out hdirty]
    exact recalculate_inner_total_region env i (recalculate_outer pad)
  rw [ht]
  simp only [recalculate_outer, pad_width, pad_height, add32, wrapInt32]
  unfold isInt32 at hx hy
  generalize (if pad.width ≠ 0 then pad.width else pad.info.width) = w at hw ⊢
  generalize (if pad.height ≠ 0 then pad.height else pad.info.height) = h at hh ⊢
  constructor <;> constructor <;> intro _ <;> omega

/-- C29 (witness): the dirty pad `pad_with_margins` at (100, 50) with a
1920x1080 video stays below INT_MAX and its total region is not inverted. -/
theorem total_region_not_inverted_iff_witness :
    (pad_with_margins.region_coords_need_update = true ∧ isInt32 pad_with_margins.xpos ∧
      isInt32 pad_with_margins.ypos) ∧
    (recalculate_regions_if_needed env_ok 0 pad_with_margins output_640x480).1.total_region.x1 ≤
      (recalculate_regions_if_needed env_ok 0 pad_with_margins output_640x480).1.total_region.x2 :=
  ⟨by decide,
    (total_region_not_inverted_iff env_ok 0 pad_with_margins output_640x480 (by decide)
      (by decide) (by decide) (by decide) (by decide)).1.mpr (by decide)⟩

/-! ## Lemmas on the locks along a trace -/

theorem locks_after_append (s : LockState) (t1 t2 : List Event) :
    locks_after s (t1 ++ t2) = locks_after (locks_after s t1) t2 := by
  simp [locks_after, List.foldl_append]

theorem locks_at_submissions_cons (s : LockState) (e : Event) (rest : List Event) :
    locks_at_submissions s (e :: rest) =
      if e.is_upload || e.is_blit then s :: locks_at_submissions s rest
      else locks_at_submissions (s.step e) rest := rfl

theorem locks_at_submissions_append (t1 t2 : List Event) :
    ∀ s, locks_at_submissions s (t1 ++ t2) =
      locks_at_submissions s t1 ++ locks_at_submissions (locks_after s t1) t2 := by
  induction t1 with
  | nil => intro s; rfl
  | cons e rest ih =>
    intro s
    rw [List.cons_append, locks_at_submissions_cons, locks_at_submissions_cons]
    rcases Bool.eq_false_or_eq_true (e.is_upload || e.is_blit) with h | h
    · have hs : s.step e = s := by
        cases e <;> simp [Event.is_upload, Event.is_blit] at h <;> rfl
      rw [h, if_pos rfl, if_pos rfl, ih, List.cons_append]
      simp only [locks_after, List.foldl_cons, hs]
    · rw [h, if_neg Bool.false_ne_true, if_neg Bool.false_ne_true, ih]
      rfl

/-- Taking and releasing the lock of a pad, with no pad lock held before,
leaves the locks as they were. -/
theorem locks_after_lock_unlock_pad (s : LockState) (i : Nat) (h : s.pads = []) :
    (s.step (Event.lock_pad i)).step (Event.unlock_pad i) = s := by
  cases s
  simp only at h
  subst h
  simp [LockState.step]

theorem recalculate_locks (env : Env) (i : Nat) (pad : GstImx2dCompositorPad)
    (out : GstVideoInfo) (s : LockState) (h : s.pads = []) :
    locks_after s (recalculate_regions_if_needed env i pad out).2 = s ∧
    locks_at_submissions s (recalculate_regions_if_needed env i pad out).2 = [] := by
  rcases Bool.eq_false_or_eq_true pad.region_coords_need_update with hd | hd
  · rw [recalculate_dirty env i pad out hd]
    simp only [recalculate_inner]
    split
    · simp only [locks_after, List.foldl_cons, List.foldl_nil, locks_at_submissions,
        Event.is_upload, Event.is_blit, Bool.or_self, Bool.false_eq_true, if_false,
        locks_after_lock_unlock_pad s i h]
      exact ⟨rfl, trivial⟩
    · exact ⟨rfl, rfl⟩
  · rw [recalculate_clean env i pad out hd]
    exact ⟨rfl, rfl⟩

theorem pass1_locks (env : Env) (out : GstVideoInfo) (s : LockState) (h : s.pads = []) :
    ∀ (pads : List GstImx2dCompositorPad) (k : Nat) (c : Bool),
      locks_after s (pass1 env out k pads c).trace = s ∧
      locks_at_submissions s (pass1 env out k pads c).trace = [] := by
  intro pads
  induction pads with
  | nil => intro k c; exact ⟨rfl, rfl⟩
  | cons pad rest ih =>
    intro k c
    obtain ⟨h1, h2⟩ := recalculate_locks env k pad out s h
    simp only [pass1]
    rw [locks_after_append, locks_at_submissions_append, h1, h2]
    obtain ⟨h3, h4⟩ := ih (k + 1)
      (pass1_decide (recalculate_regions_if_needed env k pad out).1 c)
    exact ⟨h3, by rw [h4]; rfl⟩

theorem pass2_locks (env : Env) (s : LockState) (h : s.pads = []) :
    ∀ (pads : List GstImx2dCompositorPad) (k : Nat) (bp : Imx2dBlitParams) (fr : Int),
      locks_after s (pass2 env k pads bp fr).trace = s ∧
      ∀ t ∈ locks_at_submissions s (pass2 env k pads bp fr).trace, t = s := by
  intro pads
  induction pads with
  | nil =>
    intro k bp fr
    exact ⟨rfl, fun t ht => by simp [pass2, locks_at_submissions] at ht⟩
  | cons pad rest ih =>
    intro k bp fr
    have hstep := locks_after_lock_unlock_pad s k h
    cases hbuf : pad.current_buffer with
    | none =>
      rw [pass2_cons_no_buffer env k pad rest bp fr hbuf]
      exact ih (k + 1) bp fr
    | some buf =>
      by_cases hup : env.uploader_perform k ≠ GST_FLOW_OK
      · rw [pass2_cons_upload_failed env k pad rest bp fr buf hbuf hup]
        simp only [locks_after, List.foldl_cons, List.foldl_nil, locks_at_submissions,
          Event.is_upload, Event.is_blit, Bool.or_self, Bool.false_eq_true, if_false,
          Bool.or_false, if_true, hstep, List.mem_singleton]
        exact ⟨rfl, fun t ht => ht⟩
      · have hup1 : env.uploader_perform k = GST_FLOW_OK := not_not.mp hup
        rcases Bool.eq_false_or_eq_true (env.blitter_do_blit k) with hb | hb
        · rw [pass2_cons_blitted env k pad rest bp fr buf hbuf hup1 hb]
          obtain ⟨h3, h4⟩ := ih (k + 1) (fill_blit_params env pad buf bp)
            (env.uploader_perform k)
          rw [locks_after_append, locks_at_submissions_append]
          simp only [locks_after, List.foldl_cons, List.foldl_nil, locks_at_submissions,
            Event.is_upload, Event.is_blit, Bool.or_self, Bool.false_eq_true, if_false,
            Bool.or_false, Bool.or_true, Bool.false_or, if_true, hstep, List.mem_append,
            List.mem_cons, List.mem_singleton] at h3 h4 ⊢
          refine ⟨h3, ?_⟩
          intro t ht
          rcases ht with (ht | ht | ht) | ht
          · exact ht
          · exact ht
          · simp at ht
          · exact h4 t ht
        · rw [pass2_cons_blit_failed env k pad rest bp fr buf hbuf hup1 hb]
          simp only [locks_after, List.foldl_cons, List.foldl_nil, locks_at_submissions,
            Event.is_upload, Event.is_blit, Bool.or_self, Bool.false_eq_true, if_false,
            Bool.or_false, Bool.or_true, Bool.false_or, if_true, hstep, List.mem_cons,
            List.mem_singleton]
          refine ⟨rfl, ?_⟩
          intro t ht
          rcases ht with ht | ht | ht
          · exact ht
          · exact ht
          · simp at ht

theorem finish_label_locks (env : Env) (started : Bool) (fr : Int) (s : LockState) :
    locks_after s (finish_label env started fr).2 = s ∧
    locks_at_submissions s (finish_label env started fr).2 = [] := by
  simp only [finish_label]
  cases started <;> cases env.blitter_finish <;> cases env.transfer_to_output_buffer <;>
    simp <;> split <;> exact ⟨rfl, rfl⟩

theorem aggregate_locked_locks (env : Env) (self : GstImx2dCompositor) (fr : Int)
    (s : LockState) (h : s.pads = []) :
    locks_after s (aggregate_locked env self fr).trace = s ∧
    ∀ t ∈ locks_at_submissions s (aggregate_locked env self fr).trace, t = s := by
  obtain ⟨h1, h2⟩ := pass1_locks env self.output_video_info s h self.sinkpads 0 true
  have hfill : ∀ c, locks_after s [Event.blitter_fill_region none c] = s ∧
      locks_at_submissions s [Event.blitter_fill_region none c] = [] :=
    fun c => ⟨rfl, rfl⟩
  simp only [aggregate_locked]
  split
  · rw [locks_after_append, locks_at_submissions_append, h1, h2, (hfill _).1, (hfill _).2]
    exact ⟨rfl, fun t ht => by simp at ht⟩
  · obtain ⟨h3, h4⟩ := pass2_locks env s h
      (pass1 env self.output_video_info 0 self.sinkpads true).sinkpads 0 blit_params_zero fr
    rw [locks_after_append, locks_at_submissions_append, locks_after_append,
      locks_at_submissions_append, h1, h2]
    split
    · rw [(hfill _).1, (hfill _).2, h3]
      exact ⟨rfl, fun t ht => h4 t (by simpa using ht)⟩
    · exact ⟨h3, fun t ht => h4 t (by simpa [locks_after, locks_at_submissions] using ht)⟩

/-- The locks along the trace of a frame: none is held at the end, and at
every upload and blit exactly the compositor lock is held. -/
theorem aggregate_frames_locks (env : Env) (self : GstImx2dCompositor) :
    locks_after LockState.unlocked (aggregate_frames env self).trace = LockState.unlocked ∧
    ∀ t ∈ locks_at_submissions LockState.unlocked (aggregate_frames env self).trace,
      t = LockState.compositor_locked := by
  simp only [aggregate_frames]
  split
  · obtain ⟨h1, h2⟩ := finish_label_locks env false
      (error_label env.acquire_intermediate_buffer) LockState.unlocked
    rw [locks_after_append, locks_at_submissions_append]
    exact ⟨h1, fun t ht => by
      rw [show locks_after LockState.unlocked [Event.acquire_intermediate_buffer] =
        LockState.unlocked from rfl, h2] at ht
      simp [locks_at_submissions, Event.is_upload, Event.is_blit] at ht⟩
  · split
    · obtain ⟨h1, h2⟩ := finish_label_locks env false
        (error_label env.acquire_intermediate_buffer) LockState.unlocked
      rw [locks_after_append, locks_at_submissions_append]
      exact ⟨h1, fun t ht => by
        rw [show locks_after LockState.unlocked
          [Event.acquire_intermediate_buffer, Event.blitter_start] =
          LockState.unlocked from rfl, h2] at ht
        simp [locks_at_submissions, Event.is_upload, Event.is_blit] at ht⟩
    · obtain ⟨h1, h2⟩ := aggregate_locked_locks env self env.acquire_intermediate_buffer
        LockState.compositor_locked rfl
      obtain ⟨h3, h4⟩ := finish_label_locks env true
        (aggregate_locked env self env.acquire_intermediate_buffer).flow_ret LockState.unlocked
      have hpre : locks_after LockState.unlocked
          [Event.acquire_intermediate_buffer, Event.blitter_start, Event.lock_compositor] =
          LockState.compositor_locked := rfl
      have hpre2 : locks_at_submissions LockState.unlocked
          [Event.acquire_intermediate_buffer, Event.blitter_start, Event.lock_compositor] =
          [] := rfl
      have hpost : locks_after LockState.compositor_locked [Event.unlock_compositor] =
          LockState.unlocked := rfl
      have hpost2 : locks_at_submissions LockState.compositor_locked
          [Event.unlock_compositor] = [] := rfl
      simp only [locks_after_append, locks_at_submissions_append, hpre, hpre2, h1, hpost,
        hpost2, h3, h4, List.nil_append, List.append_nil]
      exact ⟨trivial, h2⟩

/-! ## The claims on the locks -/

/-- C25 (counterexample): in the frame of `compositor_two_pads`, which uploads
and blits both pads without a failure, the object lock of the compositor is held
at each of the four upload and blit calls. -/
theorem compositor_lock_held_at_submissions :
    (aggregate_frames env_ok compositor_two_pads).flow_ret = GST_FLOW_OK ∧
    locks_at_submissions LockState.unlocked (aggregate_frames env_ok compositor_two_pads).trace =
      [LockState.compositor_locked, LockState.compositor_locked, LockState.compositor_locked,
        LockState.compositor_locked] ∧
    LockState.compositor_locked.compositor = true := by
  decide

/-- C25 (amended): at the moment of every upload and blit call of a frame, no
pad lock is held, no lock has been misused, and the object lock of the
compositor, which protects the list of pads, is held. -/
theorem pad_locks_released_before_submissions (env : Env) (self : GstImx2dCompositor)
    (t : LockState)
    (ht : t ∈ locks_at_submissions LockState.unlocked (aggregate_frames env self).trace) :
    t.pads = [] ∧ t.misuse = false ∧ t.compositor = true := by
  rw [(aggregate_frames_locks env self).2 t ht]
  exact ⟨rfl, rfl, rfl⟩

/-- C25 (witness): the lock state with only the compositor lock held occurs at
a submission of the frame of `compositor_two_pads`. -/
theorem pad_locks_released_before_submissions_witness :
    LockState.compositor_locked ∈
        locks_at_submissions LockState.unlocked
          (aggregate_frames env_ok compositor_two_pads).trace ∧
      (LockState.compositor_locked.pads = [] ∧ LockState.compositor_locked.misuse = false ∧
        LockState.compositor_locked.compositor = true) :=
  ⟨by decide,
    pad_locks_released_before_submissions env_ok compositor_two_pads
      LockState.compositor_locked (by decide)⟩

/-- C30: whatever the outcomes of acquisition, start, clear, uploads, blits,
finish and transfer are, the trace of a frame takes no lock that is held and
releases no lock that is not held, and at the return neither the object lock of
the compositor nor the object lock of any pad is held. -/
theorem aggregate_releases_every_lock (env : Env) (self : GstImx2dCompositor) :
    (locks_after LockState.unlocked (aggregate_frames env self).trace).compositor = false ∧
    (locks_after LockState.unlocked (aggregate_frames env self).trace).pads = [] ∧
    (locks_after LockState.unlocked (aggregate_frames env self).trace).misuse = false := by
  rw [(aggregate_frames_locks env self).1]
  exact ⟨rfl, rfl, rfl⟩

/-! ## Lemmas on the letterbox of 16:9 and 9:16 sources -/

end Imx2dCompositor
